import Mathlib

/-!
Verification development for the `tasker-contrib` example application
(`examples/fastapi-app`).  The Python sources are shallowly embedded:

* Python floats are modelled as rationals (`ℚ`); `round(x, n)` is modelled
  with round-half-to-even, matching CPython's behaviour on decimal halves.
  The textual rendering of numbers inside message strings is abstracted by
  a simple total rendering function.
* Heterogeneous dict/list payloads are modelled by the inductive `PyVal`;
  dict access, truthiness, comparison and arithmetic follow Python's
  semantics, with exceptions (`KeyError`, `TypeError`, `AttributeError`,
  `AssertionError`) surfaced through `Except`.
* Fresh values from the environment (uuid4 draws, wall-clock timestamps)
  are supplied by a `World` oracle; deterministic algorithms that are not
  re-implemented (md5, sha256, the Mersenne-Twister stream behind
  `random.Random(seed)`) are supplied by an `Algo` oracle: the same
  `Algo` always answers the same way, which is exactly the property those
  algorithms have.
* Errors raised by business code (`tasker_core.errors`) are the inductive
  `TaskerError`; fallible service functions return `Except Err α`.
-/

namespace TaskerContrib

/-- Taxonomy of `tasker_core.errors` exceptions raised by the service layer. -/
inductive TaskerError where
  | validationError (msg : String)
  | permanentError (msg : String)
  | retryableError (msg : String)
  deriving DecidableEq, Repr

/-- Python exceptions that can escape the embedded code. -/
inductive PyExc where
  | keyError (key : String)
  | typeError (msg : String)
  | attributeError (msg : String)
  | valueError (msg : String)
  | assertionError
  deriving DecidableEq, Repr

/-- Unified raise type for the service layer: either a Python exception or a
`tasker_core` error. -/
inductive Err where
  | exc (e : PyExc)
  | tasker (e : TaskerError)
  deriving DecidableEq, Repr

/-- Model of a Python value as it appears in the handlers' heterogeneous
`dict`/`list` payloads. Numbers (`int`/`float`) are collapsed into one
rational-valued case; the distinction is irrelevant to every claim. -/
inductive PyVal where
  | none
  | bool (b : Bool)
  | num (q : ℚ)
  | str (s : String)
  | list (xs : List PyVal)
  | dict (entries : List (String × PyVal))

namespace PyVal

/-- Python truthiness. -/
def truthy : PyVal → Bool
  | .none => false
  | .bool b => b
  | .num q => q ≠ 0
  | .str s => s ≠ ""
  | .list xs => ¬ xs.isEmpty
  | .dict d => ¬ d.isEmpty

/-- `a or b` (Python's short-circuiting, truthiness-based `or`). -/
def pyOr (a b : PyVal) : PyVal := if a.truthy then a else b

/-- Numeric view: Python treats `bool` as an `int` in arithmetic. -/
def asNum? : PyVal → Option ℚ
  | .bool b => some (if b then 1 else 0)
  | .num q => some q
  | _ => Option.none

/-- `a < b`: numbers compare numerically, strings lexicographically,
anything else raises `TypeError` (the only combinations these programs
reach). -/
def pyLt (a b : PyVal) : Except PyExc Bool :=
  match a.asNum?, b.asNum? with
  | some x, some y => .ok (decide (x < y))
  | _, _ =>
    match a, b with
    | .str s, .str t => .ok (decide (s < t))
    | _, _ => .error (.typeError "unsupported operand types for comparison")

/-- `a <= b`. -/
def pyLe (a b : PyVal) : Except PyExc Bool :=
  match a.asNum?, b.asNum? with
  | some x, some y => .ok (decide (x ≤ y))
  | _, _ =>
    match a, b with
    | .str s, .str t => .ok (decide (s ≤ t))
    | _, _ => .error (.typeError "unsupported operand types for comparison")

/-- `a > b`. -/
def pyGt (a b : PyVal) : Except PyExc Bool :=
  match a.asNum?, b.asNum? with
  | some x, some y => .ok (decide (y < x))
  | _, _ =>
    match a, b with
    | .str s, .str t => .ok (decide (t < s))
    | _, _ => .error (.typeError "unsupported operand types for comparison")

/-- `a * b` restricted to numbers (raises `TypeError` otherwise). -/
def pyMul (a b : PyVal) : Except PyExc ℚ :=
  match a.asNum?, b.asNum? with
  | some x, some y => .ok (x * y)
  | _, _ => .error (.typeError "unsupported operand types for mul")

/-- `a + b` restricted to numbers (raises `TypeError` otherwise). -/
def pyAddNum (a b : PyVal) : Except PyExc ℚ :=
  match a.asNum?, b.asNum? with
  | some x, some y => .ok (x + y)
  | _, _ => .error (.typeError "unsupported operand types for add")

/-- Unary `-a` restricted to numbers. -/
def pyNeg (a : PyVal) : Except PyExc ℚ :=
  match a.asNum? with
  | some x => .ok (-x)
  | _ => .error (.typeError "bad operand type for unary minus")

/-- First value bound to `key` in a dict's entry list (Python dicts have
unique keys, so first match is the model). -/
def dictFind (entries : List (String × PyVal)) (key : String) : Option PyVal :=
  entries.lookup key

/-- `v.get(key, default)`: dict lookup with default; on a non-dict value the
attribute access itself raises `AttributeError`. -/
def pyGetD (v : PyVal) (key : String) (default : PyVal) : Except PyExc PyVal :=
  match v with
  | .dict d => .ok ((dictFind d key).getD default)
  | _ => .error (.attributeError "get")

/-- `v[key]`: dict subscript; `KeyError` when missing, `TypeError` when the
value is not subscriptable by a string. -/
def pySubscript (v : PyVal) (key : String) : Except PyExc PyVal :=
  match v with
  | .dict d =>
    match dictFind d key with
    | some x => .ok x
    | Option.none => .error (.keyError key)
  | _ => .error (.typeError "object is not subscriptable")

/-- `v.lower()` (only defined on strings; `AttributeError` otherwise). -/
def pyLower (v : PyVal) : Except PyExc String :=
  match v with
  | .str s => .ok s.toLower
  | _ => .error (.attributeError "lower")

/-- `v is None`. -/
def isNone : PyVal → Bool
  | .none => true
  | _ => false

/-- `v[:n]` (slicing is defined on strings and lists). -/
def pySlice (v : PyVal) (n : ℕ) : Except PyExc PyVal :=
  match v with
  | .str s => .ok (.str (s.take n))
  | .list xs => .ok (.list (xs.take n))
  | _ => .error (.typeError "object is not subscriptable")

/-- Coercion to a number as performed by arithmetic with an int operand. -/
def asNumE (v : PyVal) : Except PyExc ℚ :=
  match v.asNum? with
  | some q => .ok q
  | Option.none => .error (.typeError "unsupported operand type")

/-- `v.strip()` (only defined on strings). -/
def pyStrip (v : PyVal) : Except PyExc String :=
  match v with
  | .str s => .ok s.trim
  | _ => .error (.attributeError "strip")

/-- `sub in s` on plain strings: does `sub` occur as a substring? -/
def strContains (s sub : String) : Bool := decide ((s.splitOn sub).length ≠ 1)

/-- `sub in v` for a string literal `sub`: substring test on strings, element
equality on lists, key membership on dicts, `TypeError` otherwise. -/
def pyContains (v : PyVal) (sub : String) : Except PyExc Bool :=
  match v with
  | .str s => .ok (strContains s sub)
  | .list xs => .ok (xs.any fun x => match x with | .str t => t = sub | _ => false)
  | .dict d => .ok (d.any fun kv => kv.1 = sub)
  | _ => .error (.typeError "argument is not iterable")

/-- `v.split(sep)[0]` (only defined on strings). -/
def pySplitFirst (v : PyVal) (sep : String) : Except PyExc String :=
  match v with
  | .str s => .ok ((s.splitOn sep).headD s)
  | _ => .error (.attributeError "split")

end PyVal

/-- `x in tokens` for a set of string constants: any non-container value is
hashable and simply fails the membership test when it is not one of the
strings; lists/dicts are unhashable and raise `TypeError`. -/
def pyInStrs (v : PyVal) (tokens : List String) : Except PyExc Bool :=
  match v with
  | .str s => .ok (decide (s ∈ tokens))
  | .list _ => .error (.typeError "unhashable type")
  | .dict _ => .error (.typeError "unhashable type")
  | _ => .ok false

/-- Round-half-to-even to an integer (CPython `round` on exact halves). -/
def roundHalfEven (x : ℚ) : ℤ :=
  let f : ℤ := x.floor
  let frac : ℚ := x - f
  if frac < 1/2 then f
  else if 1/2 < frac then f + 1
  else if f % 2 = 0 then f else f + 1

/-- `round(x, 2)`. -/
def round2 (x : ℚ) : ℚ := (roundHalfEven (x * 100) : ℚ) / 100

/-- `round(x, 1)`. -/
def round1 (x : ℚ) : ℚ := (roundHalfEven (x * 10) : ℚ) / 10

/-- Rendering of a rational for interpolation into message strings.
Abstracts CPython's float `repr` (message texts never decide a claim). -/
def qRender (q : ℚ) : String :=
  if q.den = 1 then toString q.num else toString q.num ++ "/" ++ toString q.den

/-- `f"{x:.2f}"` on a rational. -/
def formatFixed2 (x : ℚ) : String :=
  let c : ℤ := roundHalfEven (x * 100)
  let sign := if c < 0 then "-" else ""
  let a := c.natAbs
  let cents := a % 100
  sign ++ toString (a / 100) ++ "." ++ (if cents < 10 then "0" else "") ++ toString cents

/-- `str(v)` rendering used in f-string interpolations; total, abstracting
CPython's exact `repr` for containers (message texts never decide a claim). -/
def pyRender : PyVal → String
  | .none => "None"
  | .bool b => if b then "True" else "False"
  | .num q => qRender q
  | .str s => s
  | .list _ => "[...]"
  | .dict _ => "\x7b...\x7d"

/-- `f"{v:.2f}"`: fixed-point formatting demands a numeric value
(CPython raises on a non-numeric operand). -/
def pyFormatFixed2 (v : PyVal) : Except PyExc String :=
  match v.asNum? with
  | some q => .ok (formatFixed2 q)
  | Option.none => .error (.valueError "unknown format code f")

/-- Environment oracle: fresh values drawn from the outside world during one
call: successive `uuid4().hex` results and the renderings of
`datetime.now(timezone.utc)` used by the code (`isoformat()`,
`strftime("%Y%m%d")`, `(now + 7 days).strftime("%B %d, %Y")`,
`(now - 30 days).isoformat()`). -/
structure World where
  uuidHex : ℕ → String
  nowIso : String
  nowDate : String
  plus7LongDate : String
  minus30Iso : String
  plusDaysIso : ℕ → String
  nowMonth : String
  daysSinceIso : String → Option ℤ

/-- Deterministic-algorithm oracle: md5/sha256 digests and the
Mersenne-Twister raw stream behind `random.Random(seed)`.  `md5Head n s`
stands for `int(hashlib.md5(s.encode()).hexdigest()[:n], 16)` (the digest
is always parseable hex, so the composite is a total function of `s`);
`rand seed i` is the `i`-th raw draw of the generator seeded with `seed`;
`pyHash v` is CPython's `hash()` on a hashable value. -/
structure Algo where
  md5Head : ℕ → String → ℕ
  sha256Hex : String → String
  rand : ℕ → ℕ → ℕ
  pyHash : PyVal → ℤ

/-- A trivial world oracle for concrete evaluations (`daysSinceIso`
returning `none` models the caught-`ValueError` parse path). -/
def world0 : World :=
  ⟨fun _ => "0123456789abcdef0123456789abcdef", "T0", "20260101", "January 08, 2026", "T-30",
   fun n => "T+" ++ toString n, "2026-01", fun _ => Option.none⟩

/-- A trivial algorithm oracle for concrete evaluations. -/
def algo0 : Algo :=
  ⟨fun _ _ => 0, fun _ => "e3b0c44298fc1c149afbf4c8996fb924", fun _ _ => 0, fun _ => 0⟩

/-- Lift a Python exception into the unified service-layer raise type. -/
def liftE : Except PyExc α → Except Err α
  | .ok a => .ok a
  | .error e => .error (.exc e)

/-- Python `a or b` on an optional string against a string default
(`None` and `""` are falsy). -/
def pyStrOr (a : Option String) (b : String) : String :=
  match a with
  | some s => if s = "" then b else s
  | Option.none => b

/-- Python `a or b` on two optional strings (`None` and `""` are falsy). -/
def strOptOr (a b : Option String) : Option String :=
  match a with
  | some s => if s = "" then b else some s
  | Option.none => b

/-- Python `a or b` on numbers (`0` is falsy). -/
def qOr (a b : ℚ) : ℚ := if a = 0 then b else a

/-- Python `a or b` on optional numbers (`None` and `0` are falsy). -/
def qOptOr (a : Option ℚ) (b : ℚ) : ℚ :=
  match a with
  | some q => if q = 0 then b else q
  | Option.none => b

/-- Truthiness of an optional number (`None` and `0` are falsy). -/
def qOptTruthy : Option ℚ → Bool
  | some q => q ≠ 0
  | Option.none => false

/-- Truthiness of an optional string (`None` and `""` are falsy). -/
def strOptTruthy : Option String → Bool
  | some s => s ≠ ""
  | Option.none => false

/-!
## Embedding of `app/services/ecommerce.py`

Pure business functions for the 5-step sequential e-commerce workflow.
-/

namespace Ecommerce

/-- A Python `dict[str, Any]` as fed to the service layer. -/
abbrev Dict := List (String × PyVal)

def TAX_RATE : ℚ := 8/100

def FREE_SHIPPING_THRESHOLD : ℚ := 100

def STANDARD_SHIPPING : ℚ := 999/100

def DECLINED_TOKENS : List String := ["tok_test_declined", "tok_test_insufficient_funds"]

def ERROR_TOKENS : List String := ["tok_test_gateway_error", "tok_test_timeout"]

/-- Result model `EcommerceValidateCartResult` (`services/types.py`), with the
fields `validate_cart_items` always populates. -/
structure EcommerceValidateCartResult where
  validated_items : List PyVal
  item_count : ℕ
  subtotal : ℚ
  tax : ℚ
  tax_rate : ℚ
  shipping : ℚ
  total : ℚ
  validated_at : String

/-- The `for idx, item in enumerate(cart_items)` loop of
`validate_cart_items`: validates each item, accumulates the validated-item
dicts and the running subtotal, and raises `PermanentError` on the first
invalid item. -/
def validateItemsLoop : List Dict → ℕ → Except Err (List PyVal × ℚ)
  | [], _ => .ok ([], 0)
  | item :: rest, idx =>
    let sku := (PyVal.dictFind item "sku").getD .none
    let name := (PyVal.dictFind item "name").getD .none
    let quantity := (PyVal.dictFind item "quantity").getD (.num 0)
    let unit_price := (PyVal.dictFind item "unit_price").getD (.num 0)
    if ¬ sku.truthy || ¬ name.truthy then
      .error (.tasker (.permanentError
        ("Item at index " ++ toString idx ++ " missing sku or name")))
    else do
      let qlt ← liftE (PyVal.pyLt quantity (.num 1))
      if qlt then
        .error (.tasker (.permanentError
          ("Item \x27" ++ pyRender sku ++ "\x27 has invalid quantity: " ++ pyRender quantity)))
      else do
        let ple ← liftE (PyVal.pyLe unit_price (.num 0))
        if ple then
          .error (.tasker (.permanentError
            ("Item \x27" ++ pyRender sku ++ "\x27 has invalid price: " ++ pyRender unit_price)))
        else do
          let prodQ ← liftE (PyVal.pyMul quantity unit_price)
          let line_total := round2 prodQ
          let vitem : PyVal := .dict
            [("sku", sku), ("name", name), ("quantity", quantity),
             ("unit_price", unit_price), ("line_total", .num line_total)]
          let (vs, st) ← validateItemsLoop rest (idx + 1)
          .ok (vitem :: vs, line_total + st)

/-- `validate_cart_items`: validate cart items and calculate order totals. -/
def validate_cart_items (cart_items : Option (List Dict)) (w : World) :
    Except Err EcommerceValidateCartResult :=
  match cart_items with
  | some items@(_ :: _) => do
    let (validated_items, subtotalRaw) ← validateItemsLoop items 0
    let subtotal := round2 subtotalRaw
    let tax := round2 (subtotal * TAX_RATE)
    let shipping := if FREE_SHIPPING_THRESHOLD ≤ subtotal then 0 else STANDARD_SHIPPING
    let total := round2 (subtotal + tax + shipping)
    .ok { validated_items := validated_items, item_count := validated_items.length,
          subtotal := subtotal, tax := tax, tax_rate := TAX_RATE,
          shipping := shipping, total := total, validated_at := w.nowIso }
  | _ => .error (.tasker (.permanentError "Cart is empty or items field is missing"))

/-- Result model `EcommerceProcessPaymentResult` (`services/types.py`). -/
structure EcommerceProcessPaymentResult where
  payment_id : String
  transaction_id : String
  authorization_code : String
  amount_charged : ℚ
  currency : String
  payment_method_type : String
  gateway_response : String
  status : String
  processed_at : String

/-- `payment_token or "tok_test_success"`. -/
def resolveToken (payment_token : Option String) : String :=
  pyStrOr payment_token "tok_test_success"

/-- `process_payment`: process payment through the simulated gateway. -/
def process_payment (payment_token : Option String) (total : ℚ) (algo : Algo) (w : World) :
    Except Err EcommerceProcessPaymentResult :=
  let tok := resolveToken payment_token
  if tok ∈ DECLINED_TOKENS then
    .error (.tasker (.permanentError ("Payment declined for token " ++ tok)))
  else if tok ∈ ERROR_TOKENS then
    .error (.tasker (.retryableError "Payment gateway returned an error, will retry"))
  else
    let transaction_id := "txn_" ++ (w.uuidHex 0).take 16
    let authorization_code :=
      ((algo.sha256Hex (tok ++ ":" ++ qRender total ++ ":" ++ transaction_id)).take 12).toUpper
    let payment_id := "pay_" ++ (w.uuidHex 1).take 12
    .ok { payment_id := payment_id, transaction_id := transaction_id,
          authorization_code := authorization_code, amount_charged := total,
          currency := "USD", payment_method_type := "card",
          gateway_response := "approved", status := "completed", processed_at := w.nowIso }

/-- Result model `EcommerceUpdateInventoryResult` (`services/types.py`). -/
structure EcommerceUpdateInventoryResult where
  updated_products : List PyVal
  total_items_reserved : ℚ
  inventory_changes : List PyVal
  inventory_log_id : String
  updated_at : String

/-- The reservation loop of `update_inventory`; draws two fresh uuids per
item (reservation id and per-change log id), so iteration `i` uses uuid
draws `2*i` and `2*i+1`. -/
def updateInventoryLoop (w : World) : List PyVal → ℕ → Except Err (List PyVal × List PyVal × ℚ)
  | [], _ => .ok ([], [], 0)
  | item :: rest, i => do
    let reservation_id := "res_" ++ (w.uuidHex (2 * i)).take 12
    let quantity ← liftE (item.pySubscript "quantity")
    let qn ← liftE (PyVal.pyAddNum (.num 0) quantity)
    let sku ← liftE (item.pyGetD "sku" .none)
    let name ← liftE (item.pyGetD "name" .none)
    let product : PyVal := .dict
      [("product_id", sku), ("name", name), ("quantity_reserved", quantity),
       ("reservation_id", .str reservation_id), ("warehouse", .str "WH-EAST-01"),
       ("status", .str "reserved")]
    let negq ← liftE (PyVal.pyNeg quantity)
    let change : PyVal := .dict
      [("product_id", sku), ("change_type", .str "reservation"),
       ("quantity", .num negq), ("reason", .str "order_checkout"),
       ("reservation_id", .str reservation_id),
       ("inventory_log_id", .str ("log_" ++ (w.uuidHex (2 * i + 1)).take 6))]
    let (ups, chgs, tot) ← updateInventoryLoop w rest (i + 1)
    .ok (product :: ups, change :: chgs, qn + tot)

/-- `update_inventory`: create inventory reservations for validated items. -/
def update_inventory (validated_items : List PyVal) (w : World) :
    Except Err EcommerceUpdateInventoryResult := do
  let (ups, chgs, tot) ← updateInventoryLoop w validated_items 0
  .ok { updated_products := ups, total_items_reserved := tot, inventory_changes := chgs,
        inventory_log_id := "log_" ++ (w.uuidHex (2 * validated_items.length)).take 8,
        updated_at := w.nowIso }

/-- Result model `EcommerceCreateOrderResult` (`services/types.py`). -/
structure EcommerceCreateOrderResult where
  order_id : String
  order_number : String
  customer_email : Option String
  items : List PyVal
  item_count : ℕ
  subtotal : ℚ
  tax : ℚ
  shipping : ℚ
  total : ℚ
  total_amount : ℚ
  payment_id : String
  transaction_id : String
  authorization_code : String
  updated_products : List PyVal
  inventory_log_id : String
  status : String
  created_at : String
  estimated_delivery : String

/-- `create_order`: aggregate upstream results into the final order record. -/
def create_order (cart : EcommerceValidateCartResult)
    (payment : EcommerceProcessPaymentResult)
    (inventory : EcommerceUpdateInventoryResult)
    (customer_email : Option String) (w : World) : EcommerceCreateOrderResult :=
  let order_id := "ORD-" ++ ((w.uuidHex 0).take 8).toUpper
  let order_number := "ORD-" ++ w.nowDate ++ "-" ++ ((w.uuidHex 1).take 8).toUpper
  let total_amount := cart.total
  { order_id := order_id, order_number := order_number, customer_email := customer_email,
    items := cart.validated_items, item_count := cart.item_count,
    subtotal := cart.subtotal, tax := cart.tax, shipping := cart.shipping,
    total := cart.total, total_amount := total_amount,
    payment_id := payment.payment_id, transaction_id := payment.transaction_id,
    authorization_code := payment.authorization_code,
    updated_products := inventory.updated_products,
    inventory_log_id := inventory.inventory_log_id, status := "confirmed",
    created_at := w.nowIso, estimated_delivery := w.plus7LongDate }

/-- Result model `EcommerceSendConfirmationResult` (`services/types.py`). -/
structure EcommerceSendConfirmationResult where
  email_sent : Bool
  recipient : String
  email_type : String
  message_id : String
  subject : String
  body_preview : String
  channel : String
  template : String
  status : String
  sent_at : String

/-- `send_confirmation`: send the order confirmation email. -/
def send_confirmation (order : EcommerceCreateOrderResult)
    (customer_email : Option String) (w : World) : EcommerceSendConfirmationResult :=
  let message_id := "msg_" ++ (w.uuidHex 0).take 16
  let recipient := pyStrOr customer_email (pyStrOr order.customer_email "unknown@example.com")
  let order_id := if order.order_id = "" then "UNKNOWN" else order.order_id
  let total := qOr order.total 0
  let item_count := if order.item_count = 0 then 0 else order.item_count
  let subject := "Order Confirmation - " ++ order_id
  let body_preview :=
    "Thank you for your order! Your order " ++ order_id ++ " containing " ++
    toString item_count ++ " item(s) totalling $" ++ formatFixed2 total ++
    " has been confirmed. We\x27ll notify you when your items ship."
  { email_sent := true, recipient := recipient, email_type := "order_confirmation",
    message_id := message_id, subject := subject, body_preview := body_preview,
    channel := "email", template := "order_confirmation_v2", status := "sent",
    sent_at := w.nowIso }

/-- The linear 5-step chain of the e-commerce workflow
(`validate_cart -> process_payment -> update_inventory -> create_order
-> send_confirmation`), wired with the data flow the handlers use:
payment charges the cart total, inventory reserves the validated items,
the order aggregates all three, the confirmation reads the order.  Each
step runs in its own fresh-value environment. -/
def checkoutPipeline (cart_items : Option (List Dict)) (payment_token : Option String)
    (customer_email : Option String) (algo : Algo) (w1 w2 w3 w4 w5 : World) :
    Except Err (EcommerceValidateCartResult × EcommerceProcessPaymentResult ×
      EcommerceUpdateInventoryResult × EcommerceCreateOrderResult ×
      EcommerceSendConfirmationResult) := do
  let cart ← validate_cart_items cart_items w1
  let payment ← process_payment payment_token cart.total algo w2
  let inventory ← update_inventory cart.validated_items w3
  let order := create_order cart payment inventory customer_email w4
  let confirmation := send_confirmation order customer_email w5
  .ok (cart, payment, inventory, order, confirmation)

/-- A cart item providing all the fields `validate_cart_items` demands:
truthy `sku` and `name`, a numeric `quantity ≥ 1` and a numeric
`unit_price > 0`. -/
def ItemOk (item : Dict) : Prop :=
  ((PyVal.dictFind item "sku").getD .none).truthy = true ∧
  ((PyVal.dictFind item "name").getD .none).truthy = true ∧
  (∃ q : ℚ, PyVal.dictFind item "quantity" = some (.num q) ∧ 1 ≤ q) ∧
  (∃ p : ℚ, PyVal.dictFind item "unit_price" = some (.num p) ∧ 0 < p)

/-- A validated-item payload as produced by `validateItemsLoop`: a dict
whose `"quantity"` entry is numeric (all `update_inventory` needs). -/
def GoodVItem (v : PyVal) : Prop :=
  ∃ entries q, v = PyVal.dict entries ∧ PyVal.dictFind entries "quantity" = some (.num q)

end Ecommerce


/-!
## Embedding of the step-handler layer

`StepContext`, `StepHandlerResult` and `ErrorType` model the documented
`tasker_core` handler interface; the `call` functions below embed the
handler classes of `app/handlers/ecommerce.py`,
`app/handlers/customer_success.py`, `app/handlers/payments.py` and
`app/handlers/microservices.py`.
-/

/-- The `tasker_core.ErrorType` values used by the handlers. -/
inductive ErrorType where
  | validationError
  | permanentError
  | retryableError
  | handlerError
  deriving DecidableEq, Repr

/-- The payload of `StepHandlerResult.failure(...)`. -/
structure FailureInfo where
  message : String
  error_type : ErrorType
  retryable : Bool
  error_code : Option String := Option.none

/-- `tasker_core.StepHandlerResult`: structured success or failure. -/
inductive StepHandlerResult where
  | success (result : PyVal) (metadata : PyVal)
  | failure (info : FailureInfo)

/-- A step's execution context: the task's input context and the result
payloads of completed predecessor steps, keyed by step name. -/
structure StepContext where
  inputs : List (String × PyVal)
  deps : List (String × PyVal)

namespace StepContext

/-- Accessor contract of `StepContext.get_input`: the task-context value
for the key, `None` when absent. -/
def getInput (ctx : StepContext) (key : String) : PyVal :=
  (ctx.inputs.lookup key).getD .none

/-- Accessor contract of `StepContext.get_dependency_result`: the named
predecessor's result payload, `None` when absent. -/
def getDependencyResult (ctx : StepContext) (name : String) : PyVal :=
  (ctx.deps.lookup name).getD .none

/-- Accessor contract of `StepContext.get_dependency_field`: one field out
of the named predecessor's result payload, `None` when absent. -/
def getDependencyField (ctx : StepContext) (name key : String) : PyVal :=
  match (ctx.deps.lookup name).getD .none with
  | .dict d => (PyVal.dictFind d key).getD .none
  | _ => .none

end StepContext

namespace Handlers

def ValidateCartHandler.TAX_RATE : ℚ := 8/100

def ValidateCartHandler.FREE_SHIPPING_THRESHOLD : ℚ := 100

def ValidateCartHandler.STANDARD_SHIPPING : ℚ := 999/100

/-- The item-validation loop of `ValidateCartHandler.call`: an early
`return` of a failure result is `Sum.inl`; normal completion carries the
validated items and the running subtotal. -/
def ValidateCartHandler.loop :
    List PyVal → ℕ → Except PyExc (StepHandlerResult ⊕ (List PyVal × ℚ))
  | [], _ => .ok (.inr ([], 0))
  | item :: rest, idx => do
    let sku ← item.pyGetD "sku" .none
    let name ← item.pyGetD "name" .none
    let quantity ← item.pyGetD "quantity" (.num 0)
    let unit_price ← item.pyGetD "unit_price" (.num 0)
    if ¬ sku.truthy || ¬ name.truthy then
      .ok (.inl (.failure
        ⟨"Item at index " ++ toString idx ++ " missing sku or name",
         .validationError, false, some "INVALID_ITEM"⟩))
    else do
      let qlt ← PyVal.pyLt quantity (.num 1)
      if qlt then
        .ok (.inl (.failure
          ⟨"Item \x27" ++ pyRender sku ++ "\x27 has invalid quantity: " ++ pyRender quantity,
           .validationError, false, some "INVALID_QUANTITY"⟩))
      else do
        let ple ← PyVal.pyLe unit_price (.num 0)
        if ple then
          .ok (.inl (.failure
            ⟨"Item \x27" ++ pyRender sku ++ "\x27 has invalid price: " ++ pyRender unit_price,
             .validationError, false, some "INVALID_PRICE"⟩))
        else do
          let prodQ ← PyVal.pyMul quantity unit_price
          let line_total := round2 prodQ
          let vitem : PyVal := .dict
            [("sku", sku), ("name", name), ("quantity", quantity),
             ("unit_price", unit_price), ("line_total", .num line_total)]
          match ← ValidateCartHandler.loop rest (idx + 1) with
          | .inl r => .ok (.inl r)
          | .inr (vs, stq) => .ok (.inr (vitem :: vs, line_total + stq))

/-- `ValidateCartHandler.call`: the guard
`not cart_items or not isinstance(cart_items, list)` holds exactly when
the resolved value is not a non-empty list. -/
def ValidateCartHandler.call (w : World) (ctx : StepContext) :
    Except PyExc StepHandlerResult :=
  match PyVal.pyOr (ctx.getInput "items") (ctx.getInput "cart_items") with
  | .list (item :: rest) => do
    match ← ValidateCartHandler.loop (item :: rest) 0 with
    | .inl r => .ok r
    | .inr (validated_items, subtotalRaw) =>
      let subtotal := round2 subtotalRaw
      let tax := round2 (subtotal * ValidateCartHandler.TAX_RATE)
      let shipping :=
        if ValidateCartHandler.FREE_SHIPPING_THRESHOLD ≤ subtotal then 0
        else ValidateCartHandler.STANDARD_SHIPPING
      let total := round2 (subtotal + tax + shipping)
      .ok (.success
        (.dict [("validated_items", .list validated_items),
                ("item_count", .num validated_items.length),
                ("subtotal", .num subtotal), ("tax", .num tax),
                ("tax_rate", .num ValidateCartHandler.TAX_RATE),
                ("shipping", .num shipping), ("total", .num total),
                ("validated_at", .str w.nowIso)])
        (.dict [("items_validated", .num validated_items.length)]))
  | _ => .ok (.failure
      ⟨"Cart is empty or items field is missing", .validationError, false,
       some "EMPTY_CART"⟩)

def ProcessPaymentHandler.DECLINED_TOKENS : List String :=
  ["tok_test_declined", "tok_test_insufficient_funds"]

def ProcessPaymentHandler.ERROR_TOKENS : List String :=
  ["tok_test_gateway_error", "tok_test_timeout"]

/-- `ProcessPaymentHandler.call`. -/
def ProcessPaymentHandler.call (algo : Algo) (w : World) (ctx : StepContext) :
    Except PyExc StepHandlerResult :=
  let payment_token := PyVal.pyOr (ctx.getInput "payment_token") (.str "tok_test_success")
  let cart_result := ctx.getDependencyResult "validate_cart"
  if cart_result.isNone then
    .ok (.failure ⟨"Missing validate_cart dependency result", .handlerError, false,
      Option.none⟩)
  else do
    let total ← cart_result.pyGetD "total" (.num 0)
    let declined ← pyInStrs payment_token ProcessPaymentHandler.DECLINED_TOKENS
    if declined then
      .ok (.failure ⟨"Payment declined for token " ++ pyRender payment_token,
        .permanentError, false, some "PAYMENT_DECLINED"⟩)
    else do
      let gatewayErr ← pyInStrs payment_token ProcessPaymentHandler.ERROR_TOKENS
      if gatewayErr then
        .ok (.failure ⟨"Payment gateway returned an error, will retry",
          .retryableError, true, some "GATEWAY_ERROR"⟩)
      else do
        let transaction_id := "txn_" ++ (w.uuidHex 0).take 16
        let authorization_code :=
          ((algo.sha256Hex (pyRender payment_token ++ ":" ++ pyRender total ++ ":" ++
            transaction_id)).take 12).toUpper
        let payment_id := "pay_" ++ (w.uuidHex 1).take 12
        let tokenHead ← payment_token.pySlice 8
        .ok (.success
          (.dict [("payment_id", .str payment_id),
                  ("transaction_id", .str transaction_id),
                  ("authorization_code", .str authorization_code),
                  ("amount_charged", total), ("currency", .str "USD"),
                  ("payment_method_type", .str "card"),
                  ("gateway_response", .str "approved"),
                  ("status", .str "completed"), ("processed_at", .str w.nowIso)])
          (.dict [("gateway", .str "simulated"), ("token_prefix", tokenHead)]))

/-- The reservation loop of `UpdateInventoryHandler.call`; iteration `i`
draws uuids `2*i` and `2*i+1`. -/
def UpdateInventoryHandler.loop (w : World) :
    List PyVal → ℕ → Except PyExc (List PyVal × List PyVal × ℚ)
  | [], _ => .ok ([], [], 0)
  | item :: rest, i => do
    let reservation_id := "res_" ++ (w.uuidHex (2 * i)).take 12
    let quantity ← item.pySubscript "quantity"
    let qn ← PyVal.pyAddNum (.num 0) quantity
    let sku ← item.pyGetD "sku" .none
    let name ← item.pyGetD "name" .none
    let product : PyVal := .dict
      [("product_id", sku), ("name", name), ("quantity_reserved", quantity),
       ("reservation_id", .str reservation_id), ("warehouse", .str "WH-EAST-01"),
       ("status", .str "reserved")]
    let negq ← PyVal.pyNeg quantity
    let change : PyVal := .dict
      [("product_id", sku), ("change_type", .str "reservation"),
       ("quantity", .num negq), ("reason", .str "order_checkout"),
       ("reservation_id", .str reservation_id),
       ("inventory_log_id", .str ("log_" ++ (w.uuidHex (2 * i + 1)).take 6))]
    let (ups, chgs, tot) ← UpdateInventoryHandler.loop w rest (i + 1)
    .ok (product :: ups, change :: chgs, qn + tot)

/-- `UpdateInventoryHandler.call`.  Iterating a non-list payload raises
(in CPython the exact exception class depends on the payload type; the
embedding raises `TypeError` for every non-list). -/
def UpdateInventoryHandler.call (w : World) (ctx : StepContext) :
    Except PyExc StepHandlerResult :=
  let cart_result := ctx.getDependencyResult "validate_cart"
  if cart_result.isNone then
    .ok (.failure ⟨"Missing validate_cart dependency result", .handlerError, false,
      Option.none⟩)
  else do
    let validated_items ← cart_result.pyGetD "validated_items" (.list [])
    match validated_items with
    | .list items => do
      let (ups, chgs, tot) ← UpdateInventoryHandler.loop w items 0
      .ok (.success
        (.dict [("updated_products", .list ups),
                ("total_items_reserved", .num tot),
                ("inventory_changes", .list chgs),
                ("inventory_log_id", .str ("log_" ++ (w.uuidHex (2 * items.length)).take 8)),
                ("updated_at", .str w.nowIso)])
        (.dict [("warehouse", .str "WH-EAST-01")]))
    | _ => .error (.typeError "object is not iterable")

/-- `CreateOrderHandler.call`. -/
def CreateOrderHandler.call (w : World) (ctx : StepContext) :
    Except PyExc StepHandlerResult :=
  let customer_email := ctx.getInput "customer_email"
  let cart_result := ctx.getDependencyResult "validate_cart"
  let payment_result := ctx.getDependencyResult "process_payment"
  let inventory_result := ctx.getDependencyResult "update_inventory"
  if ¬ (cart_result.truthy && payment_result.truthy && inventory_result.truthy) then
    .ok (.failure ⟨"Missing one or more upstream dependency results",
      .handlerError, false, Option.none⟩)
  else do
    let order_id := "ORD-" ++ ((w.uuidHex 0).take 8).toUpper
    let order_number := "ORD-" ++ w.nowDate ++ "-" ++ ((w.uuidHex 1).take 8).toUpper
    let total_amount ← cart_result.pySubscript "total"
    let items ← cart_result.pySubscript "validated_items"
    let item_count ← cart_result.pySubscript "item_count"
    let subtotal ← cart_result.pySubscript "subtotal"
    let tax ← cart_result.pySubscript "tax"
    let shipping ← cart_result.pySubscript "shipping"
    let totalv ← cart_result.pySubscript "total"
    let payment_id ← payment_result.pyGetD "payment_id" .none
    let transaction_id ← payment_result.pySubscript "transaction_id"
    let authorization_code ← payment_result.pyGetD "authorization_code" .none
    let updated_products ← inventory_result.pyGetD "updated_products" .none
    let inventory_log_id ← inventory_result.pyGetD "inventory_log_id" .none
    .ok (.success
      (.dict [("order_id", .str order_id), ("order_number", .str order_number),
              ("customer_email", customer_email), ("items", items),
              ("item_count", item_count), ("subtotal", subtotal), ("tax", tax),
              ("shipping", shipping), ("total", totalv),
              ("total_amount", total_amount), ("payment_id", payment_id),
              ("transaction_id", transaction_id),
              ("authorization_code", authorization_code),
              ("updated_products", updated_products),
              ("inventory_log_id", inventory_log_id),
              ("status", .str "confirmed"), ("created_at", .str w.nowIso),
              ("estimated_delivery", .str w.plus7LongDate)])
      (.dict [("order_id", .str order_id)]))

/-- `SendConfirmationHandler.call`. -/
def SendConfirmationHandler.call (w : World) (ctx : StepContext) :
    Except PyExc StepHandlerResult :=
  let customer_email := ctx.getInput "customer_email"
  let order_result := ctx.getDependencyResult "create_order"
  let _cart_validation := ctx.getDependencyResult "validate_cart"
  if order_result.isNone then
    .ok (.failure ⟨"Missing create_order dependency result", .handlerError, false,
      Option.none⟩)
  else do
    let message_id := "msg_" ++ (w.uuidHex 0).take 16
    let emailDefault ← order_result.pyGetD "customer_email" (.str "unknown@example.com")
    let customer_email := PyVal.pyOr customer_email emailDefault
    let order_id ← order_result.pyGetD "order_id" (.str "UNKNOWN")
    let total ← order_result.pyGetD "total" (.num 0)
    let item_count ← order_result.pyGetD "item_count" (.num 0)
    let subject := "Order Confirmation - " ++ pyRender order_id
    let totalStr ← pyFormatFixed2 total
    let body_preview :=
      "Thank you for your order! Your order " ++ pyRender order_id ++
      " containing " ++ pyRender item_count ++ " item(s) totalling $" ++ totalStr ++
      " has been confirmed. We\x27ll notify you when your items ship."
    .ok (.success
      (.dict [("email_sent", .bool true), ("recipient", customer_email),
              ("email_type", .str "order_confirmation"),
              ("message_id", .str message_id), ("subject", .str subject),
              ("body_preview", .str body_preview), ("channel", .str "email"),
              ("template", .str "order_confirmation_v2"), ("status", .str "sent"),
              ("sent_at", .str w.nowIso)])
      (.dict [("email_provider", .str "simulated"),
              ("template_version", .str "2.0")]))

def ValidateRefundRequestHandler.VALID_REASONS : List String :=
  ["customer_request", "defective_product", "wrong_item", "late_delivery",
   "duplicate_charge", "service_issue"]

def ValidateRefundRequestHandler.MAX_REFUND_AMOUNT : ℚ := 10000

/-- The success tail of `ValidateRefundRequestHandler.call` (everything
after the four validation guards). -/
def ValidateRefundRequestHandler.finish (algo : Algo) (w : World)
    (ticket_id customer_id amount reason customer_email order_ref : PyVal) :
    Except PyExc StepHandlerResult := do
  let request_id := "ref_" ++ (w.uuidHex 0).take 12
  let validation_hash :=
    (algo.sha256Hex (pyRender order_ref ++ ":" ++ pyRender amount ++ ":" ++
      pyRender reason ++ ":" ++ pyRender customer_email)).take 16
  let payment_id := "pay_" ++ (w.uuidHex 1).take 12
  let customer_tier ←
    if customer_id.truthy then do
      let cid ← customer_id.pyLower
      if PyVal.strContains cid "vip" || PyVal.strContains cid "premium" then
        pure "premium"
      else if PyVal.strContains cid "gold" then pure "gold"
      else pure "standard"
    else pure "standard"
  .ok (.success
    (.dict [("request_validated", .bool true), ("ticket_id", ticket_id),
            ("customer_id", customer_id), ("ticket_status", .str "open"),
            ("customer_tier", .str customer_tier),
            ("original_purchase_date", .str w.minus30Iso),
            ("payment_id", .str payment_id),
            ("validation_timestamp", .str w.nowIso),
            ("namespace", .str "customer_success"),
            ("request_id", .str request_id), ("order_ref", order_ref),
            ("amount", amount),
            ("reason", PyVal.pyOr reason (.str "customer_request")),
            ("customer_email", customer_email),
            ("validation_hash", .str validation_hash), ("eligible", .bool true),
            ("validated_at", .str w.nowIso)])
    (.dict [("reason_category", PyVal.pyOr reason (.str "customer_request"))]))

/-- `ValidateRefundRequestHandler.call` (`handlers/customer_success.py`).
The alphabetically sorted `VALID_REASONS` listing in the rejection message
is spelled out literally. -/
def ValidateRefundRequestHandler.call (algo : Algo) (w : World) (ctx : StepContext) :
    Except PyExc StepHandlerResult := do
  let ticket_id := ctx.getInput "ticket_id"
  let customer_id := ctx.getInput "customer_id"
  let refund_amount := ctx.getInput "refund_amount"
  let refund_reason := ctx.getInput "refund_reason"
  let order_ref := ticket_id
  let amount := refund_amount
  let reason := refund_reason
  let customer_email := ctx.getInput "customer_email"
  if ¬ ticket_id.truthy then
    .ok (.failure ⟨"Invalid ticket_id: " ++ pyRender ticket_id,
      .validationError, false, some "INVALID_ORDER_REF"⟩)
  else if ¬ amount.truthy then
    .ok (.failure ⟨"Refund amount must be positive, got: " ++ pyRender amount,
      .validationError, false, some "INVALID_AMOUNT"⟩)
  else do
    let le0 ← PyVal.pyLe amount (.num 0)
    if le0 then
      .ok (.failure ⟨"Refund amount must be positive, got: " ++ pyRender amount,
        .validationError, false, some "INVALID_AMOUNT"⟩)
    else do
      let gtMax ← PyVal.pyGt amount (.num ValidateRefundRequestHandler.MAX_REFUND_AMOUNT)
      if gtMax then do
        let amtStr ← pyFormatFixed2 amount
        .ok (.failure ⟨"Refund amount $" ++ amtStr ++ " exceeds maximum $10000.00",
          .validationError, false, some "AMOUNT_EXCEEDS_MAX"⟩)
      else
        if reason.truthy then do
          let known ← pyInStrs reason ValidateRefundRequestHandler.VALID_REASONS
          if ¬ known then
            .ok (.failure ⟨"Invalid refund reason: " ++ pyRender reason ++
              ". Valid: customer_request, defective_product, duplicate_charge, late_delivery, service_issue, wrong_item",
              .validationError, false, some "INVALID_REASON"⟩)
          else
            ValidateRefundRequestHandler.finish algo w ticket_id customer_id amount
              reason customer_email order_ref
        else
          ValidateRefundRequestHandler.finish algo w ticket_id customer_id amount
            reason customer_email order_ref

/-- The success tail of `ValidateEligibilityHandler.call`. -/
def ValidateEligibilityHandler.finish (w : World)
    (payment_id order_ref amount reason customer_email : PyVal)
    (aq fraud_score : ℚ) : Except PyExc StepHandlerResult :=
  let original_amount := aq + 1000
  let refund_percentage := round2 ((aq / original_amount) * 100)
  let eligibility_id := "elig_" ++ (w.uuidHex 0).take 12
  .ok (.success
    (.dict [("payment_validated", .bool true),
            ("payment_id", PyVal.pyOr payment_id order_ref),
            ("original_amount", .num original_amount), ("refund_amount", amount),
            ("payment_method", .str "credit_card"),
            ("gateway_provider", .str "MockPaymentGateway"),
            ("eligibility_status", .str "eligible"),
            ("validation_timestamp", .str w.nowIso),
            ("namespace", .str "payments_py"),
            ("eligibility_id", .str eligibility_id), ("order_ref", order_ref),
            ("amount", amount), ("refund_percentage", .num refund_percentage),
            ("reason", reason), ("customer_email", customer_email),
            ("fraud_score", .num fraud_score), ("fraud_flagged", .bool false),
            ("within_refund_window", .bool true), ("eligible", .bool true),
            ("validated_at", .str w.nowIso)])
    (.dict [("fraud_score", .num fraud_score)]))

/-- `ValidateEligibilityHandler.call` (`handlers/payments.py`). -/
def ValidateEligibilityHandler.call (algo : Algo) (w : World) (ctx : StepContext) :
    Except PyExc StepHandlerResult := do
  let payment_id := ctx.getInput "payment_id"
  let refund_amount := ctx.getInput "refund_amount"
  let refund_reason := ctx.getInput "refund_reason"
  let _partialRefund := PyVal.pyOr (ctx.getInput "partial_refund") (.bool false)
  let order_ref := PyVal.pyOr (ctx.getInput "order_ref") payment_id
  let amount := PyVal.pyOr refund_amount (ctx.getInput "amount")
  let reason := PyVal.pyOr refund_reason
    (PyVal.pyOr (ctx.getInput "reason") (.str "customer_request"))
  let customer_email := ctx.getInput "customer_email"
  if ¬ payment_id.truthy && ¬ order_ref.truthy then
    .ok (.failure ⟨"Payment ID or order reference is required",
      .validationError, false, some "MISSING_ORDER_REF"⟩)
  else if ¬ amount.truthy then
    .ok (.failure ⟨"Invalid refund amount: " ++ pyRender amount,
      .validationError, false, some "INVALID_AMOUNT"⟩)
  else do
    let le0 ← PyVal.pyLe amount (.num 0)
    if le0 then
      .ok (.failure ⟨"Invalid refund amount: " ++ pyRender amount,
        .validationError, false, some "INVALID_AMOUNT"⟩)
    else do
      let aq ← amount.asNumE
      let fraud_key :=
        if customer_email.truthy then
          pyRender order_ref ++ ":" ++ pyRender customer_email
        else pyRender order_ref ++ ":unknown"
      let fraud_score := round1 ((algo.md5Head 2 fraud_key : ℚ) / 255 * 100)
      if fraud_score > 85 then
        .ok (.failure ⟨"Transaction flagged for fraud review (score: " ++
          qRender fraud_score ++ ")", .permanentError, false, some "FRAUD_FLAGGED"⟩)
      else
        ValidateEligibilityHandler.finish w payment_id order_ref amount reason
          customer_email aq fraud_score

def CreateUserAccountHandler.RESERVED_USERNAMES : List String :=
  ["admin", "root", "system", "support", "test"]

/-- The success tail of `CreateUserAccountHandler.call`. -/
def CreateUserAccountHandler.finish (algo : Algo) (w : World)
    (email name plan phone source user_id_input : PyVal) :
    Except PyExc StepHandlerResult := do
  let internal_id := "usr_" ++ (w.uuidHex 0).take 12
  let userHead ← email.pySplitFirst "@"
  let username := userHead.toLower
  let user_id := PyVal.pyOr user_id_input (.str username)
  let verification_token :=
    (algo.sha256Hex (internal_id ++ ":" ++ pyRender email ++ ":" ++ w.nowIso)).take 32
  .ok (.success
    (.dict [("user_id", user_id), ("email", email), ("name", name),
            ("plan", plan), ("phone", phone), ("source", source),
            ("status", .str "created"), ("internal_id", .str internal_id),
            ("username", .str username), ("full_name", name),
            ("verification_token", .str verification_token),
            ("email_verified", .bool false),
            ("account_status", .str "pending_verification"),
            ("created_at", .str w.nowIso)])
    (.dict [("plan_selected", plan)]))

/-- `CreateUserAccountHandler.call` (`handlers/microservices.py`). -/
def CreateUserAccountHandler.call (algo : Algo) (w : World) (ctx : StepContext) :
    Except PyExc StepHandlerResult := do
  let user_info := PyVal.pyOr (ctx.getInput "user_info") (.dict [])
  let email ← user_info.pyGetD "email" .none
  let name ← user_info.pyGetD "name" .none
  let plan ← user_info.pyGetD "plan" (.str "starter")
  let phone ← user_info.pyGetD "phone" .none
  let source ← user_info.pyGetD "source" (.str "web")
  let user_id_input ← user_info.pyGetD "user_id" .none
  if ¬ email.truthy then
    .ok (.failure ⟨"Invalid email address: " ++ pyRender email,
      .validationError, false, some "INVALID_EMAIL"⟩)
  else do
    let hasAt ← email.pyContains "@"
    if ¬ hasAt then
      .ok (.failure ⟨"Invalid email address: " ++ pyRender email,
        .validationError, false, some "INVALID_EMAIL"⟩)
    else if ¬ name.truthy then
      .ok (.failure ⟨"Name must be at least 2 characters",
        .validationError, false, some "INVALID_NAME"⟩)
    else do
      let stripped ← name.pyStrip
      if stripped.length < 2 then
        .ok (.failure ⟨"Name must be at least 2 characters",
          .validationError, false, some "INVALID_NAME"⟩)
      else
        if user_id_input.truthy then do
          let uid ← user_id_input.pyLower
          if uid ∈ CreateUserAccountHandler.RESERVED_USERNAMES then
            .ok (.failure ⟨"Username \x27" ++ pyRender user_id_input ++ "\x27 is reserved",
              .validationError, false, some "RESERVED_USERNAME"⟩)
          else
            CreateUserAccountHandler.finish algo w email name plan phone source
              user_id_input
        else
          CreateUserAccountHandler.finish algo w email name plan phone source
            user_id_input

end Handlers

/-- The embedded step handlers: the five e-commerce pipeline handlers and
the three input-validating handlers of the other workflows — together
these cover every `VALIDATION_ERROR` construction site in the repository
(verified by exhaustive search over `app/handlers/`). -/
inductive RepoHandler where
  | validateCart
  | processPayment
  | updateInventory
  | createOrder
  | sendConfirmation
  | validateRefundRequest
  | validatePaymentEligibility
  | createUserAccount

/-- Dispatch to the embedded `call` methods. -/
def RepoHandler.call : RepoHandler → Algo → World → StepContext → Except PyExc StepHandlerResult
  | .validateCart => fun _ w ctx => Handlers.ValidateCartHandler.call w ctx
  | .processPayment => Handlers.ProcessPaymentHandler.call
  | .updateInventory => fun _ w ctx => Handlers.UpdateInventoryHandler.call w ctx
  | .createOrder => fun _ w ctx => Handlers.CreateOrderHandler.call w ctx
  | .sendConfirmation => fun _ w ctx => Handlers.SendConfirmationHandler.call w ctx
  | .validateRefundRequest => Handlers.ValidateRefundRequestHandler.call
  | .validatePaymentEligibility => Handlers.ValidateEligibilityHandler.call
  | .createUserAccount => Handlers.CreateUserAccountHandler.call



/-- The property C1 asserts of every handler outcome: a failure result
classified `VALIDATION_ERROR` is never marked retryable. -/
def failureInvariant (x : Except PyExc StepHandlerResult) : Prop :=
  ∀ info, x = .ok (.failure info) →
    info.error_type = .validationError → info.retryable = false


/-!
## Embedding of the input models of `app/services/types.py`

Pydantic `model_validator(mode='after')` hooks run during construction;
building a model is embedded as a function from the raw optional fields
to `Except Err <model>`.
-/

/-- Python `a or b` on two optional numbers (`None` and `0` are falsy). -/
def qOptOrOpt (a b : Option ℚ) : Option ℚ :=
  match a with
  | some q => if q = 0 then b else some q
  | Option.none => b

/-- `ValidateRefundRequestInput` (`services/types.py`). -/
structure ValidateRefundRequestInput where
  ticket_id : Option String := Option.none
  order_ref : Option String := Option.none
  customer_id : Option String := Option.none
  refund_amount : Option ℚ := Option.none
  amount : Option ℚ := Option.none
  refund_reason : Option String := Option.none
  reason : Option String := Option.none
  customer_email : Option String := Option.none
  correlation_id : Option String := Option.none

/-- `resolved_ticket_id`: `self.ticket_id or self.order_ref`. -/
def ValidateRefundRequestInput.resolved_ticket_id (self : ValidateRefundRequestInput) :
    Option String :=
  strOptOr self.ticket_id self.order_ref

/-- `resolved_amount`: `self.refund_amount or self.amount`. -/
def ValidateRefundRequestInput.resolved_amount (self : ValidateRefundRequestInput) :
    Option ℚ :=
  qOptOrOpt self.refund_amount self.amount

/-- The `check_required_fields` model validator of
`ValidateRefundRequestInput`. -/
def ValidateRefundRequestInput.check_required_fields (self : ValidateRefundRequestInput) :
    Except Err ValidateRefundRequestInput :=
  let missing : List String :=
    (if ¬ strOptTruthy self.resolved_ticket_id then ["ticket_id"] else []) ++
    (if ¬ strOptTruthy self.customer_id ∧ ¬ strOptTruthy self.customer_email then
      ["customer_id"] else []) ++
    (if ¬ qOptTruthy self.resolved_amount then ["refund_amount"] else [])
  if ¬ missing.isEmpty then
    .error (.tasker (.permanentError
      ("Missing required fields: " ++ String.intercalate ", " missing)))
  else .ok self

/-- Constructing a validated `ValidateRefundRequestInput` (pydantic
construction runs the `after` validator). -/
def mkValidateRefundRequestInput (ticket_id order_ref customer_id : Option String)
    (refund_amount amount : Option ℚ)
    (refund_reason reason customer_email correlation_id : Option String) :
    Except Err ValidateRefundRequestInput :=
  ValidateRefundRequestInput.check_required_fields
    ⟨ticket_id, order_ref, customer_id, refund_amount, amount, refund_reason,
     reason, customer_email, correlation_id⟩

/-- `ValidatePaymentEligibilityInput` (`services/types.py`); the
`partial_refund` field is spelled `partialRefund` here. -/
structure ValidatePaymentEligibilityInput where
  payment_id : Option String := Option.none
  refund_amount : Option ℚ := Option.none
  amount : Option ℚ := Option.none
  refund_reason : Option String := Option.none
  reason : Option String := Option.none
  partialRefund : Option Bool := Option.none
  order_ref : Option String := Option.none
  customer_email : Option String := Option.none

/-- `resolved_amount`: `self.refund_amount or self.amount`. -/
def ValidatePaymentEligibilityInput.resolved_amount
    (self : ValidatePaymentEligibilityInput) : Option ℚ :=
  qOptOrOpt self.refund_amount self.amount

/-- The `check_required_fields` model validator of
`ValidatePaymentEligibilityInput`. -/
def ValidatePaymentEligibilityInput.check_required_fields
    (self : ValidatePaymentEligibilityInput) :
    Except Err ValidatePaymentEligibilityInput :=
  let missing : List String :=
    (if ¬ strOptTruthy self.payment_id ∧ ¬ strOptTruthy self.order_ref then
      ["payment_id"] else []) ++
    (if ¬ qOptTruthy self.resolved_amount then ["refund_amount"] else [])
  if ¬ missing.isEmpty then
    .error (.tasker (.permanentError
      ("Missing required fields: " ++ String.intercalate ", " missing)))
  else .ok self

/-- Constructing a validated `ValidatePaymentEligibilityInput`. -/
def mkValidatePaymentEligibilityInput (payment_id : Option String)
    (refund_amount amount : Option ℚ) (refund_reason reason : Option String)
    (partialRefund : Option Bool) (order_ref customer_email : Option String) :
    Except Err ValidatePaymentEligibilityInput :=
  ValidatePaymentEligibilityInput.check_required_fields
    ⟨payment_id, refund_amount, amount, refund_reason, reason, partialRefund,
     order_ref, customer_email⟩

/-- Spec-side reading of C2 for the refund-request template: the list of
required fields the claim says are missing (ticket id resolvable from
`ticket_id`/`order_ref`; a customer identity from
`customer_id`/`customer_email`; a refund amount from
`refund_amount`/`amount`). -/
def refundRequestMissingFieldsSpec (ticket_id order_ref customer_id : Option String)
    (refund_amount amount : Option ℚ) (customer_email : Option String) : List String :=
  (if ¬ strOptTruthy (strOptOr ticket_id order_ref) then ["ticket_id"] else []) ++
  (if ¬ strOptTruthy customer_id ∧ ¬ strOptTruthy customer_email then
    ["customer_id"] else []) ++
  (if ¬ qOptTruthy (qOptOrOpt refund_amount amount) then ["refund_amount"] else [])

/-- Spec-side reading of C2 for the payment-eligibility template. -/
def paymentEligibilityMissingFieldsSpec (payment_id order_ref : Option String)
    (refund_amount amount : Option ℚ) : List String :=
  (if ¬ strOptTruthy payment_id ∧ ¬ strOptTruthy order_ref then ["payment_id"] else []) ++
  (if ¬ qOptTruthy (qOptOrOpt refund_amount amount) then ["refund_amount"] else [])

/-!
## Embedding of `app/services/payments.py` (`validate_eligibility`)
-/

namespace Payments

/-- Python rendering of an optional string in an f-string (`None` prints
as `None`). -/
def optStrRender : Option String → String
  | some s => s
  | Option.none => "None"

/-- Result model `PaymentsValidateEligibilityResult` (`services/types.py`),
restricted to the fields `validate_eligibility` populates.  The source's
`namespace` field is spelled `namespaceName` (Lean keyword). -/
structure PaymentsValidateEligibilityResult where
  payment_validated : Bool
  payment_id : Option String
  original_amount : ℚ
  refund_amount : ℚ
  payment_method : String
  gateway_provider : String
  eligibility_status : String
  validation_timestamp : String
  namespaceName : String
  eligibility_id : String
  order_ref : Option String
  amount : ℚ
  refund_percentage : ℚ
  reason : String
  customer_email : Option String
  fraud_score : ℚ
  fraud_flagged : Bool
  within_refund_window : Bool
  eligible : Bool
  validated_at : String

/-- `validate_eligibility` (`services/payments.py`).  Note: the source
reads `amount = input.refund_amount` — the raw field, not
`input.resolved_amount` — and then runs `assert amount is not None`. -/
def validate_eligibility (input : ValidatePaymentEligibilityInput)
    (algo : Algo) (w : World) : Except Err PaymentsValidateEligibilityResult :=
  let order_ref := strOptOr input.order_ref input.payment_id
  let amount := input.refund_amount
  let reason := pyStrOr input.refund_reason "customer_request"
  let customer_email := input.customer_email
  let payment_id := input.payment_id
  match amount with
  | Option.none => .error (.exc .assertionError)
  | some a =>
    if a ≤ 0 then
      .error (.tasker (.permanentError ("Invalid refund amount: " ++ qRender a)))
    else
      let original_amount := a + 1000
      let refund_percentage := round2 ((a / original_amount) * 100)
      let fraud_key :=
        if strOptTruthy customer_email then
          optStrRender order_ref ++ ":" ++ optStrRender customer_email
        else optStrRender order_ref ++ ":unknown"
      let fraud_score := round1 ((algo.md5Head 2 fraud_key : ℚ) / 255 * 100)
      let fraud_flagged := decide (85 < fraud_score)
      if fraud_flagged then
        .error (.tasker (.permanentError
          ("Transaction flagged for fraud review (score: " ++ qRender fraud_score ++ ")")))
      else
        let eligibility_id := "elig_" ++ (w.uuidHex 0).take 12
        .ok { payment_validated := true,
              payment_id := strOptOr payment_id order_ref,
              original_amount := original_amount, refund_amount := a,
              payment_method := "credit_card",
              gateway_provider := "MockPaymentGateway",
              eligibility_status := "eligible", validation_timestamp := w.nowIso,
              namespaceName := "payments_py", eligibility_id := eligibility_id,
              order_ref := order_ref, amount := a,
              refund_percentage := refund_percentage, reason := reason,
              customer_email := customer_email, fraud_score := fraud_score,
              fraud_flagged := false, within_refund_window := true,
              eligible := true, validated_at := w.nowIso }

end Payments

/-!
## Embedding of `app/services/data_pipeline.py`
(`extract_sales_data` and `generate_insights`)
-/

namespace DataPipeline

def PRODUCT_CATEGORIES : List String :=
  ["electronics", "clothing", "food", "home", "sports"]

def REGIONS : List String := ["us-east", "us-west", "eu-central", "ap-southeast"]

/-- `rng.choice(lst)` driven by one raw draw of the seeded generator. -/
def rngChoice (lst : List String) (raw : ℕ) : String := lst.getD (raw % lst.length) ""

/-- `rng.randint(a, b)` driven by one raw draw. -/
def rngRandint (a b raw : ℕ) : ℕ := a + raw % (b - a + 1)

/-- `rng.uniform(a, b)` driven by one raw draw (the mapping of raw draws
to floats is abstracted; any fixed deterministic mapping has the same
determinism properties as the real generator). -/
def rngUniform (a b : ℚ) (raw : ℕ) : ℚ :=
  a + (b - a) * ((raw % 1000000 : ℕ) : ℚ) / 1000000

/-- `(datetime(2026,1,1) + timedelta(days=i % 31)).isoformat()`. -/
def salesTimestamp (i : ℕ) : String :=
  let d := 1 + i % 31
  "2026-01-" ++ (if d < 10 then "0" else "") ++ toString d ++ "T00:00:00+00:00"

/-- One generated sales record. -/
structure SalesRecord where
  record_id : String
  category : String
  region : String
  quantity : ℚ
  unit_price : ℚ
  revenue : ℚ
  timestamp : String

/-- Loop body of `extract_sales_data`: iteration `i` consumes rng draws
`4*i .. 4*i+3` (category, region, quantity, unit price — the source's
draw order) and uuid draw `i`. -/
def mkSalesRecord (algo : Algo) (w : World) (seed i : ℕ) : SalesRecord :=
  let category := rngChoice PRODUCT_CATEGORIES (algo.rand seed (4 * i))
  let region := rngChoice REGIONS (algo.rand seed (4 * i + 1))
  let quantity : ℚ := (rngRandint 1 50 (algo.rand seed (4 * i + 2)) : ℕ)
  let unit_price := round2 (rngUniform 5 500 (algo.rand seed (4 * i + 3)))
  { record_id := "sale_" ++ (w.uuidHex i).take 10,
    category := category, region := region, quantity := quantity,
    unit_price := unit_price, revenue := round2 (quantity * unit_price),
    timestamp := salesTimestamp i }

/-- Result model `PipelineExtractSalesResult` (`services/types.py`); the
`date_range` dict is flattened into its two entries. -/
structure PipelineExtractSalesResult where
  source : String
  record_count : ℕ
  records : List SalesRecord
  total_amount : ℚ
  total_revenue : ℚ
  total_quantity : ℚ
  date_range_start : String
  date_range_end : String
  extracted_at : String

/-- `extract_sales_data` (`services/data_pipeline.py`): the rng is seeded
with `int(md5(f"sales:{source}:{date_start}")[:8], 16)`. -/
def extract_sales_data (source date_range_start date_range_end granularity : Option String)
    (algo : Algo) (w : World) : PipelineExtractSalesResult :=
  let sourceR := pyStrOr source "default"
  let date_start := pyStrOr date_range_start "2026-01-01"
  let date_end := pyStrOr date_range_end "2026-01-31"
  let granularityR := pyStrOr granularity "daily"
  let seed := algo.md5Head 8 ("sales:" ++ sourceR ++ ":" ++ date_start)
  let num_records := if granularityR = "daily" then 30 else 120
  let records := (List.range num_records).map (mkSalesRecord algo w seed)
  let total_revenue := round2 ((records.map SalesRecord.revenue).sum)
  let total_quantity := (records.map SalesRecord.quantity).sum
  { source := "sales_database", record_count := records.length, records := records,
    total_amount := total_revenue, total_revenue := total_revenue,
    total_quantity := total_quantity, date_range_start := date_start,
    date_range_end := date_end, extracted_at := w.nowIso }

/-- Aggregated-metrics model `PipelineAggregateMetricsResult`
(`services/types.py`); numeric fields as optional rationals, the nested
summary dicts as optional `PyVal` dicts. -/
structure PipelineAggregateMetricsResult where
  total_revenue : Option ℚ := Option.none
  total_inventory_quantity : Option ℚ := Option.none
  total_customers : Option ℚ := Option.none
  total_customer_lifetime_value : Option ℚ := Option.none
  sales_transactions : Option ℚ := Option.none
  inventory_reorder_alerts : Option ℚ := Option.none
  revenue_per_customer : Option ℚ := Option.none
  inventory_turnover_indicator : Option ℚ := Option.none
  aggregation_complete : Option Bool := Option.none
  sources_included : Option ℚ := Option.none
  sales_summary : Option (List (String × PyVal)) := Option.none
  traffic_summary : Option (List (String × PyVal)) := Option.none
  inventory_summary : Option (List (String × PyVal)) := Option.none
  total_records_processed : Option ℚ := Option.none
  data_sources : Option (List String) := Option.none
  aggregated_at : Option String := Option.none

/-- The `health_score` dict of `generate_insights`. -/
structure HealthScore where
  score : ℤ
  max_score : ℤ
  rating : String

/-- The rating conditional of `generate_insights`. -/
def ratingOf (v : ℤ) : String :=
  if 80 ≤ v then "Excellent"
  else if 60 ≤ v then "Good"
  else if 40 ≤ v then "Fair"
  else "Needs Improvement"

/-- Result model `PipelineGenerateInsightsResult` (`services/types.py`). -/
structure PipelineGenerateInsightsResult where
  insights : List PyVal
  health_score : HealthScore
  total_metrics_analyzed : ℕ
  pipeline_complete : Bool
  insight_count : ℕ
  health_status : String
  recommendations_count : ℕ
  generated_at : String

/-- `i.get("priority") in ("high", "critical")` over a generated insight. -/
def priorityHighOrCritical (v : PyVal) : Bool :=
  match v with
  | .dict d =>
    match PyVal.dictFind d "priority" with
    | some (.str p) => p = "high" || p = "critical"
    | _ => false
  | _ => false

/-- `generate_insights` (`services/data_pipeline.py`).
`total_metrics_analyzed` is `len(metrics.model_fields)` — the 16 fields of
the aggregate-metrics model. -/
def generate_insights (metrics : PipelineAggregateMetricsResult) (w : World) :
    Except Err PipelineGenerateInsightsResult := do
  let revenue := qOptOr metrics.total_revenue 0
  let customers := qOptOr metrics.total_customers 0
  let revenue_per_customer := qOptOr metrics.revenue_per_customer 0
  let inventory_alerts := qOptOr metrics.inventory_reorder_alerts 0
  let total_ltv := qOptOr metrics.total_customer_lifetime_value 0
  let sales_summary := metrics.sales_summary.getD []
  let traffic_summary := metrics.traffic_summary.getD []
  let inventory_summary := metrics.inventory_summary.getD []
  let revenueInsights : List PyVal :=
    if 0 < revenue then
      [.dict [("category", .str "Revenue"),
              ("finding", .str ("Total revenue of $" ++ qRender revenue ++ " with " ++
                qRender customers ++ " customers")),
              ("metric", .num revenue_per_customer),
              ("recommendation", .str
                (if revenue_per_customer < 500 then "Consider upselling strategies"
                 else "Customer spend is healthy"))]]
    else []
  let salesInsights : List PyVal :=
    if ((PyVal.dictFind sales_summary "top_category").getD .none).truthy then
      [.dict [("category", .str "sales"),
              ("insight", .str ("Top performing category is \x27" ++
                pyRender ((PyVal.dictFind sales_summary "top_category").getD .none) ++ "\x27")),
              ("priority", .str "info"),
              ("action", .str "Consider increasing marketing spend in this category")]]
    else []
  let bestSourceTruthy :=
    ((PyVal.dictFind traffic_summary "best_source").getD .none).truthy
  let trafficInsights : List PyVal :=
    if bestSourceTruthy then
      [.dict [("category", .str "marketing"),
              ("insight", .str ("Best converting traffic source is \x27" ++
                pyRender ((PyVal.dictFind traffic_summary "best_source").getD .none) ++ "\x27")),
              ("priority", .str "high"),
              ("action", .str "Increase budget allocation for this channel")]]
    else []
  let trafficAdj : ℤ := if bestSourceTruthy then 5 else 0
  let low_stock : PyVal :=
    PyVal.pyOr (.num inventory_alerts)
      ((PyVal.dictFind inventory_summary "low_stock_alerts").getD (.num 0))
  let invOutcome ← (do
    let gt5 ← liftE (PyVal.pyGt low_stock (.num 5))
    if gt5 then
      pure (([.dict [("category", .str "Inventory"),
              ("finding", .str (pyRender low_stock ++ " products need reordering")),
              ("metric", low_stock),
              ("recommendation", .str "Review reorder points and place purchase orders")]] :
        List PyVal), (-15 : ℤ))
    else do
      let gt0 ← liftE (PyVal.pyGt low_stock (.num 0))
      if gt0 then
        pure ([.dict [("category", .str "Inventory"),
                ("finding", .str (pyRender low_stock ++ " SKUs need attention")),
                ("metric", low_stock),
                ("recommendation", .str "Review reorder schedules")]], (-5 : ℤ))
      else
        pure ([.dict [("category", .str "Inventory"),
                ("finding", .str "All products above reorder points"),
                ("metric", .num 0),
                ("recommendation", .str "Inventory levels are healthy")]], (0 : ℤ)))
  let avg_ltv := if 0 < customers then total_ltv / customers else 0
  let customerInsights : List PyVal :=
    [.dict [("category", .str "Customer Value"),
            ("finding", .str ("Average customer lifetime value: $" ++ formatFixed2 avg_ltv)),
            ("metric", .num avg_ltv),
            ("recommendation", .str
              (if 3000 < avg_ltv then "Focus on retention programs"
               else "Increase customer engagement"))]]
  let total_records := qOptOr metrics.total_records_processed 0
  let recordsAdj : ℤ := if 50 < total_records then 10 else 0
  let recordsInsights : List PyVal :=
    if 50 < total_records then
      [.dict [("category", .str "data_quality"),
              ("insight", .str ("Strong data coverage: " ++ qRender total_records ++
                " records analyzed")),
              ("priority", .str "info"),
              ("action", .str "No action needed")]]
    else []
  let insights := revenueInsights ++ salesInsights ++ trafficInsights ++
    invOutcome.1 ++ customerInsights ++ recordsInsights
  let health_score_value : ℤ := max 0 (min 100 (75 + trafficAdj + invOutcome.2 + recordsAdj))
  let health_score : HealthScore :=
    { score := health_score_value, max_score := 100, rating := ratingOf health_score_value }
  .ok { insights := insights, health_score := health_score,
        total_metrics_analyzed := 16, pipeline_complete := true,
        insight_count := insights.length,
        health_status := (health_score.rating.toLower.replace " " "_"),
        recommendations_count := (insights.filter priorityHighOrCritical).length,
        generated_at := w.nowIso }

end DataPipeline

/-!
## Embedding of `tests/helpers.py` (`wait_for_task_completion`)
-/

namespace TestsHelpers

/-- Task statuses observable from `get_task`. -/
inductive TaskStatus where
  | pending
  | processing
  | complete
  | error
  | cancelled
  | blockedByFailures
  deriving DecidableEq, Repr

/-- A polled task response (`status` plus an abstract payload standing for
the rest of the response dict). -/
structure TaskSnapshot where
  status : TaskStatus
  payload : ℕ
  deriving DecidableEq, Repr

def TERMINAL_STATUSES : List TaskStatus := [.complete, .error, .cancelled]

def FAILURE_STATUSES : List TaskStatus := [.blockedByFailures]

/-- Outcome of the polling loop: a returned task dict or a raised
`TimeoutError`. -/
inductive PollOutcome where
  | finished (task : TaskSnapshot)
  | timedOut (lastStatus : TaskStatus)
  deriving DecidableEq, Repr

/-- The polling loop of `wait_for_task_completion`.  `polls i` is the
`get_task` response of iteration `i`; `clock i r` is the value of the
`r`-th `time.monotonic()` call of iteration `i` (`r = 0`: the
`failure_seen_at` assignment, `r = 1`: the grace comparison, `r = 2`: the
`remaining` computation).  `fuel` bounds the modelled iterations
(`Option.none` = still looping when fuel runs out); `asyncio.sleep` has no
observable effect beyond advancing the clock. -/
def waitLoop (polls : ℕ → TaskSnapshot) (clock : ℕ → ℕ → ℚ) (deadline : ℚ) :
    ℕ → ℕ → Option ℚ → Option PollOutcome
  | 0, _, _ => Option.none
  | fuel + 1, i, failureSeenAt =>
    let task := polls i
    let status := task.status
    if status ∈ TERMINAL_STATUSES then
      some (.finished task)
    else if status ∈ FAILURE_STATUSES then
      let fsa := failureSeenAt.getD (clock i 0)
      if 10 ≤ clock i 1 - fsa then
        some (.finished task)
      else if deadline - clock i 2 ≤ 0 then
        some (.timedOut status)
      else
        waitLoop polls clock deadline fuel (i + 1) (some fsa)
    else if deadline - clock i 2 ≤ 0 then
      some (.timedOut status)
    else
      waitLoop polls clock deadline fuel (i + 1) Option.none

/-- `wait_for_task_completion`: `startRead` is the `time.monotonic()` value
taken when computing the deadline. -/
def wait_for_task_completion (polls : ℕ → TaskSnapshot) (clock : ℕ → ℕ → ℚ)
    (startRead timeout : ℚ) (fuel : ℕ) : Option PollOutcome :=
  waitLoop polls clock (startRead + timeout) fuel 0 Option.none

end TestsHelpers

/-!
## Spec-modelled orchestration engine (C7)

The engine itself lives outside this repository; the scheduling relation
below is modelled from the spec (§4.2–§4.4, §5): steps are dispatched,
completed, failed, retried or blocked one event at a time, in any
interleaving, and a dispatch requires every declared predecessor to be
`complete`.
-/

namespace Engine

/-- Modelled from the spec: step states of §4.4. -/
inductive StepState where
  | pending
  | dispatched
  | complete
  | failed
  | blocked
  deriving DecidableEq, Repr

/-- Modelled from the spec: a task's step graph — each step name with its
declared predecessor names (§3). -/
structure Workflow where
  steps : List (String × List String)

/-- The declared predecessors of a step. -/
def Workflow.preds (wf : Workflow) (name : String) : List String :=
  (wf.steps.lookup name).getD []

/-- An engine state: the current state of every step, as a function from
step names. -/
def EngineState := String → StepState

/-- Initial state: every step `pending` (§4.1). -/
def initState : EngineState := fun _ => .pending

/-- Point update of a state. -/
def setStep (s : EngineState) (name : String) (st : StepState) : EngineState :=
  fun n => if n = name then st else s n

/-- Modelled from the spec: one scheduling event (§4.2–§4.4).  `dispatch`
requires the step `pending` with every declared predecessor `complete`;
results move a `dispatched` step to `complete`/`failed`; a retry re-queues
a `dispatched` step as `pending`; `block` forces a `pending` or
`dispatched` step to `blocked` when some predecessor failed terminally.
Concurrent event submission is the arbitrary interleaving of these
transitions. -/
inductive engineStep (wf : Workflow) : EngineState → EngineState → Prop
  | dispatch (s : EngineState) (name : String)
      (hpending : s name = .pending)
      (hready : ∀ p ∈ wf.preds name, s p = .complete) :
      engineStep wf s (setStep s name .dispatched)
  | completeStep (s : EngineState) (name : String)
      (hdisp : s name = .dispatched) :
      engineStep wf s (setStep s name .complete)
  | failStep (s : EngineState) (name : String)
      (hdisp : s name = .dispatched) :
      engineStep wf s (setStep s name .failed)
  | retryStep (s : EngineState) (name : String)
      (hdisp : s name = .dispatched) :
      engineStep wf s (setStep s name .pending)
  | blockStep (s : EngineState) (name : String)
      (hstate : s name = .pending ∨ s name = .dispatched)
      (hcause : ∃ p ∈ wf.preds name, s p = .failed ∨ s p = .blocked) :
      engineStep wf s (setStep s name .blocked)

/-- Reachability under arbitrary interleavings of engine events. -/
def reachable (wf : Workflow) : EngineState → Prop :=
  Relation.ReflTransGen (engineStep wf) initState

end Engine



/-- Raise behaviour of CPython `hash(v)`: hashable values yield the
oracle's integer, lists and dicts raise `TypeError`. -/
def pyHashE (algo : Algo) (v : PyVal) : Except PyExc ℤ :=
  match v with
  | .list _ => .error (.typeError "unhashable type")
  | .dict _ => .error (.typeError "unhashable type")
  | _ => .ok (algo.pyHash v)

namespace Handlers

def CheckRefundPolicyHandler.AUTO_APPROVE_THRESHOLD : ℚ := 50

def CheckRefundPolicyHandler.REVIEW_THRESHOLD : ℚ := 500

def CheckRefundPolicyHandler.MAX_REFUND_AMOUNT : ℚ := 10000

def CheckRefundPolicyHandler.AUTO_APPROVE_REASONS : List String :=
  ["defective_product", "wrong_item", "duplicate_charge"]

/-- `CheckRefundPolicyHandler.call` (`handlers/customer_success.py`).
The `try: datetime.fromisoformat(original_purchase_date.replace(...))`
block catches `ValueError`/`TypeError` but not the `AttributeError` a
non-string `.replace` raises; a successful parse yields the oracle
`daysSinceIso` value, `none` modelling the caught parse failure (default
30).  The float interpolations in `rules_applied` are spelled literally;
the `amount_tier` conditional re-evaluates the threshold comparisons as
the source does inside the result dict. -/
def CheckRefundPolicyHandler.call (w : World) (ctx : StepContext) :
    Except PyExc StepHandlerResult := do
  let validation := ctx.getDependencyResult "validate_refund_request"
  if validation.isNone then
    .ok (.failure ⟨"Missing validate_refund_request dependency", .handlerError, false,
      Option.none⟩)
  else do
    let rv ← validation.pyGetD "request_validated" .none
    if ¬ rv.truthy then
      .ok (.failure ⟨"Missing validate_refund_request dependency", .handlerError, false,
        Option.none⟩)
    else do
      let customer_tier := PyVal.pyOr
        (ctx.getDependencyField "validate_refund_request" "customer_tier") (.str "standard")
      let original_purchase_date :=
        ctx.getDependencyField "validate_refund_request" "original_purchase_date"
      let refund_amount := ctx.getInput "refund_amount"
      let amtD ← validation.pyGetD "amount" (.num 0)
      let amount := PyVal.pyOr refund_amount amtD
      let reason ← validation.pyGetD "reason" (.str "customer_request")
      let request_id ← validation.pyGetD "request_id" .none
      let le50 ← PyVal.pyLe amount (.num CheckRefundPolicyHandler.AUTO_APPROVE_THRESHOLD)
      let pathReq ← (if le50 then pure ("auto_approved", false) else do
        let inAuto ← pyInStrs reason CheckRefundPolicyHandler.AUTO_APPROVE_REASONS
        if inAuto then do
          let le500 ← PyVal.pyLe amount (.num CheckRefundPolicyHandler.REVIEW_THRESHOLD)
          if le500 then pure ("auto_approved", false)
          else do
            let gt500 ← PyVal.pyGt amount (.num CheckRefundPolicyHandler.REVIEW_THRESHOLD)
            if gt500 then pure ("manager_review", true) else pure ("standard_review", true)
        else do
          let gt500 ← PyVal.pyGt amount (.num CheckRefundPolicyHandler.REVIEW_THRESHOLD)
          if gt500 then pure ("manager_review", true) else pure ("standard_review", true))
      let policy_id := "pol_" ++ (w.uuidHex 0).take 10
      let days ← (if original_purchase_date.truthy then
          match original_purchase_date with
          | .str sdate => .ok ((w.daysSinceIso sdate).getD 30)
          | _ => .error (.attributeError "replace")
        else pure (30 : ℤ))
      let le50b ← PyVal.pyLe amount (.num CheckRefundPolicyHandler.AUTO_APPROVE_THRESHOLD)
      let le500b ← PyVal.pyLe amount (.num CheckRefundPolicyHandler.REVIEW_THRESHOLD)
      .ok (.success
        (.dict [("policy_checked", .bool true), ("policy_compliant", .bool true),
                ("customer_tier", customer_tier), ("refund_window_days", .num 90),
                ("days_since_purchase", .num (days : ℚ)),
                ("within_refund_window", .bool (decide (days ≤ 90))),
                ("requires_approval", .bool pathReq.2),
                ("max_allowed_amount", .num CheckRefundPolicyHandler.MAX_REFUND_AMOUNT),
                ("policy_checked_at", .str w.nowIso),
                ("namespace", .str "customer_success"),
                ("policy_id", .str policy_id), ("request_id", request_id),
                ("approval_path", .str pathReq.1),
                ("requires_review", .bool pathReq.2),
                ("amount_tier",
                  .str (if le50b then "small" else if le500b then "medium" else "large")),
                ("policy_version", .str "2026.1"),
                ("rules_applied", .list
                  [.str "amount_threshold_50.0",
                   .str ("reason_category_" ++ pyRender reason),
                   .str "review_threshold_500.0"]),
                ("checked_at", .str w.nowIso)])
        .none)

/-- `ApproveRefundHandler.call` (`handlers/customer_success.py`);
`hash(ticket_id or '') % 5 + 1` is served by the `pyHash` oracle with
CPython's unhashable-type raise. -/
def ApproveRefundHandler.call (algo : Algo) (w : World) (ctx : StepContext) :
    Except PyExc StepHandlerResult := do
  let policy := ctx.getDependencyResult "check_refund_policy"
  if ¬ policy.truthy then
    .ok (.failure ⟨"Missing check_refund_policy dependency", .handlerError, false,
      Option.none⟩)
  else do
    let pc ← policy.pyGetD "policy_checked" .none
    if ¬ pc.truthy then
      .ok (.failure ⟨"Missing check_refund_policy dependency", .handlerError, false,
        Option.none⟩)
    else do
      let requires_approval := ctx.getDependencyField "check_refund_policy" "requires_approval"
      let customer_tier := ctx.getDependencyField "check_refund_policy" "customer_tier"
      let ticket_id := ctx.getDependencyField "validate_refund_request" "ticket_id"
      let customer_id := ctx.getDependencyField "validate_refund_request" "customer_id"
      let refund_amount := ctx.getInput "refund_amount"
      let _refund_reason := ctx.getInput "refund_reason"
      let validation := ctx.getDependencyResult "validate_refund_request"
      let vOr := PyVal.pyOr validation (.dict [])
      let request_id ← vOr.pyGetD "request_id" .none
      let amtD ← vOr.pyGetD "amount" (.num 0)
      let amount := PyVal.pyOr refund_amount amtD
      let approval_path ← policy.pyGetD "approval_path" (.str "standard_review")
      let approval_id := "apr_" ++ (w.uuidHex 0).take 12
      if requires_approval.truthy then do
        let mh ← pyHashE algo (PyVal.pyOr ticket_id (.str ""))
        let manager_id := "mgr_" ++ toString (mh % 5 + 1)
        let amtStr ← pyFormatFixed2 amount
        let manager_notes := "Manager-approved refund of $" ++ amtStr ++
          " for customer " ++ pyRender customer_id
        .ok (.success
          (.dict [("approval_obtained", .bool true), ("approval_required", .bool true),
                  ("auto_approved", .bool false), ("approval_id", .str approval_id),
                  ("manager_id", .str manager_id), ("manager_notes", .str manager_notes),
                  ("approved_at", .str w.nowIso), ("namespace", .str "customer_success"),
                  ("request_id", request_id), ("approved", .bool true),
                  ("approver", .str manager_id), ("approval_path", approval_path),
                  ("approval_note", .str manager_notes), ("amount_approved", amount)])
          (.dict [("approval_path", approval_path)]))
      else
        .ok (.success
          (.dict [("approval_obtained", .bool true), ("approval_required", .bool false),
                  ("auto_approved", .bool true), ("approval_id", .none),
                  ("manager_id", .none),
                  ("manager_notes", .str ("Auto-approved for customer tier " ++
                    pyRender customer_tier)),
                  ("approved_at", .str w.nowIso), ("namespace", .str "customer_success"),
                  ("request_id", request_id), ("approved", .bool true),
                  ("approver", .str "system"), ("approval_path", approval_path),
                  ("approval_note", .str "Auto-approved per refund policy"),
                  ("amount_approved", amount)])
          (.dict [("approval_path", approval_path)]))

/-- `ExecuteRefundHandler.call` (`handlers/customer_success.py`); the
dashed `uuid.uuid4()` rendering of `delegated_task_id` is drawn from the
same uuid oracle as the hex truncations. -/
def ExecuteRefundHandler.call (w : World) (ctx : StepContext) :
    Except PyExc StepHandlerResult := do
  let approval := ctx.getDependencyResult "get_manager_approval"
  if ¬ approval.truthy then
    .ok (.failure ⟨"Refund was not approved", .permanentError, false, some "NOT_APPROVED"⟩)
  else do
    let ao ← approval.pyGetD "approval_obtained" .none
    if ¬ ao.truthy then
      .ok (.failure ⟨"Refund was not approved", .permanentError, false, some "NOT_APPROVED"⟩)
    else do
      let _payment_id := ctx.getDependencyField "validate_refund_request" "payment_id"
      let _approval_id := ctx.getDependencyField "get_manager_approval" "approval_id"
      let refund_amount := ctx.getInput "refund_amount"
      let _refund_reason := PyVal.pyOr (ctx.getInput "refund_reason") (.str "customer_request")
      let _customer_email := PyVal.pyOr (ctx.getInput "customer_email")
        (.str "customer@example.com")
      let _ticket_id := ctx.getInput "ticket_id"
      let correlation_id := PyVal.pyOr (ctx.getInput "correlation_id")
        (.str ("cs-" ++ (w.uuidHex 0).take 16))
      let validation := ctx.getDependencyResult "validate_refund_request"
      let amtD ← approval.pyGetD "amount_approved" (.num 0)
      let amount := PyVal.pyOr refund_amount amtD
      let vOr := PyVal.pyOr validation (.dict [])
      let request_id ← vOr.pyGetD "request_id" .none
      let order_ref ← vOr.pyGetD "order_ref" .none
      let delegated_task_id := "task_" ++ w.uuidHex 1
      let refund_id := "rfnd_" ++ (w.uuidHex 2).take 12
      let transaction_ref := "txn_" ++ (w.uuidHex 3).take 16
      .ok (.success
        (.dict [("task_delegated", .bool true), ("target_namespace", .str "payments"),
                ("target_workflow", .str "process_refund"),
                ("delegated_task_id", .str delegated_task_id),
                ("delegated_task_status", .str "created"),
                ("delegation_timestamp", .str w.nowIso),
                ("correlation_id", correlation_id),
                ("namespace", .str "customer_success"),
                ("refund_id", .str refund_id),
                ("transaction_ref", .str transaction_ref),
                ("request_id", request_id), ("order_ref", order_ref),
                ("amount_refunded", amount), ("currency", .str "USD"),
                ("refund_method", .str "original_payment_method"),
                ("estimated_arrival", .str "3-5 business days"),
                ("status", .str "processed"), ("executed_at", .str w.nowIso)])
        (.dict [("gateway", .str "simulated")]))

/-- `UpdateTicketHandler.call` (`handlers/customer_success.py`). -/
def UpdateTicketHandler.call (w : World) (ctx : StepContext) :
    Except PyExc StepHandlerResult := do
  let delegation_result := ctx.getDependencyResult "execute_refund_workflow"
  if ¬ delegation_result.truthy then
    .ok (.failure ⟨"Missing upstream dependency results", .handlerError, false,
      Option.none⟩)
  else do
    let td ← delegation_result.pyGetD "task_delegated" .none
    if ¬ td.truthy then
      .ok (.failure ⟨"Missing upstream dependency results", .handlerError, false,
        Option.none⟩)
    else do
      let ticket_id := ctx.getDependencyField "validate_refund_request" "ticket_id"
      let _customer_id := ctx.getDependencyField "validate_refund_request" "customer_id"
      let delegated_task_id :=
        ctx.getDependencyField "execute_refund_workflow" "delegated_task_id"
      let correlation_id := ctx.getDependencyField "execute_refund_workflow" "correlation_id"
      let refund_amount := ctx.getInput "refund_amount"
      let _refund_reason := ctx.getInput "refund_reason"
      let validation := ctx.getDependencyResult "validate_refund_request"
      let vOr := PyVal.pyOr validation (.dict [])
      let request_id ← vOr.pyGetD "request_id" .none
      let customer_email ← vOr.pyGetD "customer_email" .none
      let refund_id ← delegation_result.pyGetD "refund_id" .none
      let amtD ← delegation_result.pyGetD "amount_refunded" (.num 0)
      let amount := PyVal.pyOr refund_amount amtD
      let order_ref ← vOr.pyGetD "order_ref" .none
      let amtStr ← pyFormatFixed2 amount
      let resolution_note := "Refund of $" ++ amtStr ++ " processed for order " ++
        pyRender order_ref ++ ". Refund ID: " ++ pyRender refund_id ++
        ". Customer notified at " ++ pyRender customer_email ++
        ". Delegated task ID: " ++ pyRender delegated_task_id ++
        ". Correlation ID: " ++ pyRender correlation_id ++
        ". Estimated arrival: 3-5 business days."
      .ok (.success
        (.dict [("ticket_updated", .bool true),
                ("ticket_id", PyVal.pyOr ticket_id
                  (.str ("tkt_" ++ (w.uuidHex 0).take 12))),
                ("previous_status", .str "in_progress"),
                ("new_status", .str "resolved"),
                ("resolution_note", .str resolution_note),
                ("updated_at", .str w.nowIso), ("refund_completed", .bool true),
                ("delegated_task_id", delegated_task_id),
                ("namespace", .str "customer_success"),
                ("request_id", request_id),
                ("resolution", .str "refund_completed"),
                ("customer_notified", .bool true),
                ("notification_channel", .str "email"),
                ("refund_id", refund_id), ("amount_refunded", amount),
                ("ticket_status", .str "resolved"), ("resolved_at", .str w.nowIso)])
        (.dict [("resolution_type", .str "refund")]))

end Handlers



/-- Python `v == "s"` as a total test (non-strings compare unequal). -/
def pvEqStr (v : PyVal) (s : String) : Bool :=
  match v with
  | .str t => t = s
  | _ => false

/-- `{**a, **b}`: keys of `b` override `a`, new keys append in order. -/
def dictMerge (a b : List (String × PyVal)) : List (String × PyVal) :=
  (a.map fun kv => ((PyVal.dictFind b kv.1).elim kv (fun v => (kv.1, v)))) ++
  (b.filter fun kv => (PyVal.dictFind a kv.1).isNone)

/-- First-seen deduplication (abstracting `list({...})`, whose order is
unspecified and never decides a claim). -/
def dedupStrs (xs : List String) : List String :=
  xs.foldl (fun acc x => if x ∈ acc then acc else acc ++ [x]) []

namespace Handlers

/-- `ProcessGatewayHandler.call` (`handlers/payments.py`). -/
def ProcessGatewayHandler.call (algo : Algo) (w : World) (ctx : StepContext) :
    Except PyExc StepHandlerResult := do
  let eligibility := ctx.getDependencyResult "validate_payment_eligibility"
  if eligibility.isNone then
    .ok (.failure ⟨"Missing validate_payment_eligibility dependency", .handlerError,
      false, Option.none⟩)
  else do
    let pv ← eligibility.pyGetD "payment_validated" .none
    if ¬ pv.truthy then
      .ok (.failure ⟨"Missing validate_payment_eligibility dependency", .handlerError,
        false, Option.none⟩)
    else do
      let payment_id := ctx.getDependencyField "validate_payment_eligibility" "payment_id"
      let refund_amount :=
        ctx.getDependencyField "validate_payment_eligibility" "refund_amount"
      let _original_amount :=
        ctx.getDependencyField "validate_payment_eligibility" "original_amount"
      let _refund_reason := PyVal.pyOr (ctx.getInput "refund_reason")
        (.str "customer_request")
      let _partialRefund := PyVal.pyOr (ctx.getInput "partial_refund") (.bool false)
      let amtD ← eligibility.pyGetD "amount" (.num 0)
      let amount := PyVal.pyOr refund_amount amtD
      let order_ref ← eligibility.pyGetD "order_ref" .none
      let refund_id := "rfnd_" ++ (w.uuidHex 0).take 24
      let gateway_txn_id := "gw_" ++ (w.uuidHex 1).take 16
      let settlement_id := "stl_" ++ (w.uuidHex 2).take 12
      let authorization_code :=
        ((algo.sha256Hex (gateway_txn_id ++ ":" ++ pyRender amount)).take 8).toUpper
      .ok (.success
        (.dict [("refund_processed", .bool true), ("refund_id", .str refund_id),
                ("payment_id", payment_id), ("refund_amount", amount),
                ("refund_status", .str "processed"),
                ("gateway_transaction_id", .str gateway_txn_id),
                ("gateway_provider", .str "MockPaymentGateway"),
                ("processed_at", .str w.nowIso),
                ("estimated_arrival", .str (w.plusDaysIso 5)),
                ("namespace", .str "payments_py"),
                ("gateway_txn_id", .str gateway_txn_id),
                ("settlement_id", .str settlement_id),
                ("authorization_code", .str authorization_code),
                ("order_ref", order_ref), ("amount_processed", amount),
                ("currency", .str "USD"), ("gateway", .str "stripe_simulated"),
                ("gateway_status", .str "succeeded"),
                ("processor_response_code", .str "00"),
                ("processor_message", .str "Approved"),
                ("settlement_batch", .str w.nowDate)])
        (.dict [("gateway", .str "stripe_simulated"), ("response_code", .str "00")]))

/-- `UpdateRecordsHandler.call` (`handlers/payments.py`). -/
def UpdateRecordsHandler.call (w : World) (ctx : StepContext) :
    Except PyExc StepHandlerResult := do
  let refund_result := ctx.getDependencyResult "process_gateway_refund"
  if ¬ refund_result.truthy then
    .ok (.failure ⟨"Missing upstream dependency results", .handlerError, false,
      Option.none⟩)
  else do
    let rp ← refund_result.pyGetD "refund_processed" .none
    if ¬ rp.truthy then
      .ok (.failure ⟨"Missing upstream dependency results", .handlerError, false,
        Option.none⟩)
    else do
      let payment_id := ctx.getDependencyField "process_gateway_refund" "payment_id"
      let refund_id := ctx.getDependencyField "process_gateway_refund" "refund_id"
      let refund_amount := ctx.getDependencyField "process_gateway_refund" "refund_amount"
      let gateway_transaction_id :=
        ctx.getDependencyField "process_gateway_refund" "gateway_transaction_id"
      let _original_amount :=
        ctx.getDependencyField "validate_payment_eligibility" "original_amount"
      let _refund_reason := PyVal.pyOr (ctx.getInput "refund_reason")
        (.str "customer_request")
      let eligibility := ctx.getDependencyResult "validate_payment_eligibility"
      let amtD ← refund_result.pyGetD "amount_processed" (.num 0)
      let amount := PyVal.pyOr refund_amount amtD
      let eOr := PyVal.pyOr eligibility (.dict [])
      let order_ref ← eOr.pyGetD "order_ref" .none
      let gwD ← refund_result.pyGetD "gateway_txn_id" .none
      let gateway_txn_id := PyVal.pyOr gateway_transaction_id gwD
      let record_id := "rec_" ++ (w.uuidHex 0).take 16
      let ledger_entry_id := "led_" ++ (w.uuidHex 1).take 12
      let journal_id := "jrn_" ++ (w.uuidHex 2).take 10
      let ledger_entries : PyVal := .list
        [.dict [("entry_id", .str ledger_entry_id), ("type", .str "debit"),
                ("account", .str "refunds_payable"), ("amount", amount),
                ("reference", gateway_txn_id)],
         .dict [("entry_id", .str ("led_" ++ (w.uuidHex 3).take 12)),
                ("type", .str "credit"), ("account", .str "accounts_receivable"),
                ("amount", amount), ("reference", gateway_txn_id)]]
      .ok (.success
        (.dict [("records_updated", .bool true), ("payment_id", payment_id),
                ("refund_id", refund_id), ("record_id", .str record_id),
                ("payment_status", .str "refunded"),
                ("refund_status", .str "completed"),
                ("history_entries_created", .num 2),
                ("updated_at", .str w.nowIso), ("namespace", .str "payments_py"),
                ("journal_id", .str journal_id), ("ledger_entries", ledger_entries),
                ("order_ref", order_ref), ("amount_recorded", amount),
                ("gateway_txn_id", gateway_txn_id),
                ("reconciliation_status", .str "pending"),
                ("fiscal_period", .str w.nowMonth), ("recorded_at", .str w.nowIso)])
        (.dict [("entries_created", .num 2)]))

/-- `NotifyCustomerHandler.call` (`handlers/payments.py`). -/
def NotifyCustomerHandler.call (w : World) (ctx : StepContext) :
    Except PyExc StepHandlerResult := do
  let refund_result := ctx.getDependencyResult "process_gateway_refund"
  if ¬ refund_result.truthy then
    .ok (.failure ⟨"Missing upstream dependency results", .handlerError, false,
      Option.none⟩)
  else do
    let rp ← refund_result.pyGetD "refund_processed" .none
    if ¬ rp.truthy then
      .ok (.failure ⟨"Missing upstream dependency results", .handlerError, false,
        Option.none⟩)
    else do
      let customer_email := PyVal.pyOr (ctx.getInput "customer_email")
        (.str "unknown@example.com")
      let refund_id := ctx.getDependencyField "process_gateway_refund" "refund_id"
      let refund_amount := ctx.getDependencyField "process_gateway_refund" "refund_amount"
      let _payment_id := ctx.getDependencyField "process_gateway_refund" "payment_id"
      let _estimated_arrival :=
        ctx.getDependencyField "process_gateway_refund" "estimated_arrival"
      let _refund_reason := PyVal.pyOr (ctx.getInput "refund_reason")
        (.str "customer_request")
      let eligibility := ctx.getDependencyResult "validate_payment_eligibility"
      let records := ctx.getDependencyResult "update_payment_records"
      let amtD ← refund_result.pyGetD "amount_processed" (.num 0)
      let amount := PyVal.pyOr refund_amount amtD
      let eOr := PyVal.pyOr eligibility (.dict [])
      let order_ref ← eOr.pyGetD "order_ref" .none
      let gateway_txn_id ← refund_result.pyGetD "gateway_txn_id" .none
      let rOr := PyVal.pyOr records (.dict [])
      let journal_id ← rOr.pyGetD "journal_id" .none
      let message_id := "msg_" ++ (w.uuidHex 0).take 24
      let notification_id := "ntf_" ++ (w.uuidHex 1).take 12
      let amtStr ← pyFormatFixed2 amount
      let subject := "Refund Processed - Order " ++ pyRender order_ref
      let body_preview := "Your refund of $" ++ amtStr ++ " for order " ++
        pyRender order_ref ++ " has been processed. Reference: " ++
        pyRender gateway_txn_id ++
        ". The refund will appear on your statement within 5-10 business days."
      .ok (.success
        (.dict [("notification_sent", .bool true), ("customer_email", customer_email),
                ("message_id", .str message_id),
                ("notification_type", .str "refund_confirmation"),
                ("sent_at", .str w.nowIso), ("delivery_status", .str "delivered"),
                ("refund_id", refund_id), ("refund_amount", amount),
                ("namespace", .str "payments_py"),
                ("notification_id", .str notification_id),
                ("recipient", customer_email), ("channel", .str "email"),
                ("subject", .str subject), ("body_preview", .str body_preview),
                ("template", .str "refund_confirmation_v2"),
                ("references", .dict [("order_ref", order_ref),
                  ("gateway_txn_id", gateway_txn_id), ("journal_id", journal_id)]),
                ("status", .str "sent")])
        (.dict [("email_provider", .str "simulated")]))

/-- `PLAN_PRICING.get(plan, starter)`: monthly, annual, trial days; the
dict lookup raises on an unhashable key. -/
def SetupBillingProfileHandler.planPricing : PyVal → Except PyExc (ℚ × ℚ × ℕ)
  | .list _ => .error (.typeError "unhashable type")
  | .dict _ => .error (.typeError "unhashable type")
  | .str s =>
    .ok (if s = "professional" then (2999/100, 29999/100, 14)
      else if s = "enterprise" then (9999/100, 99999/100, 30) else (0, 0, 0))
  | _ => .ok (0, 0, 0)

/-- `PLAN_LIMITS.get(plan, starter)` (hashability was already checked by
the pricing lookup): api calls, storage, team members. -/
def SetupBillingProfileHandler.planLimits (v : PyVal) : ℤ × ℤ × ℤ :=
  match v with
  | .str s =>
    if s = "professional" then (50000, 50, 10)
    else if s = "enterprise" then (-1, 500, -1) else (1000, 1, 1)
  | _ => (1000, 1, 1)

/-- `SetupBillingProfileHandler.call` (`handlers/microservices.py`). -/
def SetupBillingProfileHandler.call (w : World) (ctx : StepContext) :
    Except PyExc StepHandlerResult := do
  let user_data := ctx.getDependencyResult "create_user_account"
  if user_data.isNone then
    .ok (.failure ⟨"Missing create_user_account dependency", .handlerError, false,
      Option.none⟩)
  else do
    let user_id := ctx.getDependencyField "create_user_account" "user_id"
    let plan := PyVal.pyOr (ctx.getDependencyField "create_user_account" "plan")
      (.str "starter")
    let internal_id ← user_data.pyGetD "internal_id" .none
    let pricing ← SetupBillingProfileHandler.planPricing plan
    let limits := SetupBillingProfileHandler.planLimits plan
    let billing_required := decide (0 < pricing.1)
    let billing_id := "bill_" ++ (w.uuidHex 0).take 12
    let subscription_id := "sub_" ++ (w.uuidHex 1).take 12
    let trial_end : PyVal :=
      if 0 < pricing.2.2 then .str (w.plusDaysIso pricing.2.2) else .none
    let next_billing_date : PyVal :=
      if billing_required then .str (w.plusDaysIso 30) else .none
    .ok (.success
      (.dict [("billing_id", .str billing_id), ("user_id", user_id), ("plan", plan),
              ("price", .num pricing.1), ("currency", .str "USD"),
              ("billing_cycle", .str "monthly"),
              ("features", .list [.str "api_calls", .str "storage_gb",
                .str "team_members"]),
              ("status", .str (if billing_required then "active"
                else "skipped_free_plan")),
              ("billing_required", .bool billing_required),
              ("next_billing_date", next_billing_date),
              ("subscription_id", .str subscription_id),
              ("user_internal_id", internal_id),
              ("pricing", .dict [("monthly_price", .num pricing.1),
                ("annual_price", .num pricing.2.1),
                ("trial_days", .num pricing.2.2)]),
              ("limits", .dict [("api_calls", .num limits.1),
                ("storage_gb", .num limits.2.1),
                ("team_members", .num limits.2.2)]),
              ("billing_status", .str (if trial_end.truthy then "trial" else "active")),
              ("trial_end", trial_end),
              ("payment_method_required", .bool billing_required),
              ("created_at", .str w.nowIso)])
      (.dict [("plan_tier", plan)]))

/-- The notification / ui-settings / feature-flag defaults of
`InitializePreferencesHandler`, as functions of the plan value. -/
def InitializePreferencesHandler.notificationsOf (plan : PyVal) :
    List (String × PyVal) :=
  [("email_updates", .bool true),
   ("marketing_emails", .bool (¬ pvEqStr plan "enterprise")),
   ("weekly_digest", .bool true), ("security_alerts", .bool true),
   ("product_updates", .bool true),
   ("billing_alerts", .bool (¬ pvEqStr plan "starter"))]

def InitializePreferencesHandler.uiSettings : List (String × PyVal) :=
  [("theme", .str "light"), ("language", .str "en"), ("timezone", .str "UTC"),
   ("date_format", .str "YYYY-MM-DD"), ("items_per_page", .num 25),
   ("sidebar_collapsed", .bool false)]

def InitializePreferencesHandler.featureFlags (plan : PyVal) : PyVal :=
  .dict [("beta_features", .bool (pvEqStr plan "enterprise")),
         ("advanced_analytics", .bool (pvEqStr plan "professional" ||
           pvEqStr plan "enterprise")),
         ("api_access", .bool (pvEqStr plan "professional" ||
           pvEqStr plan "enterprise")),
         ("custom_integrations", .bool (pvEqStr plan "enterprise")),
         ("priority_support", .bool (pvEqStr plan "enterprise")),
         ("export_data", .bool true)]

/-- `InitializePreferencesHandler.call` (`handlers/microservices.py`);
`{**default_prefs, **custom_prefs}` raises `TypeError` when the custom
preferences value is not a mapping. -/
def InitializePreferencesHandler.call (w : World) (ctx : StepContext) :
    Except PyExc StepHandlerResult := do
  let user_data := ctx.getDependencyResult "create_user_account"
  if user_data.isNone then
    .ok (.failure ⟨"Missing create_user_account dependency", .handlerError, false,
      Option.none⟩)
  else do
    let user_id := ctx.getDependencyField "create_user_account" "user_id"
    let plan := PyVal.pyOr (ctx.getDependencyField "create_user_account" "plan")
      (.str "starter")
    let internal_id ← user_data.pyGetD "internal_id" .none
    let user_info := PyVal.pyOr (ctx.getInput "user_info") (.dict [])
    let custom ← user_info.pyGetD "preferences" (.dict [])
    let customD ← (match custom with
      | .dict d => .ok d
      | _ => .error (.typeError "argument is not a mapping"))
    let notifications := InitializePreferencesHandler.notificationsOf plan
    let default_prefs := notifications ++ InitializePreferencesHandler.uiSettings
    let preferences := dictMerge default_prefs customD
    let preferences_id := "pref_" ++ (w.uuidHex 0).take 12
    .ok (.success
      (.dict [("preferences_id", .str preferences_id), ("user_id", user_id),
              ("plan", plan), ("preferences", .dict preferences),
              ("defaults_applied", .num default_prefs.length),
              ("customizations", .num customD.length),
              ("status", .str "active"), ("user_internal_id", internal_id),
              ("notifications", .dict notifications),
              ("ui_settings", .dict InitializePreferencesHandler.uiSettings),
              ("feature_flags", InitializePreferencesHandler.featureFlags plan),
              ("onboarding_completed", .bool false),
              ("created_at", .str w.nowIso), ("updated_at", .str w.nowIso)])
      (.dict [("defaults_based_on_plan", plan)]))

/-- `SendWelcomeSequenceHandler.call` (`handlers/microservices.py`);
`list({...})` over the channels is modelled as first-seen deduplication. -/
def SendWelcomeSequenceHandler.call (w : World) (ctx : StepContext) :
    Except PyExc StepHandlerResult := do
  let user_data := ctx.getDependencyResult "create_user_account"
  let billing_data := ctx.getDependencyResult "setup_billing_profile"
  let prefs_data := ctx.getDependencyResult "initialize_preferences"
  if ¬ (user_data.truthy && billing_data.truthy && prefs_data.truthy) then
    .ok (.failure ⟨"Missing upstream dependency results", .handlerError, false,
      Option.none⟩)
  else do
    let user_id := ctx.getDependencyField "create_user_account" "user_id"
    let email := ctx.getDependencyField "create_user_account" "email"
    let plan := PyVal.pyOr (ctx.getDependencyField "create_user_account" "plan")
      (.str "starter")
    let fn1 ← user_data.pyGetD "full_name" .none
    let fn2 ← user_data.pyGetD "name" .none
    let full_name := PyVal.pyOr fn1 fn2
    let verification_token ← user_data.pyGetD "verification_token" .none
    let trial_end ← billing_data.pyGetD "trial_end" .none
    let prefs ← prefs_data.pyGetD "preferences" (.dict [])
    let e1 ← prefs.pyGetD "email_updates" (.bool true)
    let sendWelcome ← (if e1.truthy then pure true else do
      let e2 ← prefs.pyGetD "email_notifications" (.bool true)
      pure e2.truthy)
    let welcomeList : List PyVal :=
      if sendWelcome then
        [.dict [("message_id", .str ("msg_" ++ (w.uuidHex 0).take 16)),
                ("channel", .str "email"), ("recipient", email),
                ("template", .str "welcome_email_v3"),
                ("subject", .str ("Welcome to Tasker, " ++ pyRender full_name ++ "!")),
                ("status", .str "sent")]]
      else []
    let verifyMsg : PyVal :=
      .dict [("message_id", .str ("msg_" ++ (w.uuidHex 1).take 16)),
             ("channel", .str "email"), ("recipient", email),
             ("template", .str "email_verification"),
             ("subject", .str "Verify your email address"),
             ("verification_link", .str ("https://app.example.com/verify/" ++
               pyRender verification_token)),
             ("status", .str "sent")]
    let onboardMsg : PyVal :=
      .dict [("message_id", .str ("msg_" ++ (w.uuidHex 2).take 16)),
             ("channel", .str "in_app"), ("template", .str "onboarding_tour"),
             ("status", .str "queued")]
    let trialList : List PyVal :=
      if trial_end.truthy then
        [.dict [("message_id", .str ("msg_" ++ (w.uuidHex 3).take 16)),
                ("channel", .str "email"), ("recipient", email),
                ("template", .str "trial_started"),
                ("subject", .str ("Your " ++ pyRender plan ++ " trial has started")),
                ("trial_end", trial_end), ("status", .str "sent")]]
      else []
    let messages := welcomeList ++ [verifyMsg, onboardMsg] ++ trialList
    let channels := dedupStrs
      ((if sendWelcome then ["email"] else []) ++ ["email", "in_app"] ++
       (if trial_end.truthy then ["email"] else []))
    .ok (.success
      (.dict [("user_id", user_id), ("plan", plan),
              ("channels_used", .list (channels.map PyVal.str)),
              ("messages_sent", .num messages.length),
              ("welcome_sequence_id", .str ("welcome_" ++ (w.uuidHex 4).take 12)),
              ("status", .str "sent"),
              ("messages_sent_details", .list messages),
              ("total_messages", .num messages.length),
              ("sequence_id", .str ("seq_" ++ (w.uuidHex 5).take 12)),
              ("sent_at", .str w.nowIso)])
      (.dict [("channels", .num channels.length)]))

/-- `UpdateUserStatusHandler.call` (`handlers/microservices.py`). -/
def UpdateUserStatusHandler.call (w : World) (ctx : StepContext) :
    Except PyExc StepHandlerResult := do
  let user_data := ctx.getDependencyResult "create_user_account"
  let billing_data := ctx.getDependencyResult "setup_billing_profile"
  let preferences_data := ctx.getDependencyResult "initialize_preferences"
  let welcome_data := ctx.getDependencyResult "send_welcome_sequence"
  if ¬ (user_data.truthy && billing_data.truthy && preferences_data.truthy &&
      welcome_data.truthy) then
    .ok (.failure ⟨"Missing upstream dependency results", .handlerError, false,
      Option.none⟩)
  else do
    let user_id := ctx.getDependencyField "create_user_account" "user_id"
    let plan := PyVal.pyOr (ctx.getDependencyField "create_user_account" "plan")
      (.str "starter")
    let email := ctx.getDependencyField "create_user_account" "email"
    let internal_id ← user_data.pyGetD "internal_id" .none
    let billing_id ← billing_data.pyGetD "billing_id" .none
    let subscription_id ← billing_data.pyGetD "subscription_id" .none
    let inner ← welcome_data.pyGetD "messages_sent" (.num 0)
    let messages_sent ← welcome_data.pyGetD "total_messages" inner
    let baseSummary : List (String × PyVal) :=
      [("user_id", user_id), ("email", email), ("plan", plan),
       ("registration_status", .str "complete")]
    let billingPart ← (if ¬ pvEqStr plan "starter" then do
        let bid ← billing_data.pyGetD "billing_id" .none
        if bid.truthy then do
          let nbd ← billing_data.pyGetD "next_billing_date" .none
          pure [("billing_id", bid), ("next_billing_date", nbd)]
        else pure ([] : List (String × PyVal))
      else pure ([] : List (String × PyVal)))
    let prefs ← preferences_data.pyGetD "preferences" (.dict [])
    let prefsCount : ℕ := match prefs with
      | .dict d => d.length
      | _ => 0
    let channels ← welcome_data.pyGetD "channels_used" (.list [])
    let created_at ← user_data.pyGetD "created_at" .none
    let registration_summary : PyVal := .dict (baseSummary ++ billingPart ++
      [("preferences_count", .num prefsCount), ("welcome_sent", .bool true),
       ("notification_channels", channels), ("user_created_at", created_at),
       ("registration_completed_at", .str w.nowIso)])
    .ok (.success
      (.dict [("user_id", user_id), ("status", .str "active"), ("plan", plan),
              ("registration_summary", registration_summary),
              ("activation_timestamp", .str w.nowIso),
              ("all_services_coordinated", .bool true),
              ("services_completed", .list [.str "user_service",
                .str "billing_service", .str "preferences_service",
                .str "notification_service"]),
              ("internal_id", internal_id), ("email", email),
              ("account_status", .str "active"), ("billing_id", billing_id),
              ("subscription_id", subscription_id),
              ("onboarding_status", .str "in_progress"),
              ("welcome_messages_sent", messages_sent),
              ("registration_complete", .bool true),
              ("activated_at", .str w.nowIso)])
      (.dict [("registration_steps_completed", .num 5), ("plan", plan)]))

end Handlers



/-- `round(x, 3)`. -/
def round3 (x : ℚ) : ℚ := (roundHalfEven (x * 1000) : ℚ) / 1000

/-- `round(x, 4)`. -/
def round4 (x : ℚ) : ℚ := (roundHalfEven (x * 10000) : ℚ) / 10000

namespace Handlers

/-- One generated sales record of `ExtractSalesDataHandler`, as the
result-dict entry (same draws as the service-layer extraction). -/
def ExtractSalesDataHandler.recordDict (algo : Algo) (w : World) (seed i : ℕ) : PyVal :=
  let r := DataPipeline.mkSalesRecord algo w seed i
  .dict [("record_id", .str r.record_id), ("category", .str r.category),
         ("region", .str r.region), ("quantity", .num r.quantity),
         ("unit_price", .num r.unit_price), ("revenue", .num r.revenue),
         ("timestamp", .str r.timestamp)]

/-- `ExtractSalesDataHandler.call` (`handlers/data_pipeline.py`): pure
record generation, total for every context. -/
def ExtractSalesDataHandler.call (algo : Algo) (w : World) (ctx : StepContext) :
    Except PyExc StepHandlerResult :=
  let source := PyVal.pyOr (ctx.getInput "source") (.str "default")
  let date_start := PyVal.pyOr (ctx.getInput "date_range_start") (.str "2026-01-01")
  let date_end := PyVal.pyOr (ctx.getInput "date_range_end") (.str "2026-01-31")
  let granularity := PyVal.pyOr (ctx.getInput "granularity") (.str "daily")
  let seed := algo.md5Head 8 ("sales:" ++ pyRender source ++ ":" ++ pyRender date_start)
  let n := if pvEqStr granularity "daily" then 30 else 120
  let recs := (List.range n).map (DataPipeline.mkSalesRecord algo w seed)
  let total_revenue := round2 ((recs.map DataPipeline.SalesRecord.revenue).sum)
  let total_quantity := (recs.map DataPipeline.SalesRecord.quantity).sum
  .ok (.success
    (.dict [("source", .str "sales_database"), ("record_count", .num recs.length),
            ("records", .list ((List.range n).map
              (ExtractSalesDataHandler.recordDict algo w seed))),
            ("total_amount", .num total_revenue),
            ("total_revenue", .num total_revenue),
            ("total_quantity", .num total_quantity),
            ("date_range", .dict [("start", date_start), ("end", date_end)]),
            ("extracted_at", .str w.nowIso)])
    (.dict [("granularity", granularity), ("source", source)]))

def ExtractWebTrafficHandler.TRAFFIC_SOURCES : List String :=
  ["organic", "paid_search", "social", "email", "direct", "referral"]

def ExtractWebTrafficHandler.PAGES : List String :=
  ["/", "/products", "/pricing", "/about", "/checkout", "/signup"]

/-- One generated web-traffic record; iteration `i` consumes rng draws
`7*i .. 7*i+6` (source, page, sessions, page-view multiplier, bounce
rate, session duration, conversion fraction) and uuid draw `i`. -/
def ExtractWebTrafficHandler.record (algo : Algo) (w : World) (seed i : ℕ) :
    String × ℚ × ℚ := 
  let src := DataPipeline.rngChoice ExtractWebTrafficHandler.TRAFFIC_SOURCES
    (algo.rand seed (7 * i))
  let sessions : ℚ := (DataPipeline.rngRandint 100 10000 (algo.rand seed (7 * i + 2)) : ℕ)
  let conversions : ℚ :=
    ((sessions * DataPipeline.rngUniform (1/100) (15/100) (algo.rand seed (7 * i + 6))).floor : ℤ)
  (src, sessions, conversions)

/-- The full record dict of `ExtractWebTrafficHandler` for iteration `i`. -/
def ExtractWebTrafficHandler.recordDict (algo : Algo) (w : World) (seed i : ℕ) : PyVal :=
  let page := DataPipeline.rngChoice ExtractWebTrafficHandler.PAGES
    (algo.rand seed (7 * i + 1))
  let r := ExtractWebTrafficHandler.record algo w seed i
  let page_views := r.2.1 * (DataPipeline.rngRandint 2 8 (algo.rand seed (7 * i + 3)) : ℕ)
  let bounce := round3 (DataPipeline.rngUniform (15/100) (75/100) (algo.rand seed (7 * i + 4)))
  let durationAvg := round1 (DataPipeline.rngUniform 30 600 (algo.rand seed (7 * i + 5)))
  .dict [("record_id", .str ("web_" ++ (w.uuidHex i).take 10)),
         ("traffic_source", .str r.1), ("landing_page", .str page),
         ("sessions", .num r.2.1), ("page_views", .num page_views),
         ("bounce_rate", .num bounce),
         ("avg_session_duration_seconds", .num durationAvg),
         ("conversions", .num r.2.2),
         ("conversion_rate", .num (if 0 < r.2.1 then round4 (r.2.2 / r.2.1) else 0)),
         ("date", .str ("2026-01-" ++ (if i + 1 < 10 then "0" else "") ++ toString (i + 1)))]

/-- `ExtractWebTrafficHandler.call` (`handlers/data_pipeline.py`,
registered as `extract_inventory_data`): pure, total for every context. -/
def ExtractWebTrafficHandler.call (algo : Algo) (w : World) (ctx : StepContext) :
    Except PyExc StepHandlerResult :=
  let source := PyVal.pyOr (ctx.getInput "source") (.str "default")
  let date_start := PyVal.pyOr (ctx.getInput "date_range_start") (.str "2026-01-01")
  let seed := algo.md5Head 8 ("traffic:" ++ pyRender source ++ ":" ++ pyRender date_start)
  let idxs := List.range 25
  let total_sessions := (idxs.map
    (fun i => (ExtractWebTrafficHandler.record algo w seed i).2.1)).sum
  let total_conversions := (idxs.map
    (fun i => (ExtractWebTrafficHandler.record algo w seed i).2.2)).sum
  .ok (.success
    (.dict [("source", .str "web_analytics"), ("record_count", .num (25 : ℚ)),
            ("records", .list (idxs.map (ExtractWebTrafficHandler.recordDict algo w seed))),
            ("total_quantity", .num total_sessions),
            ("total_sessions", .num total_sessions),
            ("total_conversions", .num total_conversions),
            ("overall_conversion_rate", .num
              (if 0 < total_sessions then round4 (total_conversions / total_sessions)
               else 0)),
            ("warehouses", .list ((dedupStrs (idxs.map (fun i =>
              DataPipeline.rngChoice ExtractWebTrafficHandler.PAGES
                (algo.rand seed (7 * i + 1))))).map PyVal.str)),
            ("products_tracked", .num (25 : ℚ)),
            ("extracted_at", .str w.nowIso)])
    (.dict [("analytics_platform", .str "simulated")]))

def ExtractInventoryHandler.WAREHOUSES : List String :=
  ["WH-EAST-01", "WH-WEST-01", "WH-CENTRAL-01"]

def ExtractInventoryHandler.STATUS_CATEGORIES : List String :=
  ["electronics", "clothing", "food", "home", "sports"]

/-- The draws of one inventory record: iteration `i` consumes rng draws
`7*i .. 7*i+6` (sku, warehouse, category, stock, reorder point, lead
time, unit cost) and uuid draw `i`. -/
def ExtractInventoryHandler.record (algo : Algo) (seed i : ℕ) :
    String × ℚ × ℚ × String :=
  let category := DataPipeline.rngChoice ExtractInventoryHandler.STATUS_CATEGORIES
    (algo.rand seed (7 * i + 2))
  let current_stock : ℚ := (DataPipeline.rngRandint 0 500 (algo.rand seed (7 * i + 3)) : ℕ)
  let reorder_point : ℚ := (DataPipeline.rngRandint 10 50 (algo.rand seed (7 * i + 4)) : ℕ)
  let unit_cost := round2 (DataPipeline.rngUniform 2 200 (algo.rand seed (7 * i + 6)))
  let status := if current_stock = 0 then "out_of_stock"
    else if current_stock ≤ reorder_point then "low_stock" else "in_stock"
  (category, current_stock, unit_cost, status)

/-- The full record dict of `ExtractInventoryHandler` for iteration `i`. -/
def ExtractInventoryHandler.recordDict (algo : Algo) (w : World) (seed i : ℕ) : PyVal :=
  let r := ExtractInventoryHandler.record algo seed i
  .dict [("record_id", .str ("inv_" ++ (w.uuidHex i).take 10)),
         ("sku", .str ("SKU-" ++ toString
           (DataPipeline.rngRandint 10000 99999 (algo.rand seed (7 * i))))),
         ("warehouse", .str (DataPipeline.rngChoice ExtractInventoryHandler.WAREHOUSES
           (algo.rand seed (7 * i + 1)))),
         ("category", .str r.1), ("current_stock", .num r.2.1),
         ("reorder_point", .num ((DataPipeline.rngRandint 10 50
           (algo.rand seed (7 * i + 4)) : ℕ) : ℚ)),
         ("lead_time_days", .num ((DataPipeline.rngRandint 3 21
           (algo.rand seed (7 * i + 5)) : ℕ) : ℚ)),
         ("unit_cost", .num r.2.2.1),
         ("inventory_value", .num (round2 (r.2.1 * r.2.2.1))),
         ("status", .str r.2.2.2)]

/-- Per-category record counts (the `tier_breakdown` dict). -/
def ExtractInventoryHandler.tierBreakdown (cats : List String) :
    List (String × PyVal) :=
  cats.foldl (fun acc c =>
    match acc.lookup c with
    | some (PyVal.num n) => acc.map (fun kv => if kv.1 = c then (c, .num (n + 1)) else kv)
    | _ => acc ++ [(c, .num 1)]) []

/-- `ExtractInventoryHandler.call` (`handlers/data_pipeline.py`,
registered as `extract_customer_data`): pure, total for every context. -/
def ExtractInventoryHandler.call (algo : Algo) (w : World) (ctx : StepContext) :
    Except PyExc StepHandlerResult :=
  let source := PyVal.pyOr (ctx.getInput "source") (.str "default")
  let seed := algo.md5Head 8 ("inventory:" ++ pyRender source)
  let idxs := List.range 20
  let total_value := round2 ((idxs.map (fun i =>
    let r := ExtractInventoryHandler.record algo seed i
    round2 (r.2.1 * r.2.2.1))).sum)
  let low_stock_count := (idxs.filter (fun i =>
    let st := (ExtractInventoryHandler.record algo seed i).2.2.2
    st = "low_stock" ∨ st = "out_of_stock")).length
  .ok (.success
    (.dict [("source", .str "warehouse_management"), ("record_count", .num (20 : ℚ)),
            ("records", .list (idxs.map (ExtractInventoryHandler.recordDict algo w seed))),
            ("total_customers", .num (20 : ℚ)),
            ("total_lifetime_value", .num total_value),
            ("avg_lifetime_value", .num (round2 (total_value / 20))),
            ("tier_breakdown", .dict (ExtractInventoryHandler.tierBreakdown
              (idxs.map (fun i => (ExtractInventoryHandler.record algo seed i).1)))),
            ("total_inventory_value", .num total_value),
            ("low_stock_alerts", .num (low_stock_count : ℚ)),
            ("extracted_at", .str w.nowIso)])
    (.dict [("warehouses_scanned", .num (3 : ℚ))]))

end Handlers



namespace Handlers

/-- Running `by_category`/`by_region` entry of `TransformSalesDataHandler`. -/
structure SalesGroup where
  revenue : ℚ
  quantity : ℚ
  count : ℕ

/-- One grouped update: `revenue = round(old + rev, 2)`, `quantity += q`,
`transaction_count += 1`, inserting a fresh entry on a new key. -/
def updSalesGroup (m : List (String × SalesGroup)) (k : String) (rev q : ℚ) :
    List (String × SalesGroup) :=
  match m.lookup k with
  | some e => m.map fun kv =>
      if kv.1 = k then (k, ⟨round2 (e.revenue + rev), e.quantity + q, e.count + 1⟩)
      else kv
  | Option.none => m ++ [(k, ⟨round2 rev, q, 1⟩)]

/-- The grouping loop of `TransformSalesDataHandler`; the model narrows
Python's hashable dict keys to strings (it raises `TypeError` on a
non-string category/region where CPython would accept any hashable — a
strictly-more-raising abstraction outside every theorem's hypotheses).
The separately summed `total_revenue` comprehension is folded into the
same pass. -/
def transformSalesLoop : List PyVal → List (String × SalesGroup) →
    List (String × SalesGroup) → ℚ →
    Except PyExc (List (String × SalesGroup) × List (String × SalesGroup) × ℚ)
  | [], bc, br, acc => .ok (bc, br, acc)
  | r :: rest, bc, br, acc => do
    let cat ← r.pySubscript "category"
    let region ← r.pySubscript "region"
    let catS ← (match cat with
      | .str s => .ok s
      | _ => .error (.typeError "unsupported key type"))
    let regS ← (match region with
      | .str s => .ok s
      | _ => .error (.typeError "unsupported key type"))
    let revV ← r.pySubscript "revenue"
    let rev ← revV.asNumE
    let qV ← r.pySubscript "quantity"
    let q ← qV.asNumE
    transformSalesLoop rest (updSalesGroup bc catS rev q) (updSalesGroup br regS rev q)
      (acc + rev)

/-- A grouped summary with its `avg_revenue`. -/
def salesSummaryDict (g : SalesGroup) : PyVal :=
  .dict [("revenue", .num g.revenue), ("quantity", .num g.quantity),
         ("transaction_count", .num g.count),
         ("avg_revenue", .num (if 0 < g.count then round2 (g.revenue / g.count) else 0))]

/-- `max(by_category, key=revenue)` — the first key of maximal revenue,
`None` on an empty dict. -/
def argmaxRevenue (m : List (String × SalesGroup)) : PyVal :=
  match m.foldl (fun acc kv =>
    match acc with
    | Option.none => some kv
    | some best => if best.2.revenue < kv.2.revenue then some kv else some best)
    Option.none with
  | some kv => .str kv.1
  | Option.none => .none

/-- `TransformSalesDataHandler.call` (`handlers/data_pipeline.py`).
Iterating a non-list `records` payload is modelled as `TypeError`. -/
def TransformSalesDataHandler.call (w : World) (ctx : StepContext) :
    Except PyExc StepHandlerResult := do
  let sales_data := ctx.getDependencyResult "extract_sales_data"
  if sales_data.isNone then
    .ok (.failure ⟨"Missing extract_sales_data dependency", .handlerError, false,
      Option.none⟩)
  else do
    let records ← sales_data.pyGetD "records" (.list [])
    match records with
    | .list items => do
      let out ← transformSalesLoop items [] [] 0
      let by_category : PyVal := .dict (out.1.map fun kv => (kv.1, salesSummaryDict kv.2))
      let by_region : PyVal := .dict (out.2.1.map fun kv => (kv.1, salesSummaryDict kv.2))
      .ok (.success
        (.dict [("record_count", .num items.length), ("daily_sales", by_region),
                ("product_sales", by_category),
                ("total_revenue", .num (round2 out.2.2)),
                ("by_category", by_category), ("by_region", by_region),
                ("top_category", argmaxRevenue out.1),
                ("total_categories", .num out.1.length),
                ("total_regions", .num out.2.1.length),
                ("records_processed", .num items.length),
                ("transformed_at", .str w.nowIso)])
        .none)
    | _ => .error (.typeError "object is not iterable")

/-- Running `by_source` entry of `TransformWebTrafficHandler`. -/
structure SourceGroup where
  sessions : ℚ
  conversions : ℚ
  bounceW : ℚ

/-- Running `by_page` entry of `TransformWebTrafficHandler`. -/
structure PageGroup where
  sessions : ℚ
  page_views : ℚ
  conversions : ℚ

def updSourceGroup (m : List (String × SourceGroup)) (k : String) (s c bw : ℚ) :
    List (String × SourceGroup) :=
  match m.lookup k with
  | some e => m.map fun kv =>
      if kv.1 = k then (k, ⟨e.sessions + s, e.conversions + c, e.bounceW + bw⟩) else kv
  | Option.none => m ++ [(k, ⟨s, c, bw⟩)]

def updPageGroup (m : List (String × PageGroup)) (k : String) (s pv c : ℚ) :
    List (String × PageGroup) :=
  match m.lookup k with
  | some e => m.map fun kv =>
      if kv.1 = k then (k, ⟨e.sessions + s, e.page_views + pv, e.conversions + c⟩) else kv
  | Option.none => m ++ [(k, ⟨s, pv, c⟩)]

/-- The grouping loop of `TransformWebTrafficHandler` (same string-key
narrowing as `transformSalesLoop`); the separate `total_sessions` sum is
folded into the same pass. -/
def transformTrafficLoop : List PyVal → List (String × SourceGroup) →
    List (String × PageGroup) → ℚ →
    Except PyExc (List (String × SourceGroup) × List (String × PageGroup) × ℚ)
  | [], bs, bp, acc => .ok (bs, bp, acc)
  | r :: rest, bs, bp, acc => do
    let src ← r.pySubscript "traffic_source"
    let page ← r.pySubscript "landing_page"
    let srcS ← (match src with
      | .str s => .ok s
      | _ => .error (.typeError "unsupported key type"))
    let pageS ← (match page with
      | .str s => .ok s
      | _ => .error (.typeError "unsupported key type"))
    let sess ← (← r.pySubscript "sessions").asNumE
    let conv ← (← r.pySubscript "conversions").asNumE
    let bounce ← (← r.pySubscript "bounce_rate").asNumE
    let pviews ← (← r.pySubscript "page_views").asNumE
    transformTrafficLoop rest (updSourceGroup bs srcS sess conv (bounce * sess))
      (updPageGroup bp pageS sess pviews conv) (acc + sess)

/-- Source summary with rates (the weighted-bounce accumulator is
dropped, as the source deletes it). -/
def sourceSummaryDict (g : SourceGroup) : PyVal :=
  .dict [("sessions", .num g.sessions), ("conversions", .num g.conversions),
         ("conversion_rate", .num (if 0 < g.sessions then
           round4 (g.conversions / g.sessions) else 0)),
         ("avg_bounce_rate", .num (if 0 < g.sessions then
           round4 (g.bounceW / g.sessions) else 0))]

def pageSummaryDict (g : PageGroup) : PyVal :=
  .dict [("sessions", .num g.sessions), ("page_views", .num g.page_views),
         ("conversions", .num g.conversions),
         ("conversion_rate", .num (if 0 < g.sessions then
           round4 (g.conversions / g.sessions) else 0)),
         ("pages_per_session", .num (if 0 < g.sessions then
           round2 (g.page_views / g.sessions) else 0))]

/-- `max(by_source, key=conversion_rate)` — first key of maximal
conversion rate, `None` on empty. -/
def argmaxConversionRate (m : List (String × SourceGroup)) : PyVal :=
  let rate := fun (g : SourceGroup) =>
    if 0 < g.sessions then round4 (g.conversions / g.sessions) else 0
  match m.foldl (fun acc kv =>
    match acc with
    | Option.none => some kv
    | some best => if rate best.2 < rate kv.2 then some kv else some best)
    Option.none with
  | some kv => .str kv.1
  | Option.none => .none

/-- `TransformWebTrafficHandler.call` (`handlers/data_pipeline.py`,
registered as `transform_inventory`). -/
def TransformWebTrafficHandler.call (w : World) (ctx : StepContext) :
    Except PyExc StepHandlerResult := do
  let traffic_data := ctx.getDependencyResult "extract_inventory_data"
  if traffic_data.isNone then
    .ok (.failure ⟨"Missing extract_inventory_data dependency", .handlerError, false,
      Option.none⟩)
  else do
    let records ← traffic_data.pyGetD "records" (.list [])
    match records with
    | .list items => do
      let out ← transformTrafficLoop items [] [] 0
      let by_source : PyVal := .dict (out.1.map fun kv => (kv.1, sourceSummaryDict kv.2))
      let by_page : PyVal := .dict (out.2.1.map fun kv => (kv.1, pageSummaryDict kv.2))
      .ok (.success
        (.dict [("record_count", .num items.length), ("warehouse_summary", by_source),
                ("product_inventory", by_page),
                ("total_quantity_on_hand", .num out.2.2),
                ("reorder_alerts", .num 0), ("by_source", by_source),
                ("by_page", by_page),
                ("best_converting_source", argmaxConversionRate out.1),
                ("total_sources", .num out.1.length),
                ("total_pages", .num out.2.1.length),
                ("records_processed", .num items.length),
                ("transformed_at", .str w.nowIso)])
        .none)
    | _ => .error (.typeError "object is not iterable")

/-- Running `by_warehouse`/`by_category` entry of
`TransformInventoryHandler`. -/
structure InvGroup where
  total_stock : ℚ
  total_value : ℚ
  sku_count : ℕ

def updInvGroup (m : List (String × InvGroup)) (k : String) (stock value : ℚ) :
    List (String × InvGroup) :=
  match m.lookup k with
  | some e => m.map fun kv =>
      if kv.1 = k then (k, ⟨e.total_stock + stock, round2 (e.total_value + value),
        e.sku_count + 1⟩) else kv
  | Option.none => m ++ [(k, ⟨stock, round2 value, 1⟩)]

/-- The grouping loop of `TransformInventoryHandler` (string-key
narrowing as above); it also collects the low-stock item dicts and the
`inventory_value` sum of the trailing comprehension. -/
def transformInventoryLoop : List PyVal → List (String × InvGroup) →
    List (String × InvGroup) → List PyVal → ℚ →
    Except PyExc (List (String × InvGroup) × List (String × InvGroup) ×
      List PyVal × ℚ)
  | [], bw, bc, low, acc => .ok (bw, bc, low, acc)
  | r :: rest, bw, bc, low, acc => do
    let wh ← r.pySubscript "warehouse"
    let cat ← r.pySubscript "category"
    let whS ← (match wh with
      | .str s => .ok s
      | _ => .error (.typeError "unsupported key type"))
    let catS ← (match cat with
      | .str s => .ok s
      | _ => .error (.typeError "unsupported key type"))
    let stock ← (← r.pySubscript "current_stock").asNumE
    let value ← (← r.pySubscript "inventory_value").asNumE
    let status ← r.pySubscript "status"
    let isLow : Bool := match status with
      | .str s => s = "low_stock" || s = "out_of_stock"
      | _ => false
    let lowItem ← (if isLow then do
        let sku ← r.pySubscript "sku"
        let reorder ← r.pySubscript "reorder_point"
        pure [PyVal.dict [("sku", sku), ("warehouse", .str whS),
          ("current_stock", .num stock), ("reorder_point", reorder),
          ("status", status)]]
      else pure ([] : List PyVal))
    transformInventoryLoop rest (updInvGroup bw whS stock value)
      (updInvGroup bc catS stock value) (low ++ lowItem) (acc + value)

def invGroupDict (g : InvGroup) : PyVal :=
  .dict [("total_stock", .num g.total_stock), ("total_value", .num g.total_value),
         ("sku_count", .num g.sku_count)]

/-- `TransformInventoryHandler.call` (`handlers/data_pipeline.py`,
registered as `transform_customers`). -/
def TransformInventoryHandler.call (w : World) (ctx : StepContext) :
    Except PyExc StepHandlerResult := do
  let inventory_data := ctx.getDependencyResult "extract_customer_data"
  if inventory_data.isNone then
    .ok (.failure ⟨"Missing extract_customer_data dependency", .handlerError, false,
      Option.none⟩)
  else do
    let records ← inventory_data.pyGetD "records" (.list [])
    match records with
    | .list items => do
      let out ← transformInventoryLoop items [] [] [] 0
      let by_warehouse : PyVal := .dict (out.1.map fun kv => (kv.1, invGroupDict kv.2))
      let by_category : PyVal := .dict (out.2.1.map fun kv => (kv.1, invGroupDict kv.2))
      let total_value := round2 out.2.2.2
      .ok (.success
        (.dict [("record_count", .num items.length), ("tier_analysis", by_category),
                ("value_segments", by_warehouse),
                ("total_lifetime_value", .num total_value),
                ("avg_customer_value", .num (if 0 < items.length then
                  round2 (total_value / items.length) else 0)),
                ("by_warehouse", by_warehouse), ("by_category", by_category),
                ("low_stock_items", .list out.2.2.1),
                ("low_stock_count", .num out.2.2.1.length),
                ("total_skus", .num items.length),
                ("records_processed", .num items.length),
                ("transformed_at", .str w.nowIso)])
        .none)
    | _ => .error (.typeError "object is not iterable")

/-- `AggregateMetricsHandler.call` (`handlers/data_pipeline.py`). -/
def AggregateMetricsHandler.call (w : World) (ctx : StepContext) :
    Except PyExc StepHandlerResult := do
  let sales_t := ctx.getDependencyResult "transform_sales"
  let traffic_t := ctx.getDependencyResult "transform_inventory"
  let inv_t := ctx.getDependencyResult "transform_customers"
  if ¬ (sales_t.truthy && traffic_t.truthy && inv_t.truthy) then
    .ok (.failure ⟨"Missing one or more transform dependency results", .handlerError,
      false, Option.none⟩)
  else do
    let trV ← sales_t.pyGetD "total_revenue" (.num 0)
    let srcCount ← sales_t.pyGetD "record_count" (.num 0)
    let tiV ← traffic_t.pyGetD "total_quantity_on_hand" (.num 0)
    let raV ← traffic_t.pyGetD "reorder_alerts" (.num 0)
    let tcV ← inv_t.pyGetD "record_count" (.num 0)
    let ltvV ← inv_t.pyGetD "total_lifetime_value" (.num 0)
    let gtc ← PyVal.pyGt tcV (.num 0)
    let rpc ← (if gtc then do
        let tr ← trV.asNumE
        let tc ← tcV.asNumE
        pure (PyVal.num (round2 (tr / tc)))
      else pure (PyVal.num 0))
    let gti ← PyVal.pyGt tiV (.num 0)
    let turnover ← (if gti then do
        let tr ← trV.asNumE
        let ti ← tiV.asNumE
        pure (PyVal.num (round4 (tr / ti)))
      else pure (PyVal.num 0))
    let rp1 ← sales_t.pyGetD "records_processed" (.num 0)
    let rp2 ← traffic_t.pyGetD "records_processed" (.num 0)
    let rp3 ← inv_t.pyGetD "records_processed" (.num 0)
    let s12 ← PyVal.pyAddNum rp1 rp2
    let total_records ← PyVal.pyAddNum (.num s12) rp3
    let topc ← sales_t.pyGetD "top_category" .none
    let cats ← sales_t.pyGetD "total_categories" (.num 0)
    let regs ← sales_t.pyGetD "total_regions" (.num 0)
    let bests ← traffic_t.pyGetD "best_converting_source" .none
    let srcs ← traffic_t.pyGetD "total_sources" (.num 0)
    let pages ← traffic_t.pyGetD "total_pages" (.num 0)
    let skus ← inv_t.pyGetD "total_skus" (.num 0)
    let lows ← inv_t.pyGetD "low_stock_count" (.num 0)
    .ok (.success
      (.dict [("total_revenue", trV), ("total_inventory_quantity", tiV),
              ("total_customers", tcV), ("total_customer_lifetime_value", ltvV),
              ("sales_transactions", srcCount),
              ("inventory_reorder_alerts", raV),
              ("revenue_per_customer", rpc),
              ("inventory_turnover_indicator", turnover),
              ("aggregation_complete", .bool true), ("sources_included", .num 3),
              ("sales_summary", .dict [("top_category", topc),
                ("categories", cats), ("regions", regs)]),
              ("traffic_summary", .dict [("best_source", bests),
                ("sources_analyzed", srcs), ("pages_analyzed", pages)]),
              ("inventory_summary", .dict [("total_skus", skus),
                ("low_stock_alerts", lows)]),
              ("total_records_processed", .num total_records),
              ("data_sources", .list [.str "sales", .str "web_traffic",
                .str "inventory"]),
              ("aggregated_at", .str w.nowIso)])
      .none)

/-- `GenerateInsightsHandler.call` (`handlers/data_pipeline.py`) — the
handler twin of the service-layer `generate_insights`, reading the
aggregate payload dict. -/
def GenerateInsightsHandler.call (w : World) (ctx : StepContext) :
    Except PyExc StepHandlerResult := do
  let metrics := ctx.getDependencyResult "aggregate_metrics"
  if metrics.isNone then
    .ok (.failure ⟨"Missing aggregate_metrics dependency", .handlerError, false,
      Option.none⟩)
  else do
    let revenueV ← metrics.pyGetD "total_revenue" (.num 0)
    let customersV ← metrics.pyGetD "total_customers" (.num 0)
    let rpcV ← metrics.pyGetD "revenue_per_customer" (.num 0)
    let alertsV ← metrics.pyGetD "inventory_reorder_alerts" (.num 0)
    let ltvV ← metrics.pyGetD "total_customer_lifetime_value" (.num 0)
    let sales_summary ← metrics.pyGetD "sales_summary" (.dict [])
    let traffic_summary ← metrics.pyGetD "traffic_summary" (.dict [])
    let inventory_summary ← metrics.pyGetD "inventory_summary" (.dict [])
    let gt0 ← PyVal.pyGt revenueV (.num 0)
    let revenueInsights ← (if gt0 then do
        let lt500 ← PyVal.pyLt rpcV (.num 500)
        pure [PyVal.dict [("category", .str "Revenue"),
          ("finding", .str ("Total revenue of $" ++ pyRender revenueV ++ " with " ++
            pyRender customersV ++ " customers")),
          ("metric", rpcV),
          ("recommendation", .str (if lt500 then "Consider upselling strategies"
            else "Customer spend is healthy"))]]
      else pure ([] : List PyVal))
    let topc ← sales_summary.pyGetD "top_category" .none
    let salesInsights : List PyVal :=
      if topc.truthy then
        [.dict [("category", .str "sales"),
                ("insight", .str ("Top performing category is \x27" ++
                  pyRender topc ++ "\x27")),
                ("priority", .str "info"),
                ("action", .str "Consider increasing marketing spend in this category")]]
      else []
    let bests ← traffic_summary.pyGetD "best_source" .none
    let trafficInsights : List PyVal :=
      if bests.truthy then
        [.dict [("category", .str "marketing"),
                ("insight", .str ("Best converting traffic source is \x27" ++
                  pyRender bests ++ "\x27")),
                ("priority", .str "high"),
                ("action", .str "Increase budget allocation for this channel")]]
      else []
    let trafficAdj : ℤ := if bests.truthy then 5 else 0
    let lowD ← inventory_summary.pyGetD "low_stock_alerts" (.num 0)
    let low_stock := PyVal.pyOr alertsV lowD
    let invOutcome ← (do
      let gt5 ← PyVal.pyGt low_stock (.num 5)
      if gt5 then
        pure (([PyVal.dict [("category", .str "Inventory"),
          ("finding", .str (pyRender low_stock ++ " products need reordering")),
          ("metric", low_stock),
          ("recommendation", .str "Review reorder points and place purchase orders")]] :
            List PyVal), (-15 : ℤ))
      else do
        let gt0i ← PyVal.pyGt low_stock (.num 0)
        if gt0i then
          pure ([PyVal.dict [("category", .str "Inventory"),
            ("finding", .str (pyRender low_stock ++ " SKUs need attention")),
            ("metric", low_stock),
            ("recommendation", .str "Review reorder schedules")]], (-5 : ℤ))
        else
          pure ([PyVal.dict [("category", .str "Inventory"),
            ("finding", .str "All products above reorder points"),
            ("metric", .num 0),
            ("recommendation", .str "Inventory levels are healthy")]], (0 : ℤ)))
    let gtc ← PyVal.pyGt customersV (.num 0)
    let avg_ltv ← (if gtc then do
        let lt ← ltvV.asNumE
        let c ← customersV.asNumE
        pure (lt / c)
      else pure (0 : ℚ))
    let customerInsights : List PyVal :=
      [.dict [("category", .str "Customer Value"),
              ("finding", .str ("Average customer lifetime value: $" ++
                formatFixed2 avg_ltv)),
              ("metric", .num avg_ltv),
              ("recommendation", .str (if 3000 < avg_ltv then
                "Focus on retention programs" else "Increase customer engagement"))]]
    let recV ← metrics.pyGetD "total_records_processed" (.num 0)
    let gt50 ← PyVal.pyGt recV (.num 50)
    let recordsAdj : ℤ := if gt50 then 10 else 0
    let recordsInsights : List PyVal :=
      if gt50 then
        [.dict [("category", .str "data_quality"),
                ("insight", .str ("Strong data coverage: " ++ pyRender recV ++
                  " records analyzed")),
                ("priority", .str "info"),
                ("action", .str "No action needed")]]
      else []
    let insights := revenueInsights ++ salesInsights ++ trafficInsights ++
      invOutcome.1 ++ customerInsights ++ recordsInsights
    let score : ℤ := max 0 (min 100 (75 + trafficAdj + invOutcome.2 + recordsAdj))
    let rating := DataPipeline.ratingOf score
    let metricsLen : ℕ := match metrics with
      | .dict d => d.length
      | _ => 0
    .ok (.success
      (.dict [("insights", .list insights),
              ("health_score", .dict [("score", .num (score : ℚ)),
                ("max_score", .num 100), ("rating", .str rating)]),
              ("total_metrics_analyzed", .num metricsLen),
              ("pipeline_complete", .bool true),
              ("insight_count", .num insights.length),
              ("health_status", .str (rating.toLower.replace " " "_")),
              ("recommendations_count", .num
                (insights.filter DataPipeline.priorityHighOrCritical).length),
              ("generated_at", .str w.nowIso)])
      (.dict [("model_version", .str "insights-v1")]))

end Handlers


/-!
## Shape guards for the handler contexts (amended scope of the
no-uncaught-exception property)
-/

/-- `v` is `None` or a string. -/
def pvNoneOrStr : PyVal → Bool
  | .none => true
  | .str _ => true
  | _ => false

/-- `v` is `None` or numeric (Python bools count as ints). -/
def pvNoneOrNum (v : PyVal) : Bool := v.isNone || (v.asNum?).isSome

/-- `v` is hashable (not a list or dict). -/
def pvHashable : PyVal → Bool
  | .list _ => false
  | .dict _ => false
  | _ => true

/-- `v` is a dict. -/
def pvIsDict : PyVal → Bool
  | .dict _ => true
  | _ => false

/-- `v` is `None` or a dict. -/
def pvNoneOrDict : PyVal → Bool
  | .none => true
  | .dict _ => true
  | _ => false

/-- `v` is a dict carrying `key`. -/
def dictHasKey : PyVal → String → Bool
  | .dict d, key => (PyVal.dictFind d key).isSome
  | _, _ => false

/-- Well-shaped cart item for `ValidateCartHandler`: a dict whose
`quantity` and `unit_price` entries (after the `.get` defaults) are
numeric. -/
def cartItemWF : PyVal → Bool
  | .dict d =>
    (((PyVal.dictFind d "quantity").getD (.num 0)).asNum?).isSome &&
    (((PyVal.dictFind d "unit_price").getD (.num 0)).asNum?).isSome
  | _ => false

/-- Well-shaped validated item for `UpdateInventoryHandler`: a dict whose
`quantity` entry exists and is numeric. -/
def invItemWF : PyVal → Bool
  | .dict d =>
    match PyVal.dictFind d "quantity" with
    | some q => (q.asNum?).isSome
    | Option.none => false
  | _ => false

/-- Per-handler context well-formedness: the payload shapes under which
each handler is claimed to convert every error into a structured failure
result instead of raising.  Each case names exactly the values the
handler subscripts, iterates, slices or formats. -/
def ctxWF : RepoHandler → StepContext → Bool
  | .validateCart, ctx =>
    (match PyVal.pyOr (ctx.getInput "items") (ctx.getInput "cart_items") with
     | .list items => items.all cartItemWF
     | _ => true)
  | .processPayment, ctx =>
    pvNoneOrStr (ctx.getInput "payment_token") &&
    pvNoneOrDict (ctx.getDependencyResult "validate_cart")
  | .updateInventory, ctx =>
    (match ctx.getDependencyResult "validate_cart" with
     | .none => true
     | .dict d =>
       (match (PyVal.dictFind d "validated_items").getD (.list []) with
        | .list items => items.all invItemWF
        | _ => false)
     | _ => false)
  | .createOrder, ctx =>
    (! ((ctx.getDependencyResult "validate_cart").truthy &&
        (ctx.getDependencyResult "process_payment").truthy &&
        (ctx.getDependencyResult "update_inventory").truthy)) ||
    (dictHasKey (ctx.getDependencyResult "validate_cart") "total" &&
     dictHasKey (ctx.getDependencyResult "validate_cart") "validated_items" &&
     dictHasKey (ctx.getDependencyResult "validate_cart") "item_count" &&
     dictHasKey (ctx.getDependencyResult "validate_cart") "subtotal" &&
     dictHasKey (ctx.getDependencyResult "validate_cart") "tax" &&
     dictHasKey (ctx.getDependencyResult "validate_cart") "shipping" &&
     dictHasKey (ctx.getDependencyResult "process_payment") "transaction_id" &&
     pvIsDict (ctx.getDependencyResult "update_inventory"))
  | .sendConfirmation, ctx =>
    (match ctx.getDependencyResult "create_order" with
     | .none => true
     | .dict d => (((PyVal.dictFind d "total").getD (.num 0)).asNum?).isSome
     | _ => false)
  | .validateRefundRequest, ctx =>
    pvNoneOrNum (ctx.getInput "refund_amount") &&
    pvNoneOrStr (ctx.getInput "customer_id") &&
    pvHashable (ctx.getInput "refund_reason")
  | .validatePaymentEligibility, ctx =>
    pvNoneOrNum (ctx.getInput "refund_amount") &&
    pvNoneOrNum (ctx.getInput "amount")
  | .createUserAccount, ctx =>
    (match ctx.getInput "user_info" with
     | .dict d =>
       pvNoneOrStr ((PyVal.dictFind d "email").getD .none) &&
       pvNoneOrStr ((PyVal.dictFind d "name").getD .none) &&
       pvNoneOrStr ((PyVal.dictFind d "user_id").getD .none)
     | v => ! v.truthy)



/-- Total read of `v.get(key, default)` for use inside shape predicates
(the raising embedding is `PyVal.pyGetD`). -/
def pyGetRaw (v : PyVal) (key : String) (default : PyVal) : PyVal :=
  match v with
  | .dict d => (PyVal.dictFind d key).getD default
  | _ => default

/-- `v` is falsy (guard-rejected) or a dict — the shape under which
`not v or v.get(...)` guards cannot raise. -/
def pvFalsyOrDict (v : PyVal) : Bool := !v.truthy || pvIsDict v

/-- `v` is numeric (Python bools included). -/
def pvNum (v : PyVal) : Bool := (v.asNum?).isSome

/-- The dict carries `k` with a string value. -/
def keyStr (d : List (String × PyVal)) (k : String) : Bool :=
  match PyVal.dictFind d k with
  | some (.str _) => true
  | _ => false

/-- The dict carries `k` with a numeric value. -/
def keyNum (d : List (String × PyVal)) (k : String) : Bool :=
  match PyVal.dictFind d k with
  | some v => pvNum v
  | _ => false

/-- Well-shaped sales record for `TransformSalesDataHandler`: the
subscripted keys exist, grouping keys are strings, summed fields are
numeric. -/
def salesRecWF : PyVal → Bool
  | .dict d =>
    keyStr d "category" && keyStr d "region" && keyNum d "revenue" &&
    keyNum d "quantity"
  | _ => false

/-- Well-shaped record for `TransformWebTrafficHandler`. -/
def trafficRecWF : PyVal → Bool
  | .dict d =>
    keyStr d "traffic_source" && keyStr d "landing_page" && keyNum d "sessions" &&
    keyNum d "conversions" && keyNum d "bounce_rate" && keyNum d "page_views"
  | _ => false

/-- Well-shaped record for `TransformInventoryHandler`. -/
def invRecWF : PyVal → Bool
  | .dict d =>
    keyStr d "warehouse" && keyStr d "category" && keyNum d "current_stock" &&
    keyNum d "inventory_value" && (PyVal.dictFind d "status").isSome &&
    (PyVal.dictFind d "sku").isSome && (PyVal.dictFind d "reorder_point").isSome
  | _ => false

/-- The remaining nineteen step handler classes of the repository (the
eight of `RepoHandler` plus these are all 27 `StepHandler` subclasses
under `app/handlers/`). -/
inductive AuxHandler where
  | checkRefundPolicy
  | approveRefund
  | executeRefund
  | updateTicket
  | processGateway
  | updateRecords
  | notifyCustomer
  | setupBillingProfile
  | initializePreferences
  | sendWelcomeSequence
  | updateUserStatus
  | extractSalesData
  | extractWebTraffic
  | extractInventory
  | transformSalesData
  | transformWebTraffic
  | transformInventory
  | aggregateMetrics
  | generateInsights

/-- Dispatch to the embedded `call` methods. -/
def AuxHandler.call : AuxHandler → Algo → World → StepContext →
    Except PyExc StepHandlerResult
  | .checkRefundPolicy => fun _ w ctx => Handlers.CheckRefundPolicyHandler.call w ctx
  | .approveRefund => Handlers.ApproveRefundHandler.call
  | .executeRefund => fun _ w ctx => Handlers.ExecuteRefundHandler.call w ctx
  | .updateTicket => fun _ w ctx => Handlers.UpdateTicketHandler.call w ctx
  | .processGateway => Handlers.ProcessGatewayHandler.call
  | .updateRecords => fun _ w ctx => Handlers.UpdateRecordsHandler.call w ctx
  | .notifyCustomer => fun _ w ctx => Handlers.NotifyCustomerHandler.call w ctx
  | .setupBillingProfile => fun _ w ctx => Handlers.SetupBillingProfileHandler.call w ctx
  | .initializePreferences =>
    fun _ w ctx => Handlers.InitializePreferencesHandler.call w ctx
  | .sendWelcomeSequence => fun _ w ctx => Handlers.SendWelcomeSequenceHandler.call w ctx
  | .updateUserStatus => fun _ w ctx => Handlers.UpdateUserStatusHandler.call w ctx
  | .extractSalesData => Handlers.ExtractSalesDataHandler.call
  | .extractWebTraffic => Handlers.ExtractWebTrafficHandler.call
  | .extractInventory => Handlers.ExtractInventoryHandler.call
  | .transformSalesData => fun _ w ctx => Handlers.TransformSalesDataHandler.call w ctx
  | .transformWebTraffic => fun _ w ctx => Handlers.TransformWebTrafficHandler.call w ctx
  | .transformInventory => fun _ w ctx => Handlers.TransformInventoryHandler.call w ctx
  | .aggregateMetrics => fun _ w ctx => Handlers.AggregateMetricsHandler.call w ctx
  | .generateInsights => fun _ w ctx => Handlers.GenerateInsightsHandler.call w ctx

/-- Context well-formedness for the nineteen handlers above: the values
each handler subscripts, iterates, hashes, formats or unpacks carry the
expected shapes. -/
def ctxWFAux : AuxHandler → StepContext → Bool
  | .checkRefundPolicy, ctx =>
    pvNoneOrDict (ctx.getDependencyResult "validate_refund_request") &&
    (match ctx.getDependencyResult "validate_refund_request" with
     | .dict d =>
       pvNum (PyVal.pyOr (ctx.getInput "refund_amount")
         ((PyVal.dictFind d "amount").getD (.num 0))) &&
       pvHashable ((PyVal.dictFind d "reason").getD (.str "customer_request"))
     | _ => true) &&
    pvNoneOrStr (ctx.getDependencyField "validate_refund_request"
      "original_purchase_date")
  | .approveRefund, ctx =>
    pvFalsyOrDict (ctx.getDependencyResult "check_refund_policy") &&
    pvFalsyOrDict (ctx.getDependencyResult "validate_refund_request") &&
    pvNum (PyVal.pyOr (ctx.getInput "refund_amount")
      (pyGetRaw (PyVal.pyOr (ctx.getDependencyResult "validate_refund_request")
        (.dict [])) "amount" (.num 0))) &&
    pvHashable (PyVal.pyOr
      (ctx.getDependencyField "validate_refund_request" "ticket_id") (.str ""))
  | .executeRefund, ctx =>
    pvFalsyOrDict (ctx.getDependencyResult "get_manager_approval") &&
    pvFalsyOrDict (ctx.getDependencyResult "validate_refund_request")
  | .updateTicket, ctx =>
    pvFalsyOrDict (ctx.getDependencyResult "execute_refund_workflow") &&
    pvFalsyOrDict (ctx.getDependencyResult "validate_refund_request") &&
    pvNum (PyVal.pyOr (ctx.getInput "refund_amount")
      (pyGetRaw (ctx.getDependencyResult "execute_refund_workflow")
        "amount_refunded" (.num 0)))
  | .processGateway, ctx =>
    pvNoneOrDict (ctx.getDependencyResult "validate_payment_eligibility")
  | .updateRecords, ctx =>
    pvFalsyOrDict (ctx.getDependencyResult "process_gateway_refund") &&
    pvFalsyOrDict (ctx.getDependencyResult "validate_payment_eligibility")
  | .notifyCustomer, ctx =>
    pvFalsyOrDict (ctx.getDependencyResult "process_gateway_refund") &&
    pvFalsyOrDict (ctx.getDependencyResult "validate_payment_eligibility") &&
    pvFalsyOrDict (ctx.getDependencyResult "update_payment_records") &&
    pvNum (PyVal.pyOr
      (ctx.getDependencyField "process_gateway_refund" "refund_amount")
      (pyGetRaw (ctx.getDependencyResult "process_gateway_refund")
        "amount_processed" (.num 0)))
  | .setupBillingProfile, ctx =>
    pvNoneOrDict (ctx.getDependencyResult "create_user_account") &&
    pvHashable (PyVal.pyOr (ctx.getDependencyField "create_user_account" "plan")
      (.str "starter"))
  | .initializePreferences, ctx =>
    pvNoneOrDict (ctx.getDependencyResult "create_user_account") &&
    pvFalsyOrDict (ctx.getInput "user_info") &&
    pvIsDict (pyGetRaw (PyVal.pyOr (ctx.getInput "user_info") (.dict []))
      "preferences" (.dict []))
  | .sendWelcomeSequence, ctx =>
    pvFalsyOrDict (ctx.getDependencyResult "create_user_account") &&
    pvFalsyOrDict (ctx.getDependencyResult "setup_billing_profile") &&
    pvFalsyOrDict (ctx.getDependencyResult "initialize_preferences") &&
    pvIsDict (pyGetRaw (ctx.getDependencyResult "initialize_preferences")
      "preferences" (.dict []))
  | .updateUserStatus, ctx =>
    pvFalsyOrDict (ctx.getDependencyResult "create_user_account") &&
    pvFalsyOrDict (ctx.getDependencyResult "setup_billing_profile") &&
    pvFalsyOrDict (ctx.getDependencyResult "initialize_preferences") &&
    pvFalsyOrDict (ctx.getDependencyResult "send_welcome_sequence")
  | .extractSalesData, _ => true
  | .extractWebTraffic, _ => true
  | .extractInventory, _ => true
  | .transformSalesData, ctx =>
    pvNoneOrDict (ctx.getDependencyResult "extract_sales_data") &&
    (match ctx.getDependencyResult "extract_sales_data" with
     | .dict d =>
       (match (PyVal.dictFind d "records").getD (.list []) with
        | .list items => items.all salesRecWF
        | _ => false)
     | _ => true)
  | .transformWebTraffic, ctx =>
    pvNoneOrDict (ctx.getDependencyResult "extract_inventory_data") &&
    (match ctx.getDependencyResult "extract_inventory_data" with
     | .dict d =>
       (match (PyVal.dictFind d "records").getD (.list []) with
        | .list items => items.all trafficRecWF
        | _ => false)
     | _ => true)
  | .transformInventory, ctx =>
    pvNoneOrDict (ctx.getDependencyResult "extract_customer_data") &&
    (match ctx.getDependencyResult "extract_customer_data" with
     | .dict d =>
       (match (PyVal.dictFind d "records").getD (.list []) with
        | .list items => items.all invRecWF
        | _ => false)
     | _ => true)
  | .aggregateMetrics, ctx =>
    pvFalsyOrDict (ctx.getDependencyResult "transform_sales") &&
    pvFalsyOrDict (ctx.getDependencyResult "transform_inventory") &&
    pvFalsyOrDict (ctx.getDependencyResult "transform_customers") &&
    pvNum (pyGetRaw (ctx.getDependencyResult "transform_sales")
      "total_revenue" (.num 0)) &&
    pvNum (pyGetRaw (ctx.getDependencyResult "transform_inventory")
      "total_quantity_on_hand" (.num 0)) &&
    pvNum (pyGetRaw (ctx.getDependencyResult "transform_customers")
      "record_count" (.num 0)) &&
    pvNum (pyGetRaw (ctx.getDependencyResult "transform_sales")
      "records_processed" (.num 0)) &&
    pvNum (pyGetRaw (ctx.getDependencyResult "transform_inventory")
      "records_processed" (.num 0)) &&
    pvNum (pyGetRaw (ctx.getDependencyResult "transform_customers")
      "records_processed" (.num 0))
  | .generateInsights, ctx =>
    pvNoneOrDict (ctx.getDependencyResult "aggregate_metrics") &&
    pvNum (pyGetRaw (ctx.getDependencyResult "aggregate_metrics")
      "total_revenue" (.num 0)) &&
    pvNum (pyGetRaw (ctx.getDependencyResult "aggregate_metrics")
      "revenue_per_customer" (.num 0)) &&
    pvNum (pyGetRaw (ctx.getDependencyResult "aggregate_metrics")
      "total_customers" (.num 0)) &&
    pvNum (pyGetRaw (ctx.getDependencyResult "aggregate_metrics")
      "total_customer_lifetime_value" (.num 0)) &&
    pvNum (pyGetRaw (ctx.getDependencyResult "aggregate_metrics")
      "total_records_processed" (.num 0)) &&
    pvIsDict (pyGetRaw (ctx.getDependencyResult "aggregate_metrics")
      "sales_summary" (.dict [])) &&
    pvIsDict (pyGetRaw (ctx.getDependencyResult "aggregate_metrics")
      "traffic_summary" (.dict [])) &&
    pvIsDict (pyGetRaw (ctx.getDependencyResult "aggregate_metrics")
      "inventory_summary" (.dict [])) &&
    pvNum (PyVal.pyOr
      (pyGetRaw (ctx.getDependencyResult "aggregate_metrics")
        "inventory_reorder_alerts" (.num 0))
      (pyGetRaw (pyGetRaw (ctx.getDependencyResult "aggregate_metrics")
        "inventory_summary" (.dict [])) "low_stock_alerts" (.num 0)))

/-- Every step handler class of the repository: the eight of
`RepoHandler` together with the nineteen of `AuxHandler` are all 27
`StepHandler` subclasses under `app/handlers/`. -/
inductive AnyHandler where
  | base (h : RepoHandler)
  | extra (h : AuxHandler)

/-- Dispatch over all 27 handlers. -/
def AnyHandler.call : AnyHandler → Algo → World → StepContext →
    Except PyExc StepHandlerResult
  | .base h => h.call
  | .extra h => h.call

/-- Context well-formedness over all 27 handlers. -/
def ctxWFAll : AnyHandler → StepContext → Bool
  | .base h, ctx => ctxWF h ctx
  | .extra h, ctx => ctxWFAux h ctx


-- ===== THEOREMS =====

/-- Reduction of a successful `Except` bind. -/
theorem exceptBindOk (a : α) (f : α → Except ε β) : (Except.ok a >>= f) = f a := rfl

/-- Reduction of a failing `Except` bind. -/
theorem exceptBindError (e : ε) (f : α → Except ε β) :
    ((Except.error e : Except ε α) >>= f) = Except.error e := rfl

/-- Inversion of a successful `Except` bind. -/
theorem exceptBindEqOk {x : Except ε α} {f : α → Except ε β} {b : β}
    (h : (x >>= f) = .ok b) : ∃ a, x = .ok a ∧ f a = .ok b := by
  cases x with
  | ok a => exact ⟨a, rfl, h⟩
  | error e => exact absurd h (by simp [Bind.bind, Except.bind])

namespace Ecommerce

/-- If every cart item is well-formed, the validation loop succeeds,
produces one validated dict per item, and every produced dict has a
numeric `"quantity"` entry. -/
theorem validateItemsLoop_ok_of_itemOk :
    ∀ (items : List Dict) (idx : ℕ), (∀ it ∈ items, ItemOk it) →
      ∃ vs st, validateItemsLoop items idx = .ok (vs, st) ∧
        vs.length = items.length ∧ ∀ v ∈ vs, GoodVItem v
  | [], _, _ => ⟨[], 0, rfl, rfl, by simp⟩
  | item :: rest, idx, h => by
    obtain ⟨hsku, hname, ⟨q, hq, hq1⟩, ⟨p, hp, hp0⟩⟩ := h item (List.mem_cons_self _ _)
    obtain ⟨vs, st, hloop, hlen, hgood⟩ :=
      validateItemsLoop_ok_of_itemOk rest (idx + 1)
        (fun it hit => h it (List.mem_cons_of_mem _ hit))
    unfold validateItemsLoop
    rw [hq, hp]
    simp only [Option.getD_some]
    rw [if_neg (by simp [hsku, hname])]
    simp only [PyVal.pyLt, PyVal.pyLe, PyVal.pyMul, PyVal.asNum?, liftE, exceptBindOk]
    rw [if_neg (by simpa using not_lt.2 hq1), if_neg (by simpa using not_le.2 hp0), hloop]
    simp only [exceptBindOk]
    refine ⟨_, _, rfl, by simp [hlen], ?_⟩
    intro v hv
    rcases List.mem_cons.1 hv with hv | hv
    · exact ⟨_, q, hv, rfl⟩
    · exact hgood v hv

/-- If every validated item is a dict with a numeric `"quantity"`, the
inventory-reservation loop succeeds. -/
theorem updateInventoryLoop_ok_of_good (w : World) :
    ∀ (items : List PyVal) (i : ℕ), (∀ v ∈ items, GoodVItem v) →
      ∃ ups chgs tot, updateInventoryLoop w items i = .ok (ups, chgs, tot)
  | [], _, _ => ⟨[], [], 0, rfl⟩
  | item :: rest, i, h => by
    obtain ⟨entries, q, hitem, hq⟩ := h item (List.mem_cons_self _ _)
    obtain ⟨ups, chgs, tot, hloop⟩ :=
      updateInventoryLoop_ok_of_good w rest (i + 1)
        (fun v hv => h v (List.mem_cons_of_mem _ hv))
    subst hitem
    unfold updateInventoryLoop
    simp only [PyVal.pySubscript, hq, PyVal.pyGetD, PyVal.pyAddNum, PyVal.pyNeg,
      PyVal.asNum?, liftE, exceptBindOk, hloop]
    exact ⟨_, _, _, rfl⟩


/-- Success of `process_payment` once the resolved token avoids both
special token sets. -/
theorem process_payment_ok_of_goodToken (total : ℚ) (algo : Algo) (w : World)
    (tok : String) (h1 : tok ∉ DECLINED_TOKENS) (h2 : tok ∉ ERROR_TOKENS)
    (pt : Option String) (hpt : resolveToken pt = tok) :
    ∃ r, process_payment pt total algo w = .ok r ∧
      r.amount_charged = total ∧ r.status = "completed" := by
  unfold process_payment
  rw [hpt, if_neg h1, if_neg h2]
  exact ⟨_, rfl, rfl, rfl⟩

/-- C4: `process_payment` fails permanently exactly on the declined test
tokens, retryably exactly on the gateway-error test tokens, and succeeds
(charging the given total, status `"completed"`) on every other token,
a missing token defaulting to `tok_test_success`. -/
theorem process_payment_token_classes
    (payment_token : Option String) (total : ℚ) (algo : Algo) (w : World) :
    ((payment_token = some "tok_test_declined" ∨
        payment_token = some "tok_test_insufficient_funds") ↔
      ∃ msg, process_payment payment_token total algo w =
        .error (.tasker (.permanentError msg))) ∧
    ((payment_token = some "tok_test_gateway_error" ∨
        payment_token = some "tok_test_timeout") ↔
      ∃ msg, process_payment payment_token total algo w =
        .error (.tasker (.retryableError msg))) ∧
    ((payment_token ≠ some "tok_test_declined" ∧
      payment_token ≠ some "tok_test_insufficient_funds" ∧
      payment_token ≠ some "tok_test_gateway_error" ∧
      payment_token ≠ some "tok_test_timeout") →
      ∃ r, process_payment payment_token total algo w = .ok r ∧
        r.amount_charged = total ∧ r.status = "completed") := by
  rcases payment_token with _ | s
  · obtain ⟨r, hr, hamt, hst⟩ := process_payment_ok_of_goodToken total algo w
      "tok_test_success" (by decide) (by decide) Option.none rfl
    exact ⟨by simp [hr], by simp [hr], fun _ => ⟨r, hr, hamt, hst⟩⟩
  · by_cases h0 : s = ""
    · subst h0
      obtain ⟨r, hr, hamt, hst⟩ := process_payment_ok_of_goodToken total algo w
        "tok_test_success" (by decide) (by decide) (some "") rfl
      exact ⟨by simp [hr], by simp [hr], fun _ => ⟨r, hr, hamt, hst⟩⟩
    · by_cases h1 : s = "tok_test_declined"
      · subst h1
        have hr : process_payment (some "tok_test_declined") total algo w =
            .error (.tasker (.permanentError
              "Payment declined for token tok_test_declined")) := rfl
        refine ⟨⟨fun _ => ⟨_, hr⟩, fun _ => Or.inl rfl⟩, by simp [hr], ?_⟩
        rintro ⟨hc, -⟩
        exact absurd rfl hc
      · by_cases h2 : s = "tok_test_insufficient_funds"
        · subst h2
          have hr : process_payment (some "tok_test_insufficient_funds") total algo w =
              .error (.tasker (.permanentError
                "Payment declined for token tok_test_insufficient_funds")) := rfl
          refine ⟨⟨fun _ => ⟨_, hr⟩, fun _ => Or.inr rfl⟩, by simp [hr], ?_⟩
          rintro ⟨-, hc, -⟩
          exact absurd rfl hc
        · by_cases h3 : s = "tok_test_gateway_error"
          · subst h3
            have hr : process_payment (some "tok_test_gateway_error") total algo w =
                .error (.tasker (.retryableError
                  "Payment gateway returned an error, will retry")) := rfl
            refine ⟨by simp [hr], ⟨fun _ => ⟨_, hr⟩, fun _ => Or.inl rfl⟩, ?_⟩
            rintro ⟨-, -, hc, -⟩
            exact absurd rfl hc
          · by_cases h4 : s = "tok_test_timeout"
            · subst h4
              have hr : process_payment (some "tok_test_timeout") total algo w =
                  .error (.tasker (.retryableError
                    "Payment gateway returned an error, will retry")) := rfl
              refine ⟨by simp [hr], ⟨fun _ => ⟨_, hr⟩, fun _ => Or.inr rfl⟩, ?_⟩
              rintro ⟨-, -, -, hc⟩
              exact absurd rfl hc
            · have hd : s ∉ DECLINED_TOKENS := by
                simp [DECLINED_TOKENS, h1, h2]
              have he : s ∉ ERROR_TOKENS := by
                simp [ERROR_TOKENS, h3, h4]
              have hpt : resolveToken (some s) = s := by
                simp [resolveToken, pyStrOr, h0]
              obtain ⟨r, hr, hamt, hst⟩ :=
                process_payment_ok_of_goodToken total algo w s hd he (some s) hpt
              exact ⟨by simp [hr, h1, h2], by simp [hr, h3, h4],
                fun _ => ⟨r, hr, hamt, hst⟩⟩

/-- Witness for C4 at concrete inputs: a declined token fails permanently
and a missing token succeeds. -/
theorem process_payment_token_classes_witness :
    (∃ msg, process_payment (some "tok_test_declined") 5 algo0 world0 =
      .error (.tasker (.permanentError msg))) ∧
    (∃ r, process_payment Option.none 5 algo0 world0 = .ok r ∧
      r.amount_charged = 5 ∧ r.status = "completed") :=
  ⟨(process_payment_token_classes (some "tok_test_declined") 5 algo0 world0).1.1
      (Or.inl rfl),
   (process_payment_token_classes Option.none 5 algo0 world0).2.2
      (by refine ⟨?_, ?_, ?_, ?_⟩ <;> simp)⟩

/-- C5: on a non-empty cart of well-formed items and a token outside the
declined/error sets, the 5-step sequential composition succeeds end to
end; the cart totals satisfy the tax/shipping/total formulas, the order
carries the cart total with status `"confirmed"`, and the confirmation
reports `email_sent = true`. -/
theorem checkoutPipeline_happy
    (items : List Dict) (payment_token : Option String)
    (customer_email : Option String) (algo : Algo) (w1 w2 w3 w4 w5 : World)
    (hne : items ≠ [])
    (hok : ∀ it ∈ items, ItemOk it)
    (htok : ∀ s, payment_token = some s → s ∉ DECLINED_TOKENS ∧ s ∉ ERROR_TOKENS) :
    ∃ cart payment inventory order confirmation,
      checkoutPipeline (some items) payment_token customer_email algo w1 w2 w3 w4 w5 =
        .ok (cart, payment, inventory, order, confirmation) ∧
      cart.item_count = items.length ∧
      cart.tax = round2 (cart.subtotal * (8 / 100)) ∧
      cart.shipping = (if 100 ≤ cart.subtotal then 0 else 999 / 100) ∧
      cart.total = round2 (cart.subtotal + cart.tax + cart.shipping) ∧
      order.total = cart.total ∧
      order.status = "confirmed" ∧
      confirmation.email_sent = true := by
  obtain ⟨i0, rest, rfl⟩ : ∃ i0 rest, items = i0 :: rest := by
    cases items with
    | nil => exact absurd rfl hne
    | cons a l => exact ⟨a, l, rfl⟩
  obtain ⟨vs, st, hloop, hlen, hgood⟩ := validateItemsLoop_ok_of_itemOk (i0 :: rest) 0 hok
  obtain ⟨cart, hcart, hcount, htax, hship, htot, hvitems⟩ :
      ∃ c, validate_cart_items (some (i0 :: rest)) w1 = .ok c ∧
        c.item_count = (i0 :: rest).length ∧
        c.tax = round2 (c.subtotal * (8 / 100)) ∧
        c.shipping = (if 100 ≤ c.subtotal then 0 else 999 / 100) ∧
        c.total = round2 (c.subtotal + c.tax + c.shipping) ∧
        ∀ v ∈ c.validated_items, GoodVItem v := by
    simp only [validate_cart_items]
    rw [hloop]
    refine ⟨_, rfl, ?_, rfl, rfl, rfl, ?_⟩
    · exact hlen
    · exact hgood
  have htok2 : resolveToken payment_token ∉ DECLINED_TOKENS ∧
      resolveToken payment_token ∉ ERROR_TOKENS := by
    rcases payment_token with _ | s
    · exact ⟨by decide, by decide⟩
    · rcases htok s rfl with ⟨ha, hb⟩
      simp only [resolveToken, pyStrOr]
      by_cases hs : s = ""
      · rw [if_pos hs]
        exact ⟨by decide, by decide⟩
      · rw [if_neg hs]
        exact ⟨ha, hb⟩
  obtain ⟨payment, hpay, hamt, hpst⟩ :=
    process_payment_ok_of_goodToken cart.total algo w2 (resolveToken payment_token)
      htok2.1 htok2.2 payment_token rfl
  obtain ⟨ups, chgs, tot, hinvloop⟩ :=
    updateInventoryLoop_ok_of_good w3 cart.validated_items 0 hvitems
  obtain ⟨inventory, hinv⟩ :
      ∃ i, update_inventory cart.validated_items w3 = .ok i := by
    unfold update_inventory
    rw [hinvloop]
    exact ⟨_, rfl⟩
  refine ⟨cart, payment, inventory,
    create_order cart payment inventory customer_email w4,
    send_confirmation (create_order cart payment inventory customer_email w4)
      customer_email w5,
    ?_, hcount, htax, hship, htot, rfl, rfl, rfl⟩
  unfold checkoutPipeline
  rw [hcart]
  simp only [exceptBindOk]
  rw [hpay]
  simp only [exceptBindOk]
  rw [hinv]
  rfl

/-- Witness for C5: a concrete single-item cart with no token runs the
whole pipeline successfully. -/
theorem checkoutPipeline_happy_witness :
    ∃ cart payment inventory order confirmation,
      checkoutPipeline
        (some [[("sku", PyVal.str "SKU-1"), ("name", PyVal.str "Widget"),
                ("quantity", PyVal.num 2), ("unit_price", PyVal.num (21 / 2))]])
        Option.none (some "shopper@example.com") algo0 world0 world0 world0 world0 world0 =
        .ok (cart, payment, inventory, order, confirmation) ∧
      cart.item_count = 1 ∧
      cart.tax = round2 (cart.subtotal * (8 / 100)) ∧
      cart.shipping = (if 100 ≤ cart.subtotal then 0 else 999 / 100) ∧
      cart.total = round2 (cart.subtotal + cart.tax + cart.shipping) ∧
      order.total = cart.total ∧
      order.status = "confirmed" ∧
      confirmation.email_sent = true :=
  checkoutPipeline_happy
    [[("sku", PyVal.str "SKU-1"), ("name", PyVal.str "Widget"),
      ("quantity", PyVal.num 2), ("unit_price", PyVal.num (21 / 2))]]
    Option.none (some "shopper@example.com") algo0 world0 world0 world0 world0 world0
    (by simp)
    (by
      intro it hit
      rw [List.mem_singleton] at hit
      subst hit
      exact ⟨rfl, rfl, ⟨2, rfl, by norm_num⟩, ⟨21 / 2, rfl, by norm_num⟩⟩)
    (fun s h => nomatch h)


end Ecommerce



namespace Handlers

/-- Failure results of the cart-validation loop are always
`VALIDATION_ERROR` with `retryable=False`. -/
theorem ValidateCartHandler.loop_failure :
    ∀ (items : List PyVal) (idx : ℕ) (info : FailureInfo),
      ValidateCartHandler.loop items idx = .ok (.inl (.failure info)) →
      info.error_type = .validationError ∧ info.retryable = false
  | [], idx, info => by
    intro hinfo
    exact absurd hinfo (by simp [ValidateCartHandler.loop])
  | item :: rest, idx, info => by
    intro hinfo
    unfold ValidateCartHandler.loop at hinfo
    simp only [Bind.bind] at hinfo
    obtain ⟨sku, hsku, hinfo⟩ := exceptBindEqOk hinfo
    obtain ⟨name, hname, hinfo⟩ := exceptBindEqOk hinfo
    obtain ⟨quantity, hq, hinfo⟩ := exceptBindEqOk hinfo
    obtain ⟨unit_price, hu, hinfo⟩ := exceptBindEqOk hinfo
    split_ifs at hinfo with h1
    · simp only [Except.ok.injEq, Sum.inl.injEq, StepHandlerResult.failure.injEq] at hinfo
      subst hinfo
      exact ⟨rfl, rfl⟩
    · obtain ⟨qlt, hqlt, hinfo⟩ := exceptBindEqOk hinfo
      split_ifs at hinfo with h2
      · simp only [Except.ok.injEq, Sum.inl.injEq, StepHandlerResult.failure.injEq] at hinfo
        subst hinfo
        exact ⟨rfl, rfl⟩
      · obtain ⟨ple, hple, hinfo⟩ := exceptBindEqOk hinfo
        split_ifs at hinfo with h3
        · simp only [Except.ok.injEq, Sum.inl.injEq, StepHandlerResult.failure.injEq] at hinfo
          subst hinfo
          exact ⟨rfl, rfl⟩
        · obtain ⟨prodQ, hprod, hinfo⟩ := exceptBindEqOk hinfo
          obtain ⟨res, hres, hinfo⟩ := exceptBindEqOk hinfo
          rcases res with r | ⟨vs, stq⟩
          · simp only [Except.ok.injEq, Sum.inl.injEq] at hinfo
            subst hinfo
            exact ValidateCartHandler.loop_failure rest (idx + 1) info hres
          · simp at hinfo

/-- C1 invariant for `ValidateCartHandler.call`. -/
theorem validateCart_failureInvariant (w : World) (ctx : StepContext) :
    failureInvariant (ValidateCartHandler.call w ctx) := by
  intro info hinfo htype
  unfold ValidateCartHandler.call at hinfo
  split at hinfo
  · simp only [Bind.bind] at hinfo
    obtain ⟨res, hres, hinfo⟩ := exceptBindEqOk hinfo
    rcases res with r | ⟨vs, stq⟩
    · simp only [Except.ok.injEq] at hinfo
      subst hinfo
      exact (ValidateCartHandler.loop_failure _ 0 info hres).2
    · simp at hinfo
  · simp only [Except.ok.injEq, StepHandlerResult.failure.injEq] at hinfo
    subst hinfo
    rfl

/-- C1 invariant for `ProcessPaymentHandler.call`. -/
theorem processPayment_failureInvariant (algo : Algo) (w : World)
    (ctx : StepContext) : failureInvariant (ProcessPaymentHandler.call algo w ctx) := by
  intro info hinfo htype
  unfold ProcessPaymentHandler.call at hinfo
  simp only [Bind.bind] at hinfo
  unfold Except.bind at hinfo
  try split_ifs at hinfo
  iterate 3 (iterate 12 (all_goals (try split at hinfo)); all_goals (try (simp only [ite_eq_iff] at hinfo)); iterate 6 ((all_goals (try (rcases hinfo with hinfo | hinfo))); (all_goals (try (obtain ⟨-, hinfo⟩ := hinfo)))))
  all_goals (try (simp only [Except.ok.injEq, Sum.inl.injEq, StepHandlerResult.failure.injEq] at hinfo))
  all_goals (try subst hinfo)
  all_goals simp_all

/-- C1 invariant for `UpdateInventoryHandler.call`. -/
theorem updateInventory_failureInvariant (w : World) (ctx : StepContext) :
    failureInvariant (UpdateInventoryHandler.call w ctx) := by
  intro info hinfo htype
  unfold UpdateInventoryHandler.call at hinfo
  simp only [Bind.bind] at hinfo
  unfold Except.bind at hinfo
  try split_ifs at hinfo
  iterate 3 (iterate 12 (all_goals (try split at hinfo)); all_goals (try (simp only [ite_eq_iff] at hinfo)); iterate 6 ((all_goals (try (rcases hinfo with hinfo | hinfo))); (all_goals (try (obtain ⟨-, hinfo⟩ := hinfo)))))
  all_goals (try (simp only [Except.ok.injEq, Sum.inl.injEq, StepHandlerResult.failure.injEq] at hinfo))
  all_goals (try subst hinfo)
  all_goals simp_all

/-- C1 invariant for `CreateOrderHandler.call`. -/
theorem createOrder_failureInvariant (w : World) (ctx : StepContext) :
    failureInvariant (CreateOrderHandler.call w ctx) := by
  intro info hinfo htype
  unfold CreateOrderHandler.call at hinfo
  simp only [Bind.bind] at hinfo
  unfold Except.bind at hinfo
  try split_ifs at hinfo
  iterate 3 (iterate 12 (all_goals (try split at hinfo)); all_goals (try (simp only [ite_eq_iff] at hinfo)); iterate 6 ((all_goals (try (rcases hinfo with hinfo | hinfo))); (all_goals (try (obtain ⟨-, hinfo⟩ := hinfo)))))
  all_goals (try (simp only [Except.ok.injEq, Sum.inl.injEq, StepHandlerResult.failure.injEq] at hinfo))
  all_goals (try subst hinfo)
  all_goals simp_all

/-- C1 invariant for `SendConfirmationHandler.call`. -/
theorem sendConfirmation_failureInvariant (w : World) (ctx : StepContext) :
    failureInvariant (SendConfirmationHandler.call w ctx) := by
  intro info hinfo htype
  unfold SendConfirmationHandler.call at hinfo
  simp only [Bind.bind] at hinfo
  unfold Except.bind at hinfo
  try split_ifs at hinfo
  iterate 3 (iterate 12 (all_goals (try split at hinfo)); all_goals (try (simp only [ite_eq_iff] at hinfo)); iterate 6 ((all_goals (try (rcases hinfo with hinfo | hinfo))); (all_goals (try (obtain ⟨-, hinfo⟩ := hinfo)))))
  all_goals (try (simp only [Except.ok.injEq, Sum.inl.injEq, StepHandlerResult.failure.injEq] at hinfo))
  all_goals (try subst hinfo)
  all_goals simp_all

/-- C1 invariant for `ValidateRefundRequestHandler.call`. -/
theorem validateRefundRequest_failureInvariant (algo : Algo) (w : World)
    (ctx : StepContext) :
    failureInvariant (ValidateRefundRequestHandler.call algo w ctx) := by
  intro info hinfo htype
  unfold ValidateRefundRequestHandler.call ValidateRefundRequestHandler.finish at hinfo
  simp only [Bind.bind] at hinfo
  unfold Except.bind at hinfo
  try split_ifs at hinfo
  iterate 3 (iterate 12 (all_goals (try split at hinfo)); all_goals (try (simp only [ite_eq_iff] at hinfo)); iterate 6 ((all_goals (try (rcases hinfo with hinfo | hinfo))); (all_goals (try (obtain ⟨-, hinfo⟩ := hinfo)))))
  all_goals (try (simp only [Except.ok.injEq, Sum.inl.injEq, StepHandlerResult.failure.injEq] at hinfo))
  all_goals (try subst hinfo)
  all_goals simp_all

/-- C1 invariant for `ValidateEligibilityHandler.call`. -/
theorem validateEligibility_failureInvariant (algo : Algo) (w : World)
    (ctx : StepContext) :
    failureInvariant (ValidateEligibilityHandler.call algo w ctx) := by
  intro info hinfo htype
  unfold ValidateEligibilityHandler.call ValidateEligibilityHandler.finish at hinfo
  simp only [Bind.bind] at hinfo
  unfold Except.bind at hinfo
  try split_ifs at hinfo
  iterate 3 (iterate 12 (all_goals (try split at hinfo)); all_goals (try (simp only [ite_eq_iff] at hinfo)); iterate 6 ((all_goals (try (rcases hinfo with hinfo | hinfo))); (all_goals (try (obtain ⟨-, hinfo⟩ := hinfo)))))
  all_goals (try (simp only [Except.ok.injEq, Sum.inl.injEq, StepHandlerResult.failure.injEq] at hinfo))
  all_goals (try subst hinfo)
  all_goals simp_all

/-- C1 invariant for `CreateUserAccountHandler.call`. -/
theorem createUserAccount_failureInvariant (algo : Algo) (w : World)
    (ctx : StepContext) :
    failureInvariant (CreateUserAccountHandler.call algo w ctx) := by
  intro info hinfo htype
  unfold CreateUserAccountHandler.call CreateUserAccountHandler.finish at hinfo
  simp only [Bind.bind] at hinfo
  unfold Except.bind at hinfo
  try split_ifs at hinfo
  iterate 3 (iterate 12 (all_goals (try split at hinfo)); all_goals (try (simp only [ite_eq_iff] at hinfo)); iterate 6 ((all_goals (try (rcases hinfo with hinfo | hinfo))); (all_goals (try (obtain ⟨-, hinfo⟩ := hinfo)))))
  all_goals (try (simp only [Except.ok.injEq, Sum.inl.injEq, StepHandlerResult.failure.injEq] at hinfo))
  all_goals (try subst hinfo)
  all_goals simp_all

end Handlers

/-- C1: across the embedded handlers (which include every handler in the
repository that constructs a `VALIDATION_ERROR` failure), a failure result
whose `error_type` is `VALIDATION_ERROR` always carries
`retryable = False`. -/
theorem validation_failures_never_retryable
    (h : RepoHandler) (algo : Algo) (w : World) (ctx : StepContext)
    (info : FailureInfo)
    (hres : h.call algo w ctx = .ok (.failure info))
    (htype : info.error_type = .validationError) :
    info.retryable = false := by
  cases h with
  | validateCart =>
    exact Handlers.validateCart_failureInvariant w ctx info hres htype
  | processPayment =>
    exact Handlers.processPayment_failureInvariant algo w ctx info hres htype
  | updateInventory =>
    exact Handlers.updateInventory_failureInvariant w ctx info hres htype
  | createOrder =>
    exact Handlers.createOrder_failureInvariant w ctx info hres htype
  | sendConfirmation =>
    exact Handlers.sendConfirmation_failureInvariant w ctx info hres htype
  | validateRefundRequest =>
    exact Handlers.validateRefundRequest_failureInvariant algo w ctx info hres htype
  | validatePaymentEligibility =>
    exact Handlers.validateEligibility_failureInvariant algo w ctx info hres htype
  | createUserAccount =>
    exact Handlers.createUserAccount_failureInvariant algo w ctx info hres htype

/-- Witness for C1: the empty-cart validation failure of
`ValidateCartHandler` at a concrete context is not retryable. -/
theorem validation_failures_never_retryable_witness :
    RepoHandler.validateCart.call algo0 world0 ⟨[], []⟩ =
      .ok (.failure ⟨"Cart is empty or items field is missing",
        .validationError, false, some "EMPTY_CART"⟩) ∧
    (⟨"Cart is empty or items field is missing", .validationError, false,
        some "EMPTY_CART"⟩ : FailureInfo).retryable = false :=
  ⟨rfl, validation_failures_never_retryable RepoHandler.validateCart algo0 world0
    ⟨[], []⟩ _ rfl rfl⟩



namespace DataPipeline

/-- C10: two runs of `extract_sales_data` with the same `source`,
`date_range_start` and `granularity` (the rng seed and record count depend
only on these) agree on `record_count`, `total_revenue`, `total_quantity`
and on every record's `category`, `region`, `quantity`, `unit_price` and
`revenue`, whatever fresh uuids and timestamps (and even `date_range_end`)
each run observes. -/
theorem extract_sales_data_deterministic
    (algo : Algo) (w1 w2 : World) (source date_range_start : Option String)
    (de1 de2 granularity : Option String) :
    (extract_sales_data source date_range_start de1 granularity algo w1).record_count =
      (extract_sales_data source date_range_start de2 granularity algo w2).record_count ∧
    (extract_sales_data source date_range_start de1 granularity algo w1).total_revenue =
      (extract_sales_data source date_range_start de2 granularity algo w2).total_revenue ∧
    (extract_sales_data source date_range_start de1 granularity algo w1).total_quantity =
      (extract_sales_data source date_range_start de2 granularity algo w2).total_quantity ∧
    (extract_sales_data source date_range_start de1 granularity algo w1).records.map
        SalesRecord.category =
      (extract_sales_data source date_range_start de2 granularity algo w2).records.map
        SalesRecord.category ∧
    (extract_sales_data source date_range_start de1 granularity algo w1).records.map
        SalesRecord.region =
      (extract_sales_data source date_range_start de2 granularity algo w2).records.map
        SalesRecord.region ∧
    (extract_sales_data source date_range_start de1 granularity algo w1).records.map
        SalesRecord.quantity =
      (extract_sales_data source date_range_start de2 granularity algo w2).records.map
        SalesRecord.quantity ∧
    (extract_sales_data source date_range_start de1 granularity algo w1).records.map
        SalesRecord.unit_price =
      (extract_sales_data source date_range_start de2 granularity algo w2).records.map
        SalesRecord.unit_price ∧
    (extract_sales_data source date_range_start de1 granularity algo w1).records.map
        SalesRecord.revenue =
      (extract_sales_data source date_range_start de2 granularity algo w2).records.map
        SalesRecord.revenue := by
  refine ⟨?_, ?_, ?_, ?_, ?_, ?_, ?_, ?_⟩ <;>
    simp [extract_sales_data, mkSalesRecord, List.map_map, Function.comp_def]

end DataPipeline

namespace Engine

/-- C7 (spec-modelled): in every state reachable by any interleaving of
engine events, a step currently `dispatched` has every declared
predecessor `complete` — a step is never dispatched before all its
predecessors were observed complete, and `complete` is stable, so the
property is an invariant. -/
theorem no_premature_dispatch (wf : Workflow) (s : EngineState)
    (hreach : reachable wf s) (name : String)
    (hdisp : s name = .dispatched) :
    ∀ p ∈ wf.preds name, s p = .complete := by
  induction hreach with
  | refl => exact absurd hdisp (by simp [initState])
  | @tail b c hab hbc ih =>
    cases hbc with
    | dispatch n hpending hready =>
      intro p hp
      by_cases hn : name = n
      · subst hn
        have hps : b p = .complete := hready p hp
        have hpn : p ≠ name := fun h => by
          rw [h, hpending] at hps
          exact StepState.noConfusion hps
        simp [setStep, hpn]
        exact hps
      · have hname : b name = .dispatched := by
          simpa [setStep, hn] using hdisp
        have hprev := ih hname p hp
        have hpn : p ≠ n := fun h => by
          rw [h, hpending] at hprev
          exact StepState.noConfusion hprev
        simpa [setStep, hpn] using hprev
    | completeStep n hd =>
      intro p hp
      by_cases hn : name = n
      · subst hn
        simp [setStep] at hdisp
      · have hname : b name = .dispatched := by
          simpa [setStep, hn] using hdisp
        have hprev := ih hname p hp
        by_cases hpn : p = n
        · simp [setStep, hpn]
        · simpa [setStep, hpn] using hprev
    | failStep n hd =>
      intro p hp
      by_cases hn : name = n
      · subst hn
        simp [setStep] at hdisp
      · have hname : b name = .dispatched := by
          simpa [setStep, hn] using hdisp
        have hprev := ih hname p hp
        have hpn : p ≠ n := fun h => by
          rw [h, hd] at hprev
          exact StepState.noConfusion hprev
        simpa [setStep, hpn] using hprev
    | retryStep n hd =>
      intro p hp
      by_cases hn : name = n
      · subst hn
        simp [setStep] at hdisp
      · have hname : b name = .dispatched := by
          simpa [setStep, hn] using hdisp
        have hprev := ih hname p hp
        have hpn : p ≠ n := fun h => by
          rw [h, hd] at hprev
          exact StepState.noConfusion hprev
        simpa [setStep, hpn] using hprev
    | blockStep n hstate hcause =>
      intro p hp
      by_cases hn : name = n
      · subst hn
        simp [setStep] at hdisp
      · have hname : b name = .dispatched := by
          simpa [setStep, hn] using hdisp
        have hprev := ih hname p hp
        have hpn : p ≠ n := fun h => by
          rcases hstate with hs | hs <;>
            · rw [h, hs] at hprev
              exact StepState.noConfusion hprev
        simpa [setStep, hpn] using hprev

/-- A two-step chain `A → B` used as a concrete scenario. -/
def wfAB : Workflow := ⟨[("A", []), ("B", ["A"])]⟩

/-- The state after dispatching and completing `A`, then dispatching `B`. -/
def sAB : EngineState :=
  setStep (setStep (setStep initState "A" .dispatched) "A" .complete) "B" .dispatched

/-- Witness for C7: in the concrete reachable state where `B` is
dispatched, its predecessor `A` is complete. -/
theorem no_premature_dispatch_witness : sAB "A" = .complete := by
  have hpB : wfAB.preds "B" = ["A"] := rfl
  have hpA : wfAB.preds "A" = [] := rfl
  have h1 : engineStep wfAB initState (setStep initState "A" .dispatched) :=
    .dispatch initState "A" rfl (by intro p hp; rw [hpA] at hp; cases hp)
  have h2 : engineStep wfAB (setStep initState "A" .dispatched)
      (setStep (setStep initState "A" .dispatched) "A" .complete) :=
    .completeStep _ "A" rfl
  have h3 : engineStep wfAB (setStep (setStep initState "A" .dispatched) "A" .complete) sAB := by
    refine .dispatch _ "B" rfl ?_
    intro p hp
    rw [hpB] at hp
    simp only [List.mem_singleton] at hp
    subst hp
    rfl
  have hreach : reachable wfAB sAB :=
    Relation.ReflTransGen.tail
      (Relation.ReflTransGen.tail (Relation.ReflTransGen.tail .refl h1) h2) h3
  exact no_premature_dispatch wfAB sAB hreach "B" rfl "A" (by rw [hpB]; exact List.mem_singleton.mpr rfl)

end Engine

/-- Counterexample for C2 as stated: a construction with every required
field absent fails, but the raised error is the `PermanentError` of
`tasker_core.errors` (naming the missing fields), not a
`ValidationError`. -/
theorem input_model_missing_fields_error_is_permanent :
    mkValidateRefundRequestInput Option.none Option.none Option.none Option.none
      Option.none Option.none Option.none Option.none Option.none =
      .error (.tasker (.permanentError
        "Missing required fields: ticket_id, customer_id, refund_amount")) ∧
    ¬ ∃ msg, mkValidateRefundRequestInput Option.none Option.none Option.none
      Option.none Option.none Option.none Option.none Option.none Option.none =
      .error (.tasker (.validationError msg)) := by
  refine ⟨rfl, ?_⟩
  rintro ⟨msg, hmsg⟩
  rw [show mkValidateRefundRequestInput Option.none Option.none Option.none Option.none
      Option.none Option.none Option.none Option.none Option.none =
      .error (.tasker (.permanentError
        "Missing required fields: ticket_id, customer_id, refund_amount")) from rfl] at hmsg
  simp at hmsg

/-- C2 (amended): constructing either validated input model fails with a
`PermanentError` naming exactly the template-required fields that are
absent, and succeeds whenever all required fields are provided. -/
theorem input_models_enforce_required_fields
    (ticket_id order_ref customer_id : Option String) (refund_amount amount : Option ℚ)
    (refund_reason reason customer_email correlation_id : Option String)
    (payment_id2 order_ref2 customer_email2 : Option String)
    (refund_amount2 amount2 : Option ℚ) (refund_reason2 reason2 : Option String)
    (partialRefund2 : Option Bool) :
    ((refundRequestMissingFieldsSpec ticket_id order_ref customer_id refund_amount
        amount customer_email = [] →
      mkValidateRefundRequestInput ticket_id order_ref customer_id refund_amount amount
        refund_reason reason customer_email correlation_id =
      .ok ⟨ticket_id, order_ref, customer_id, refund_amount, amount, refund_reason,
           reason, customer_email, correlation_id⟩) ∧
     (refundRequestMissingFieldsSpec ticket_id order_ref customer_id refund_amount
        amount customer_email ≠ [] →
      mkValidateRefundRequestInput ticket_id order_ref customer_id refund_amount amount
        refund_reason reason customer_email correlation_id =
      .error (.tasker (.permanentError ("Missing required fields: " ++
        String.intercalate ", " (refundRequestMissingFieldsSpec ticket_id order_ref
          customer_id refund_amount amount customer_email)))))) ∧
    ((paymentEligibilityMissingFieldsSpec payment_id2 order_ref2 refund_amount2
        amount2 = [] →
      mkValidatePaymentEligibilityInput payment_id2 refund_amount2 amount2
        refund_reason2 reason2 partialRefund2 order_ref2 customer_email2 =
      .ok ⟨payment_id2, refund_amount2, amount2, refund_reason2, reason2,
           partialRefund2, order_ref2, customer_email2⟩) ∧
     (paymentEligibilityMissingFieldsSpec payment_id2 order_ref2 refund_amount2
        amount2 ≠ [] →
      mkValidatePaymentEligibilityInput payment_id2 refund_amount2 amount2
        refund_reason2 reason2 partialRefund2 order_ref2 customer_email2 =
      .error (.tasker (.permanentError ("Missing required fields: " ++
        String.intercalate ", " (paymentEligibilityMissingFieldsSpec payment_id2
          order_ref2 refund_amount2 amount2)))))) := by
  refine ⟨⟨?_, ?_⟩, ⟨?_, ?_⟩⟩
  · intro h
    simp only [refundRequestMissingFieldsSpec] at h
    unfold mkValidateRefundRequestInput ValidateRefundRequestInput.check_required_fields
    simp only [ValidateRefundRequestInput.resolved_ticket_id,
      ValidateRefundRequestInput.resolved_amount]
    rw [h]
    simp
  · intro h
    simp only [refundRequestMissingFieldsSpec] at h ⊢
    unfold mkValidateRefundRequestInput ValidateRefundRequestInput.check_required_fields
    simp only [ValidateRefundRequestInput.resolved_ticket_id,
      ValidateRefundRequestInput.resolved_amount]
    rcases hE : (if ¬ strOptTruthy (strOptOr ticket_id order_ref) then ["ticket_id"] else []) ++
      ((if ¬ strOptTruthy customer_id ∧ ¬ strOptTruthy customer_email then
        ["customer_id"] else []) ++
       (if ¬ qOptTruthy (qOptOrOpt refund_amount amount) then ["refund_amount"] else []))
      with _ | ⟨x, xs⟩
    · rw [← List.append_assoc] at hE
      exact absurd hE h
    · rw [List.append_assoc, hE]
      simp
  · intro h
    simp only [paymentEligibilityMissingFieldsSpec] at h
    unfold mkValidatePaymentEligibilityInput ValidatePaymentEligibilityInput.check_required_fields
    simp only [ValidatePaymentEligibilityInput.resolved_amount]
    rw [h]
    simp
  · intro h
    simp only [paymentEligibilityMissingFieldsSpec] at h ⊢
    unfold mkValidatePaymentEligibilityInput ValidatePaymentEligibilityInput.check_required_fields
    simp only [ValidatePaymentEligibilityInput.resolved_amount]
    rcases hE : (if ¬ strOptTruthy payment_id2 ∧ ¬ strOptTruthy order_ref2 then
        ["payment_id"] else []) ++
      (if ¬ qOptTruthy (qOptOrOpt refund_amount2 amount2) then ["refund_amount"] else [])
      with _ | ⟨x, xs⟩
    · exact absurd hE h
    · simp

/-- Witness for C2 (amended) at concrete inputs: a fully-populated refund
request is accepted, and one missing everything is rejected with the
message naming the missing fields. -/
theorem input_models_enforce_required_fields_witness :
    mkValidateRefundRequestInput (some "T-100") Option.none (some "cust-1")
      (some 25) Option.none Option.none Option.none Option.none Option.none =
      .ok ⟨some "T-100", Option.none, some "cust-1", some 25, Option.none,
           Option.none, Option.none, Option.none, Option.none⟩ ∧
    mkValidatePaymentEligibilityInput Option.none Option.none Option.none
      Option.none Option.none Option.none Option.none Option.none =
      .error (.tasker (.permanentError
        "Missing required fields: payment_id, refund_amount")) :=
  ⟨(input_models_enforce_required_fields (some "T-100") Option.none (some "cust-1")
      (some 25) Option.none Option.none Option.none Option.none Option.none
      Option.none Option.none Option.none Option.none Option.none Option.none
      Option.none Option.none).1.1
    (by simp [refundRequestMissingFieldsSpec, strOptTruthy, qOptTruthy, qOptOrOpt, strOptOr]),
   (input_models_enforce_required_fields (some "T-100") Option.none (some "cust-1")
      (some 25) Option.none Option.none Option.none Option.none Option.none
      Option.none Option.none Option.none Option.none Option.none Option.none
      Option.none Option.none).2.2
    (by simp [paymentEligibilityMissingFieldsSpec, strOptTruthy, qOptTruthy, qOptOrOpt])⟩

/-- C8 (the cited `assert` is reachable): the input with only `amount`
set (and a `payment_id`) passes the model validator, yet
`validate_eligibility` raises `AssertionError` on it, because it reads the
raw `refund_amount` field instead of `resolved_amount` — contradicting the
source comment `Fields guaranteed non-None by @model_validator`. -/
theorem validate_eligibility_assertion_reachable :
    mkValidatePaymentEligibilityInput (some "pay_123") Option.none (some 50)
      Option.none Option.none Option.none Option.none Option.none =
      .ok ⟨some "pay_123", Option.none, some 50, Option.none, Option.none,
           Option.none, Option.none, Option.none⟩ ∧
    Payments.validate_eligibility
      ⟨some "pay_123", Option.none, some 50, Option.none, Option.none,
       Option.none, Option.none, Option.none⟩ algo0 world0 =
      .error (.exc .assertionError) := by
  constructor
  · simp [mkValidatePaymentEligibilityInput,
      ValidatePaymentEligibilityInput.check_required_fields,
      ValidatePaymentEligibilityInput.resolved_amount, qOptOrOpt, qOptTruthy,
      strOptTruthy]
  · rfl



namespace DataPipeline

/-- The rating conditional of `generate_insights`, characterised by the
spec thresholds. -/
theorem ratingOf_spec (v : ℤ) :
    (ratingOf v = "Excellent" ↔ 80 ≤ v) ∧
    (ratingOf v = "Good" ↔ 60 ≤ v ∧ v < 80) ∧
    (ratingOf v = "Fair" ↔ 40 ≤ v ∧ v < 60) ∧
    (ratingOf v = "Needs Improvement" ↔ v < 40) := by
  unfold ratingOf
  by_cases h80 : 80 ≤ v
  · rw [if_pos h80]
    exact ⟨⟨fun _ => h80, fun _ => rfl⟩,
           ⟨fun h => absurd h (by decide), fun h => absurd h.2 (by omega)⟩,
           ⟨fun h => absurd h (by decide), fun h => absurd h.2 (by omega)⟩,
           ⟨fun h => absurd h (by decide), fun h => absurd h (by omega)⟩⟩
  · rw [if_neg h80]
    by_cases h60 : 60 ≤ v
    · rw [if_pos h60]
      exact ⟨⟨fun h => absurd h (by decide), fun h => absurd h h80⟩,
             ⟨fun _ => ⟨h60, by omega⟩, fun _ => rfl⟩,
             ⟨fun h => absurd h (by decide), fun h => absurd h.2 (by omega)⟩,
             ⟨fun h => absurd h (by decide), fun h => absurd h (by omega)⟩⟩
    · rw [if_neg h60]
      by_cases h40 : 40 ≤ v
      · rw [if_pos h40]
        exact ⟨⟨fun h => absurd h (by decide), fun h => absurd h h80⟩,
               ⟨fun h => absurd h (by decide), fun h => absurd h.1 h60⟩,
               ⟨fun _ => ⟨h40, by omega⟩, fun _ => rfl⟩,
               ⟨fun h => absurd h (by decide), fun h => absurd h (by omega)⟩⟩
      · rw [if_neg h40]
        exact ⟨⟨fun h => absurd h (by decide), fun h => absurd h h80⟩,
               ⟨fun h => absurd h (by decide), fun h => absurd h.1 h60⟩,
               ⟨fun h => absurd h (by decide), fun h => absurd h.1 h40⟩,
               ⟨fun _ => by omega, fun _ => rfl⟩⟩

/-- The clamp `max(0, min(100, v))` lands in `[0, 100]`. -/
theorem clampBounds (v : ℤ) : 0 ≤ max 0 (min 100 v) ∧ max 0 (min 100 v) ≤ 100 :=
  ⟨le_max_left 0 _, max_le (by omega) (min_le_left _ _)⟩

/-- C9: every successfully generated insights result carries a health
score between 0 and 100 inclusive, and its rating is "Excellent" iff the
score is at least 80, "Good" iff it is in [60, 80), "Fair" iff it is in
[40, 60), and "Needs Improvement" iff it is below 40. -/
theorem generate_insights_health_score_contract
    (metrics : PipelineAggregateMetricsResult) (w : World)
    (r : PipelineGenerateInsightsResult)
    (h : generate_insights metrics w = .ok r) :
    (0 ≤ r.health_score.score ∧ r.health_score.score ≤ 100) ∧
    ((r.health_score.rating = "Excellent" ↔ 80 ≤ r.health_score.score) ∧
     (r.health_score.rating = "Good" ↔
        60 ≤ r.health_score.score ∧ r.health_score.score < 80) ∧
     (r.health_score.rating = "Fair" ↔
        40 ≤ r.health_score.score ∧ r.health_score.score < 60) ∧
     (r.health_score.rating = "Needs Improvement" ↔ r.health_score.score < 40)) := by
  unfold generate_insights at h
  obtain ⟨p, hX, h2⟩ := exceptBindEqOk h
  simp only [Except.ok.injEq] at h2
  subst h2
  exact ⟨clampBounds _, ratingOf_spec _⟩

/-- Aggregated metrics with every field absent. -/
def mNone : PipelineAggregateMetricsResult := {}

/-- The insights result produced for `mNone` by `world0`. -/
def rNone : PipelineGenerateInsightsResult :=
  match generate_insights mNone world0 with
  | .ok r => r
  | .error _ => ⟨[], ⟨0, 0, ""⟩, 0, false, 0, "", 0, ""⟩

/-- Witness for C9 at the all-absent metrics input. -/
theorem generate_insights_health_score_contract_witness :
    (0 ≤ rNone.health_score.score ∧ rNone.health_score.score ≤ 100) ∧
    ((rNone.health_score.rating = "Excellent" ↔ 80 ≤ rNone.health_score.score) ∧
     (rNone.health_score.rating = "Good" ↔
        60 ≤ rNone.health_score.score ∧ rNone.health_score.score < 80) ∧
     (rNone.health_score.rating = "Fair" ↔
        40 ≤ rNone.health_score.score ∧ rNone.health_score.score < 60) ∧
     (rNone.health_score.rating = "Needs Improvement" ↔
        rNone.health_score.score < 40)) :=
  generate_insights_health_score_contract mNone world0 rNone rfl

end DataPipeline



namespace TestsHelpers

/-- Core grace-window invariant of the polling loop: if any recorded
`failure_seen_at` reading came from an earlier iteration since which the
status was continuously `blocked_by_failures`, then a `blocked_by_failures`
snapshot is returned only after the status was observed blocked
continuously for at least 10 clock seconds. -/
theorem waitLoop_blocked_grace (polls : ℕ → TaskSnapshot) (clock : ℕ → ℕ → ℚ)
    (deadline : ℚ) (fuel : ℕ) :
    ∀ (i : ℕ) (fsa : Option ℚ),
      (∀ tq, fsa = some tq → ∃ k, k < i ∧ tq = clock k 0 ∧
        ∀ j, k ≤ j → j < i → (polls j).status = .blockedByFailures) →
      ∀ t, waitLoop polls clock deadline fuel i fsa = some (.finished t) →
      t.status = .blockedByFailures →
      ∃ k n, k ≤ n ∧ polls n = t ∧
        (∀ j, k ≤ j → j ≤ n → (polls j).status = .blockedByFailures) ∧
        10 ≤ clock n 1 - clock k 0 := by
  induction fuel with
  | zero =>
    intro i fsa _ t ht _
    simp [waitLoop] at ht
  | succ fuel ih =>
    intro i fsa hinv t hres hblocked
    simp only [waitLoop] at hres
    by_cases hterm : (polls i).status ∈ TERMINAL_STATUSES
    · rw [if_pos hterm] at hres
      simp only [Option.some.injEq, PollOutcome.finished.injEq] at hres
      rw [hres, hblocked] at hterm
      exact absurd hterm (by decide)
    · rw [if_neg hterm] at hres
      by_cases hfail : (polls i).status ∈ FAILURE_STATUSES
      · rw [if_pos hfail] at hres
        by_cases hgrace : 10 ≤ clock i 1 - fsa.getD (clock i 0)
        · rw [if_pos hgrace] at hres
          simp only [Option.some.injEq, PollOutcome.finished.injEq] at hres
          rcases fsa with _ | tq
          · simp only [Option.getD_none] at hgrace
            refine ⟨i, i, le_refl i, hres, ?_, hgrace⟩
            intro j h1 h2
            have hj : j = i := le_antisymm h2 h1
            rw [hj, hres, hblocked]
          · obtain ⟨k, hk, htq, hcont⟩ := hinv tq rfl
            simp only [Option.getD_some] at hgrace
            refine ⟨k, i, le_of_lt hk, hres, ?_, ?_⟩
            · intro j h1 h2
              by_cases hji : j < i
              · exact hcont j h1 hji
              · have hj : j = i := le_antisymm h2 (not_lt.mp hji)
                rw [hj, hres, hblocked]
            · rw [← htq]
              exact hgrace
        · rw [if_neg hgrace] at hres
          by_cases htime : deadline - clock i 2 ≤ 0
          · rw [if_pos htime] at hres
            simp at hres
          · rw [if_neg htime] at hres
            refine ih (i + 1) (some (fsa.getD (clock i 0))) ?_ t hres hblocked
            intro tq htq
            simp only [Option.some.injEq] at htq
            subst htq
            have hfi : (polls i).status = .blockedByFailures := by
              simpa [FAILURE_STATUSES] using hfail
            rcases fsa with _ | tq0
            · refine ⟨i, Nat.lt_succ_self i, rfl, ?_⟩
              intro j h1 h2
              have hj : j = i := by omega
              rw [hj]
              exact hfi
            · obtain ⟨k, hk, htq0, hcont⟩ := hinv tq0 rfl
              refine ⟨k, by omega, by simpa using htq0, ?_⟩
              intro j h1 h2
              by_cases hji : j < i
              · exact hcont j h1 hji
              · have hj : j = i := by omega
                rw [hj]
                exact hfi
      · rw [if_neg hfail] at hres
        by_cases htime : deadline - clock i 2 ≤ 0
        · rw [if_pos htime] at hres
          simp at hres
        · rw [if_neg htime] at hres
          refine ih (i + 1) Option.none ?_ t hres hblocked
          intro tq htq
          exact Option.noConfusion htq

/-- C6: (1) an iteration that observes a terminal status (`complete`,
`error`, `cancelled`) returns that snapshot immediately; (2) the entry
point returns a `blocked_by_failures` snapshot only after that status was
observed continuously over a window of at least 10 clock seconds (any
other observation resets the timer, since `failure_seen_at` survives only
through blocked iterations); (3) an iteration past the deadline that
neither sees a terminal status nor fires the grace window raises
`TimeoutError`. -/
theorem wait_for_task_completion_contract (polls : ℕ → TaskSnapshot)
    (clock : ℕ → ℕ → ℚ) :
    (∀ (deadline : ℚ) (fuel i : ℕ) (fsa : Option ℚ),
      (polls i).status ∈ TERMINAL_STATUSES →
      waitLoop polls clock deadline (fuel + 1) i fsa =
        some (.finished (polls i))) ∧
    (∀ (startRead timeout : ℚ) (fuel : ℕ) (t : TaskSnapshot),
      wait_for_task_completion polls clock startRead timeout fuel =
        some (.finished t) →
      t.status = .blockedByFailures →
      ∃ k n, k ≤ n ∧ polls n = t ∧
        (∀ j, k ≤ j → j ≤ n → (polls j).status = .blockedByFailures) ∧
        10 ≤ clock n 1 - clock k 0) ∧
    (∀ (deadline : ℚ) (fuel i : ℕ) (fsa : Option ℚ),
      (polls i).status ∉ TERMINAL_STATUSES →
      ((polls i).status ∈ FAILURE_STATUSES →
        ¬ 10 ≤ clock i 1 - fsa.getD (clock i 0)) →
      deadline - clock i 2 ≤ 0 →
      waitLoop polls clock deadline (fuel + 1) i fsa =
        some (.timedOut (polls i).status)) := by
  refine ⟨?_, ?_, ?_⟩
  · intro deadline fuel i fsa hterm
    simp only [waitLoop]
    rw [if_pos hterm]
  · intro startRead timeout fuel t hres hblocked
    exact waitLoop_blocked_grace polls clock (startRead + timeout) fuel 0 Option.none
      (fun tq htq => Option.noConfusion htq) t hres hblocked
  · intro deadline fuel i fsa hterm hnograce htime
    simp only [waitLoop]
    rw [if_neg hterm]
    by_cases hfail : (polls i).status ∈ FAILURE_STATUSES
    · rw [if_pos hfail, if_neg (hnograce hfail), if_pos htime]
    · rw [if_neg hfail, if_pos htime]

/-- Witness for C6: each part of the contract exercised on a concrete
poll/clock trace — a `complete` poll returns immediately; an all-blocked
trace whose clock jumps 20 seconds between the failure reading and the
grace comparison returns the blocked snapshot; a `pending` poll past the
deadline times out. -/
theorem wait_for_task_completion_contract_witness :
    waitLoop (fun _ => ⟨.complete, 0⟩) (fun _ _ => 0) 0 1 0 Option.none =
      some (.finished ⟨.complete, 0⟩) ∧
    (∃ k n, k ≤ n ∧ (fun (_ : ℕ) => (⟨.blockedByFailures, 0⟩ : TaskSnapshot)) n =
        ⟨.blockedByFailures, 0⟩ ∧
      (∀ j, k ≤ j → j ≤ n →
        ((fun (_ : ℕ) => (⟨.blockedByFailures, 0⟩ : TaskSnapshot)) j).status =
          .blockedByFailures) ∧
      (10 : ℚ) ≤ (fun (i r : ℕ) => if i = 0 ∧ r = 0 then (0 : ℚ) else 20) n 1 -
        (fun (i r : ℕ) => if i = 0 ∧ r = 0 then (0 : ℚ) else 20) k 0) ∧
    waitLoop (fun _ => ⟨.pending, 0⟩) (fun _ _ => 0) 0 1 0 Option.none =
      some (.timedOut .pending) :=
  ⟨(wait_for_task_completion_contract (fun _ => ⟨.complete, 0⟩) (fun _ _ => 0)).1
      0 0 0 Option.none (by decide),
   (wait_for_task_completion_contract (fun _ => ⟨.blockedByFailures, 0⟩)
      (fun i r => if i = 0 ∧ r = 0 then (0 : ℚ) else 20)).2.1 0 100 1
      ⟨.blockedByFailures, 0⟩
      (by norm_num [wait_for_task_completion, waitLoop, TERMINAL_STATUSES,
        FAILURE_STATUSES])
      rfl,
   (wait_for_task_completion_contract (fun _ => ⟨.pending, 0⟩) (fun _ _ => 0)).2.2
      0 0 0 Option.none (by decide) (fun h => absurd h (by decide)) (by norm_num)⟩

end TestsHelpers



/-- Chaining a known-successful prefix through an `Except` bind. -/
theorem exceptBindOkExists {x : Except ε α} {f : α → Except ε β} {a : α}
    (hx : x = .ok a) (hf : ∃ r, f a = .ok r) : ∃ r, (x >>= f) = .ok r := by
  obtain ⟨r, hr⟩ := hf
  exact ⟨r, by rw [hx, exceptBindOk, hr]⟩

/-- `isNone` characterises the `none` constructor. -/
theorem pvIsNone_eq_none {v : PyVal} (h : v.isNone = true) : v = .none := by
  cases v <;> simp [PyVal.isNone] at h ⊢

/-- Shape inversion for `pvNoneOrStr`. -/
theorem pvNoneOrStr_cases {v : PyVal} (h : pvNoneOrStr v = true) :
    v = .none ∨ ∃ s, v = .str s := by
  cases v with
  | none => exact Or.inl rfl
  | str s => exact Or.inr ⟨s, rfl⟩
  | bool b => exact absurd h (by simp [pvNoneOrStr])
  | num q => exact absurd h (by simp [pvNoneOrStr])
  | list xs => exact absurd h (by simp [pvNoneOrStr])
  | dict d => exact absurd h (by simp [pvNoneOrStr])

/-- Shape inversion for `pvNoneOrNum`. -/
theorem pvNoneOrNum_cases {v : PyVal} (h : pvNoneOrNum v = true) :
    v = .none ∨ ∃ q, v.asNum? = some q := by
  simp only [pvNoneOrNum, Bool.or_eq_true] at h
  rcases h with h | h
  · exact Or.inl (pvIsNone_eq_none h)
  · exact Or.inr (Option.isSome_iff_exists.mp h)

/-- Shape inversion for `pvNoneOrDict`. -/
theorem pvNoneOrDict_cases {v : PyVal} (h : pvNoneOrDict v = true) :
    v = .none ∨ ∃ d, v = .dict d := by
  cases v with
  | none => exact Or.inl rfl
  | dict d => exact Or.inr ⟨d, rfl⟩
  | bool b => exact absurd h (by simp [pvNoneOrDict])
  | num q => exact absurd h (by simp [pvNoneOrDict])
  | str s => exact absurd h (by simp [pvNoneOrDict])
  | list xs => exact absurd h (by simp [pvNoneOrDict])

/-- Shape inversion for `pvIsDict`. -/
theorem pvIsDict_cases {v : PyVal} (h : pvIsDict v = true) : ∃ d, v = .dict d := by
  cases v with
  | dict d => exact ⟨d, rfl⟩
  | none => exact absurd h (by simp [pvIsDict])
  | bool b => exact absurd h (by simp [pvIsDict])
  | num q => exact absurd h (by simp [pvIsDict])
  | str s => exact absurd h (by simp [pvIsDict])
  | list xs => exact absurd h (by simp [pvIsDict])

/-- Shape inversion for `dictHasKey`. -/
theorem dictHasKey_cases {v : PyVal} {k : String} (h : dictHasKey v k = true) :
    ∃ d x, v = .dict d ∧ PyVal.dictFind d k = some x := by
  cases v with
  | dict d =>
    simp only [dictHasKey, Option.isSome_iff_exists] at h
    obtain ⟨x, hx⟩ := h
    exact ⟨d, x, rfl, hx⟩
  | none => exact absurd h (by simp [dictHasKey])
  | bool b => exact absurd h (by simp [dictHasKey])
  | num q => exact absurd h (by simp [dictHasKey])
  | str s => exact absurd h (by simp [dictHasKey])
  | list xs => exact absurd h (by simp [dictHasKey])

/-- Membership tests on hashable values never raise. -/
theorem pvHashable_inStrs {v : PyVal} (h : pvHashable v = true) (tokens : List String) :
    ∃ b, pyInStrs v tokens = .ok b := by
  cases v with
  | str s => exact ⟨_, rfl⟩
  | none => exact ⟨_, rfl⟩
  | bool b => exact ⟨_, rfl⟩
  | num q => exact ⟨_, rfl⟩
  | list xs => exact absurd h (by simp [pvHashable])
  | dict d => exact absurd h (by simp [pvHashable])

namespace Handlers

/-- The cart-validation loop never raises on well-shaped items. -/
theorem validateCart_loop_wf_ok :
    ∀ (items : List PyVal) (idx : ℕ), items.all cartItemWF = true →
      ∃ v, ValidateCartHandler.loop items idx = .ok v := by
  intro items
  induction items with
  | nil => exact fun idx _ => ⟨.inr ([], 0), rfl⟩
  | cons item rest ih =>
    intro idx hall
    simp only [List.all_cons, Bool.and_eq_true] at hall
    obtain ⟨hitem, hrest⟩ := hall
    rcases item with _ | b | q | str | xs | d
    · exact absurd hitem (by simp [cartItemWF])
    · exact absurd hitem (by simp [cartItemWF])
    · exact absurd hitem (by simp [cartItemWF])
    · exact absurd hitem (by simp [cartItemWF])
    · exact absurd hitem (by simp [cartItemWF])
    · simp only [cartItemWF, Bool.and_eq_true, Option.isSome_iff_exists] at hitem
      obtain ⟨⟨qv, hq⟩, ⟨pv, hp⟩⟩ := hitem
      obtain ⟨v, hv⟩ := ih (idx + 1) hrest
      have h0 : (PyVal.num 0).asNum? = some 0 := rfl
      have h1 : (PyVal.num 1).asNum? = some 1 := rfl
      simp only [ValidateCartHandler.loop, PyVal.pyGetD, exceptBindOk,
        PyVal.pyLt, PyVal.pyLe, PyVal.pyMul, hq, hp, h0, h1, hv]
      split
      · exact ⟨_, rfl⟩
      · split
        · exact ⟨_, rfl⟩
        · split
          · exact ⟨_, rfl⟩
          · rcases v with r | ⟨vs, stq⟩
            · exact ⟨_, rfl⟩
            · exact ⟨_, rfl⟩

/-- `ValidateCartHandler.call` never raises on a well-formed context. -/
theorem validateCart_call_wf_ok (w : World) (ctx : StepContext)
    (hwf : ctxWF .validateCart ctx = true) :
    ∃ r, ValidateCartHandler.call w ctx = .ok r := by
  simp only [ctxWF] at hwf
  unfold ValidateCartHandler.call
  rcases hres : PyVal.pyOr (ctx.getInput "items") (ctx.getInput "cart_items")
    with _ | b | q | str | xs | d
  · exact ⟨_, rfl⟩
  · exact ⟨_, rfl⟩
  · exact ⟨_, rfl⟩
  · exact ⟨_, rfl⟩
  · simp only [hres] at hwf
    rcases xs with _ | ⟨item, rest⟩
    · exact ⟨_, rfl⟩
    · obtain ⟨v, hv⟩ := validateCart_loop_wf_ok (item :: rest) 0 hwf
      simp only [hv, exceptBindOk]
      rcases v with r | ⟨vis, stq⟩
      · exact ⟨_, rfl⟩
      · exact ⟨_, rfl⟩
  · exact ⟨_, rfl⟩

/-- The inventory-reservation loop never raises on well-shaped items. -/
theorem updateInventory_loop_wf_ok (w : World) :
    ∀ (items : List PyVal) (i : ℕ), items.all invItemWF = true →
      ∃ v, UpdateInventoryHandler.loop w items i = .ok v := by
  intro items
  induction items with
  | nil => exact fun i _ => ⟨([], [], 0), rfl⟩
  | cons item rest ih =>
    intro i hall
    simp only [List.all_cons, Bool.and_eq_true] at hall
    obtain ⟨hitem, hrest⟩ := hall
    rcases item with _ | b | q | str | xs | d
    · exact absurd hitem (by simp [invItemWF])
    · exact absurd hitem (by simp [invItemWF])
    · exact absurd hitem (by simp [invItemWF])
    · exact absurd hitem (by simp [invItemWF])
    · exact absurd hitem (by simp [invItemWF])
    · simp only [invItemWF] at hitem
      rcases hq : PyVal.dictFind d "quantity" with _ | qv
      · rw [hq] at hitem
        simp at hitem
      · rw [hq] at hitem
        simp only [Option.isSome_iff_exists] at hitem
        obtain ⟨qn, hqn⟩ := hitem
        obtain ⟨v, hv⟩ := ih (i + 1) hrest
        rcases v with ⟨ups, chgs, tot⟩
        have h0 : (PyVal.num 0).asNum? = some 0 := rfl
        simp only [UpdateInventoryHandler.loop, PyVal.pySubscript, hq,
          PyVal.pyAddNum, PyVal.pyNeg, hqn, h0, PyVal.pyGetD,
          exceptBindOk, hv]
        exact ⟨_, rfl⟩

/-- `UpdateInventoryHandler.call` never raises on a well-formed context. -/
theorem updateInventory_call_wf_ok (w : World) (ctx : StepContext)
    (hwf : ctxWF .updateInventory ctx = true) :
    ∃ r, UpdateInventoryHandler.call w ctx = .ok r := by
  simp only [ctxWF] at hwf
  unfold UpdateInventoryHandler.call
  rcases hres : ctx.getDependencyResult "validate_cart" with _ | b | q | str | xs | d
  · exact ⟨_, rfl⟩
  · rw [hres] at hwf
    simp at hwf
  · rw [hres] at hwf
    simp at hwf
  · rw [hres] at hwf
    simp at hwf
  · rw [hres] at hwf
    simp at hwf
  · simp only [hres] at hwf
    simp only [PyVal.isNone, PyVal.pyGetD, exceptBindOk]
    rcases hvi : (PyVal.dictFind d "validated_items").getD (.list [])
      with _ | b | q | str | xs | dd
    · rw [hvi] at hwf
      simp at hwf
    · rw [hvi] at hwf
      simp at hwf
    · rw [hvi] at hwf
      simp at hwf
    · rw [hvi] at hwf
      simp at hwf
    · simp only [hvi] at hwf
      obtain ⟨v, hv⟩ := updateInventory_loop_wf_ok w xs 0 hwf
      rcases v with ⟨ups, chgs, tot⟩
      simp only [hvi, hv, exceptBindOk]
      exact ⟨_, rfl⟩
    · rw [hvi] at hwf
      simp at hwf

end Handlers



namespace Handlers

/-- `ProcessPaymentHandler.call` never raises on a well-formed context. -/
theorem processPayment_call_wf_ok (algo : Algo) (w : World) (ctx : StepContext)
    (hwf : ctxWF .processPayment ctx = true) :
    ∃ r, ProcessPaymentHandler.call algo w ctx = .ok r := by
  simp only [ctxWF, Bool.and_eq_true] at hwf
  obtain ⟨htok, hcart⟩ := hwf
  have hts : ∃ ts, PyVal.pyOr (ctx.getInput "payment_token") (.str "tok_test_success") =
      .str ts := by
    rcases pvNoneOrStr_cases htok with h | ⟨s, h⟩
    · rw [h]
      exact ⟨"tok_test_success", rfl⟩
    · rw [h]
      unfold PyVal.pyOr
      by_cases hs : (PyVal.str s).truthy
      · rw [if_pos hs]
        exact ⟨s, rfl⟩
      · rw [if_neg hs]
        exact ⟨"tok_test_success", rfl⟩
  obtain ⟨ts, hts⟩ := hts
  unfold ProcessPaymentHandler.call
  rw [hts]
  simp only []
  split
  · exact ⟨_, rfl⟩
  · rename_i hno
    rcases pvNoneOrDict_cases hcart with hc | ⟨d, hc⟩
    · rw [hc] at hno
      exact absurd rfl hno
    · rw [hc]
      simp only [PyVal.pyGetD, pyInStrs, PyVal.pySlice, exceptBindOk]
      split
      · exact ⟨_, rfl⟩
      · split
        · exact ⟨_, rfl⟩
        · exact ⟨_, rfl⟩

/-- `CreateOrderHandler.call` never raises on a well-formed context. -/
theorem createOrder_call_wf_ok (w : World) (ctx : StepContext)
    (hwf : ctxWF .createOrder ctx = true) :
    ∃ r, CreateOrderHandler.call w ctx = .ok r := by
  simp only [ctxWF, Bool.or_eq_true] at hwf
  unfold CreateOrderHandler.call
  simp only []
  split
  · exact ⟨_, rfl⟩
  · rename_i hguard
    rcases hwf with hneg | hpos
    · rw [not_not] at hguard
      rw [Bool.not_eq_true'] at hneg
      rw [hneg] at hguard
      exact absurd hguard (by simp)
    · simp only [Bool.and_eq_true] at hpos
      obtain ⟨⟨⟨⟨⟨⟨⟨hk1, hk2⟩, hk3⟩, hk4⟩, hk5⟩, hk6⟩, hk7⟩, hk8⟩ := hpos
      obtain ⟨dc, tv, hdc, htv⟩ := dictHasKey_cases hk1
      rw [hdc] at hk2 hk3 hk4 hk5 hk6
      simp only [dictHasKey, Option.isSome_iff_exists] at hk2 hk3 hk4 hk5 hk6
      obtain ⟨vi, hvi⟩ := hk2
      obtain ⟨ic, hic⟩ := hk3
      obtain ⟨sb, hsb⟩ := hk4
      obtain ⟨tx0, htx0⟩ := hk5
      obtain ⟨sh, hsh⟩ := hk6
      obtain ⟨dp, tid, hdp, htid⟩ := dictHasKey_cases hk7
      obtain ⟨di, hdi⟩ := pvIsDict_cases hk8
      rw [hdc, hdp, hdi]
      simp only [PyVal.pySubscript, PyVal.pyGetD, htv, hvi, hic, hsb, htx0, hsh,
        htid, exceptBindOk]
      exact ⟨_, rfl⟩

/-- `SendConfirmationHandler.call` never raises on a well-formed context. -/
theorem sendConfirmation_call_wf_ok (w : World) (ctx : StepContext)
    (hwf : ctxWF .sendConfirmation ctx = true) :
    ∃ r, SendConfirmationHandler.call w ctx = .ok r := by
  simp only [ctxWF] at hwf
  unfold SendConfirmationHandler.call
  simp only []
  split
  · exact ⟨_, rfl⟩
  · rename_i hno
    rcases horder : ctx.getDependencyResult "create_order" with _ | b | q | str | xs | d
    · rw [horder] at hno
      exact absurd rfl hno
    · rw [horder] at hwf
      simp at hwf
    · rw [horder] at hwf
      simp at hwf
    · rw [horder] at hwf
      simp at hwf
    · rw [horder] at hwf
      simp at hwf
    · rw [horder] at hwf
      obtain ⟨tq, htq⟩ := Option.isSome_iff_exists.mp hwf
      simp only [horder, PyVal.pyGetD, pyFormatFixed2, htq, exceptBindOk]
      exact ⟨_, rfl⟩

end Handlers



namespace Handlers

/-- The success tail of the refund-request handler never raises when the
customer id is `None` or a string. -/
theorem validateRefundRequest_finish_wf_ok (algo : Algo) (w : World)
    (ticket_id customer_id amount reason customer_email order_ref : PyVal)
    (hcid : pvNoneOrStr customer_id = true) :
    ∃ r, ValidateRefundRequestHandler.finish algo w ticket_id customer_id amount
      reason customer_email order_ref = .ok r := by
  unfold ValidateRefundRequestHandler.finish
  simp only []
  split
  · rename_i htr
    rcases pvNoneOrStr_cases hcid with h | ⟨s, h⟩
    · rw [h] at htr
      simp [PyVal.truthy] at htr
    · rw [h]
      simp only [PyVal.pyLower, exceptBindOk]
      split
      · exact ⟨_, rfl⟩
      · split
        · exact ⟨_, rfl⟩
        · exact ⟨_, rfl⟩
  · exact ⟨_, rfl⟩

/-- `ValidateRefundRequestHandler.call` never raises on a well-formed
context. -/
theorem validateRefundRequest_call_wf_ok (algo : Algo) (w : World)
    (ctx : StepContext) (hwf : ctxWF .validateRefundRequest ctx = true) :
    ∃ r, ValidateRefundRequestHandler.call algo w ctx = .ok r := by
  simp only [ctxWF, Bool.and_eq_true] at hwf
  obtain ⟨⟨hamt, hcid⟩, hrsn⟩ := hwf
  obtain ⟨brsn, hbrsn⟩ :=
    pvHashable_inStrs hrsn ValidateRefundRequestHandler.VALID_REASONS
  unfold ValidateRefundRequestHandler.call
  simp only []
  split
  · exact ⟨_, rfl⟩
  · split
    · exact ⟨_, rfl⟩
    · rename_i hat
      rw [not_not] at hat
      rcases pvNoneOrNum_cases hamt with h | ⟨qa, hqa⟩
      · rw [h] at hat
        simp [PyVal.truthy] at hat
      · have h0 : (PyVal.num 0).asNum? = some 0 := rfl
        have hM : (PyVal.num ValidateRefundRequestHandler.MAX_REFUND_AMOUNT).asNum? =
            some ValidateRefundRequestHandler.MAX_REFUND_AMOUNT := rfl
        simp only [PyVal.pyLe, PyVal.pyGt, pyFormatFixed2, hqa, h0, hM, hbrsn,
          exceptBindOk]
        split
        · exact ⟨_, rfl⟩
        · split
          · exact ⟨_, rfl⟩
          · split
            · split
              · exact ⟨_, rfl⟩
              · exact validateRefundRequest_finish_wf_ok algo w _ _ _ _ _ _ hcid
            · exact validateRefundRequest_finish_wf_ok algo w _ _ _ _ _ _ hcid

/-- `ValidateEligibilityHandler.call` never raises on a well-formed
context. -/
theorem validateEligibility_call_wf_ok (algo : Algo) (w : World)
    (ctx : StepContext) (hwf : ctxWF .validatePaymentEligibility ctx = true) :
    ∃ r, ValidateEligibilityHandler.call algo w ctx = .ok r := by
  simp only [ctxWF, Bool.and_eq_true] at hwf
  obtain ⟨hra, ham⟩ := hwf
  unfold ValidateEligibilityHandler.call
  simp only []
  split
  · exact ⟨_, rfl⟩
  · split
    · exact ⟨_, rfl⟩
    · rename_i hat
      rw [not_not] at hat
      have hamtq : ∃ qa,
          (PyVal.pyOr (ctx.getInput "refund_amount") (ctx.getInput "amount")).asNum? =
          some qa := by
        unfold PyVal.pyOr at hat ⊢
        by_cases hr : (ctx.getInput "refund_amount").truthy
        · rw [if_pos hr] at hat ⊢
          rcases pvNoneOrNum_cases hra with h | ⟨q, hq⟩
          · rw [h] at hr
            simp [PyVal.truthy] at hr
          · exact ⟨q, hq⟩
        · rw [if_neg hr] at hat ⊢
          rcases pvNoneOrNum_cases ham with h | ⟨q, hq⟩
          · rw [h] at hat
            simp [PyVal.truthy] at hat
          · exact ⟨q, hq⟩
      obtain ⟨qa, hqa⟩ := hamtq
      have h0 : (PyVal.num 0).asNum? = some 0 := rfl
      simp only [PyVal.pyLe, PyVal.asNumE, hqa, h0, exceptBindOk]
      split
      · exact ⟨_, rfl⟩
      · split <;> split <;> exact ⟨_, rfl⟩

/-- The success tail of the user-account handler never raises when the
email is a string. -/
theorem createUserAccount_finish_wf_ok (algo : Algo) (w : World)
    (es : String) (name plan phone source uidv : PyVal) :
    ∃ r, CreateUserAccountHandler.finish algo w (.str es) name plan phone source
      uidv = .ok r := by
  unfold CreateUserAccountHandler.finish
  simp only [PyVal.pySplitFirst, exceptBindOk]
  exact ⟨_, rfl⟩

/-- `CreateUserAccountHandler.call` never raises on a well-formed
context. -/
theorem createUserAccount_call_wf_ok (algo : Algo) (w : World)
    (ctx : StepContext) (hwf : ctxWF .createUserAccount ctx = true) :
    ∃ r, CreateUserAccountHandler.call algo w ctx = .ok r := by
  simp only [ctxWF] at hwf
  unfold CreateUserAccountHandler.call
  simp only []
  have hud : ∃ d, PyVal.pyOr (ctx.getInput "user_info") (.dict []) = .dict d ∧
      pvNoneOrStr ((PyVal.dictFind d "email").getD .none) = true ∧
      pvNoneOrStr ((PyVal.dictFind d "name").getD .none) = true ∧
      pvNoneOrStr ((PyVal.dictFind d "user_id").getD .none) = true := by
    unfold PyVal.pyOr
    by_cases ht : (ctx.getInput "user_info").truthy
    · rw [if_pos ht]
      rcases hui : ctx.getInput "user_info" with _ | b | q | str | xs | d
      · rw [hui] at ht
        simp [PyVal.truthy] at ht
      · rw [hui] at ht hwf
        simp only [] at hwf
        rw [ht] at hwf
        simp at hwf
      · rw [hui] at ht hwf
        simp only [] at hwf
        rw [ht] at hwf
        simp at hwf
      · rw [hui] at ht hwf
        simp only [] at hwf
        rw [ht] at hwf
        simp at hwf
      · rw [hui] at ht hwf
        simp only [] at hwf
        rw [ht] at hwf
        simp at hwf
      · rw [hui] at hwf
        simp only [Bool.and_eq_true] at hwf
        exact ⟨d, rfl, hwf.1.1, hwf.1.2, hwf.2⟩
    · rw [if_neg ht]
      exact ⟨[], rfl, rfl, rfl, rfl⟩
  obtain ⟨d, hud, hem, hnm, huid⟩ := hud
  rw [hud]
  simp only [PyVal.pyGetD, exceptBindOk]
  split
  · exact ⟨_, rfl⟩
  · rename_i het
    rw [not_not] at het
    rcases pvNoneOrStr_cases hem with h | ⟨es, h⟩
    · rw [h] at het
      simp [PyVal.truthy] at het
    · rw [h]
      simp only [PyVal.pyContains, exceptBindOk]
      split
      · exact ⟨_, rfl⟩
      · split
        · exact ⟨_, rfl⟩
        · rename_i hnt
          rw [not_not] at hnt
          rcases pvNoneOrStr_cases hnm with h2 | ⟨ns, h2⟩
          · rw [h2] at hnt
            simp [PyVal.truthy] at hnt
          · rw [h2]
            simp only [PyVal.pyStrip, exceptBindOk]
            split
            · exact ⟨_, rfl⟩
            · split
              · rename_i hut
                rcases pvNoneOrStr_cases huid with h3 | ⟨us, h3⟩
                · rw [h3] at hut
                  simp [PyVal.truthy] at hut
                · rw [h3]
                  simp only [PyVal.pyLower, exceptBindOk]
                  split
                  · exact ⟨_, rfl⟩
                  · exact createUserAccount_finish_wf_ok algo w es _ _ _ _ _
              · exact createUserAccount_finish_wf_ok algo w es _ _ _ _ _

end Handlers

/-- Counterexample to C3 as stated: a context whose `validate_cart`
payload carries a validated item without a `quantity` key makes
`UpdateInventoryHandler.call` raise an uncaught `KeyError` — the error is
not converted into a structured failure result. -/
theorem update_inventory_uncaught_keyerror :
    Handlers.UpdateInventoryHandler.call world0
      ⟨[], [("validate_cart", .dict [("validated_items", .list [.dict []])])]⟩ =
      .error (.keyError "quantity") := rfl

/-- Reduction of a bind on `pure`. -/
theorem exceptPureBind (a : α) (f : α → Except ε β) :
    ((pure a : Except ε α) >>= f) = f a := rfl

/-- Bind succeeds when the head succeeds (any value) and every
continuation succeeds. -/
theorem exceptBindExistsOk {x : Except ε α} {f : α → Except ε β}
    (hx : ∃ a, x = .ok a) (hf : ∀ a, ∃ r, f a = .ok r) :
    ∃ r, (x >>= f) = .ok r := by
  obtain ⟨a, ha⟩ := hx
  obtain ⟨r, hr⟩ := hf a
  exact ⟨r, by rw [ha, exceptBindOk, hr]⟩

/-- Shape inversion for `pvFalsyOrDict`. -/
theorem pvFalsyOrDict_cases {v : PyVal} (h : pvFalsyOrDict v = true) :
    v.truthy = false ∨ ∃ d, v = .dict d := by
  simp only [pvFalsyOrDict, Bool.or_eq_true, Bool.not_eq_true'] at h
  rcases h with h | h
  · exact Or.inl h
  · exact Or.inr (pvIsDict_cases h)

/-- A falsy-or-dict value that passed a truthiness guard is a dict. -/
theorem pvFalsyOrDict_dict {v : PyVal} (h : pvFalsyOrDict v = true)
    (ht : v.truthy = true) : ∃ d, v = .dict d := by
  rcases pvFalsyOrDict_cases h with h2 | h2
  · rw [ht] at h2
    cases h2
  · exact h2

/-- `v or {}` is a dict whenever `v` is falsy or a dict. -/
theorem pyOrDict_dict {v : PyVal} (h : pvFalsyOrDict v = true) :
    ∃ d, PyVal.pyOr v (.dict []) = .dict d := by
  rcases pvFalsyOrDict_cases h with h2 | h2
  · exact ⟨[], by unfold PyVal.pyOr; rw [if_neg (by simp [h2])]⟩
  · obtain ⟨d, h2⟩ := h2
    subst h2
    by_cases h3 : (PyVal.dict d).truthy
    · exact ⟨d, by unfold PyVal.pyOr; rw [if_pos h3]⟩
    · exact ⟨[], by unfold PyVal.pyOr; rw [if_neg h3]⟩

/-- `hash()` never raises on a hashable value. -/
theorem pvHashable_hashE {v : PyVal} (h : pvHashable v = true) (algo : Algo) :
    ∃ z, pyHashE algo v = .ok z := by
  cases v with
  | none => exact ⟨_, rfl⟩
  | bool b => exact ⟨_, rfl⟩
  | num q => exact ⟨_, rfl⟩
  | str t => exact ⟨_, rfl⟩
  | list xs => exact absurd h (by simp [pvHashable])
  | dict d => exact absurd h (by simp [pvHashable])

/-- Shape inversion for `keyStr`. -/
theorem keyStr_cases {d : List (String × PyVal)} {k : String}
    (h : keyStr d k = true) : ∃ s, PyVal.dictFind d k = some (.str s) := by
  unfold keyStr at h
  rcases hf : PyVal.dictFind d k with _ | v
  · rw [hf] at h
    simp at h
  · rw [hf] at h
    rcases v with _ | b | q | t | xs | dd
    · simp at h
    · simp at h
    · simp at h
    · exact ⟨t, rfl⟩
    · simp at h
    · simp at h

/-- Shape inversion for `keyNum`. -/
theorem keyNum_cases {d : List (String × PyVal)} {k : String}
    (h : keyNum d k = true) :
    ∃ v q, PyVal.dictFind d k = some v ∧ v.asNum? = some q := by
  unfold keyNum at h
  rcases hf : PyVal.dictFind d k with _ | v
  · rw [hf] at h
    simp at h
  · rw [hf] at h
    simp only [pvNum, Option.isSome_iff_exists] at h
    obtain ⟨q, hq⟩ := h
    exact ⟨v, q, rfl, hq⟩

/-- `PLAN_PRICING.get` never raises on a hashable plan. -/
theorem planPricing_ok {v : PyVal} (h : pvHashable v = true) :
    ∃ p, Handlers.SetupBillingProfileHandler.planPricing v = .ok p := by
  cases v with
  | none => exact ⟨_, rfl⟩
  | bool b => exact ⟨_, rfl⟩
  | num q => exact ⟨_, rfl⟩
  | str t => exact ⟨_, rfl⟩
  | list xs => exact absurd h (by simp [pvHashable])
  | dict d => exact absurd h (by simp [pvHashable])

namespace Handlers

/-- `ExtractSalesDataHandler.call` is total: it returns on every context. -/
theorem extractSalesData_call_wf_ok (algo : Algo) (w : World) (ctx : StepContext) :
    ∃ r, ExtractSalesDataHandler.call algo w ctx = .ok r := ⟨_, rfl⟩

/-- `ExtractWebTrafficHandler.call` is total. -/
theorem extractWebTraffic_call_wf_ok (algo : Algo) (w : World) (ctx : StepContext) :
    ∃ r, ExtractWebTrafficHandler.call algo w ctx = .ok r := ⟨_, rfl⟩

/-- `ExtractInventoryHandler.call` is total. -/
theorem extractInventory_call_wf_ok (algo : Algo) (w : World) (ctx : StepContext) :
    ∃ r, ExtractInventoryHandler.call algo w ctx = .ok r := ⟨_, rfl⟩

/-- `ProcessGatewayHandler.call` never raises on a well-formed context. -/
theorem processGateway_call_wf_ok (algo : Algo) (w : World) (ctx : StepContext)
    (hwf : ctxWFAux .processGateway ctx = true) :
    ∃ r, ProcessGatewayHandler.call algo w ctx = .ok r := by
  simp only [ctxWFAux] at hwf
  unfold ProcessGatewayHandler.call
  simp only []
  split
  · exact ⟨_, rfl⟩
  · rename_i hno
    rcases pvNoneOrDict_cases hwf with hc | ⟨d, hc⟩
    · rw [hc] at hno
      exact absurd rfl hno
    · rw [hc]
      simp only [PyVal.pyGetD, exceptBindOk]
      split
      · exact ⟨_, rfl⟩
      · exact ⟨_, rfl⟩

/-- `ExecuteRefundHandler.call` never raises on a well-formed context. -/
theorem executeRefund_call_wf_ok (w : World) (ctx : StepContext)
    (hwf : ctxWFAux .executeRefund ctx = true) :
    ∃ r, ExecuteRefundHandler.call w ctx = .ok r := by
  simp only [ctxWFAux, Bool.and_eq_true] at hwf
  obtain ⟨hap, hval⟩ := hwf
  unfold ExecuteRefundHandler.call
  simp only []
  split
  · exact ⟨_, rfl⟩
  · rename_i ht
    rw [not_not] at ht
    obtain ⟨d, hd⟩ := pvFalsyOrDict_dict hap ht
    obtain ⟨de, hde⟩ := pyOrDict_dict hval
    rw [hd, hde]
    simp only [PyVal.pyGetD, exceptBindOk]
    split
    · exact ⟨_, rfl⟩
    · exact ⟨_, rfl⟩

/-- `UpdateRecordsHandler.call` never raises on a well-formed context. -/
theorem updateRecords_call_wf_ok (w : World) (ctx : StepContext)
    (hwf : ctxWFAux .updateRecords ctx = true) :
    ∃ r, UpdateRecordsHandler.call w ctx = .ok r := by
  simp only [ctxWFAux, Bool.and_eq_true] at hwf
  obtain ⟨hrr, hel⟩ := hwf
  unfold UpdateRecordsHandler.call
  simp only []
  split
  · exact ⟨_, rfl⟩
  · rename_i ht
    rw [not_not] at ht
    obtain ⟨d, hd⟩ := pvFalsyOrDict_dict hrr ht
    obtain ⟨de, hde⟩ := pyOrDict_dict hel
    rw [hd, hde]
    simp only [PyVal.pyGetD, exceptBindOk]
    split
    · exact ⟨_, rfl⟩
    · exact ⟨_, rfl⟩

end Handlers



namespace Handlers

/-- `NotifyCustomerHandler.call` never raises on a well-formed context. -/
theorem notifyCustomer_call_wf_ok (w : World) (ctx : StepContext)
    (hwf : ctxWFAux .notifyCustomer ctx = true) :
    ∃ r, NotifyCustomerHandler.call w ctx = .ok r := by
  simp only [ctxWFAux, Bool.and_eq_true] at hwf
  obtain ⟨⟨⟨hrr, hel⟩, hrec⟩, hnum⟩ := hwf
  unfold NotifyCustomerHandler.call
  simp only []
  split
  · exact ⟨_, rfl⟩
  · rename_i ht
    rw [not_not] at ht
    obtain ⟨d, hd⟩ := pvFalsyOrDict_dict hrr ht
    obtain ⟨de, hde⟩ := pyOrDict_dict hel
    obtain ⟨dr, hdr⟩ := pyOrDict_dict hrec
    rw [hd] at hnum
    simp only [pyGetRaw, pvNum, Option.isSome_iff_exists] at hnum
    obtain ⟨qa, hqa⟩ := hnum
    rw [hd, hde, hdr]
    simp only [PyVal.pyGetD, pyFormatFixed2, hqa, exceptBindOk]
    split
    · exact ⟨_, rfl⟩
    · exact ⟨_, rfl⟩

/-- `UpdateTicketHandler.call` never raises on a well-formed context. -/
theorem updateTicket_call_wf_ok (w : World) (ctx : StepContext)
    (hwf : ctxWFAux .updateTicket ctx = true) :
    ∃ r, UpdateTicketHandler.call w ctx = .ok r := by
  simp only [ctxWFAux, Bool.and_eq_true] at hwf
  obtain ⟨⟨hdel, hval⟩, hnum⟩ := hwf
  unfold UpdateTicketHandler.call
  simp only []
  split
  · exact ⟨_, rfl⟩
  · rename_i ht
    rw [not_not] at ht
    obtain ⟨d, hd⟩ := pvFalsyOrDict_dict hdel ht
    obtain ⟨de, hde⟩ := pyOrDict_dict hval
    rw [hd] at hnum
    simp only [pyGetRaw, pvNum, Option.isSome_iff_exists] at hnum
    obtain ⟨qa, hqa⟩ := hnum
    rw [hd, hde]
    simp only [PyVal.pyGetD, pyFormatFixed2, hqa, exceptBindOk]
    split
    · exact ⟨_, rfl⟩
    · exact ⟨_, rfl⟩

/-- `ApproveRefundHandler.call` never raises on a well-formed context. -/
theorem approveRefund_call_wf_ok (algo : Algo) (w : World) (ctx : StepContext)
    (hwf : ctxWFAux .approveRefund ctx = true) :
    ∃ r, ApproveRefundHandler.call algo w ctx = .ok r := by
  simp only [ctxWFAux, Bool.and_eq_true] at hwf
  obtain ⟨⟨⟨hpol, hval⟩, hnum⟩, hhash⟩ := hwf
  unfold ApproveRefundHandler.call
  simp only []
  split
  · exact ⟨_, rfl⟩
  · rename_i ht
    rw [not_not] at ht
    obtain ⟨d, hd⟩ := pvFalsyOrDict_dict hpol ht
    obtain ⟨de, hde⟩ := pyOrDict_dict hval
    rw [hde] at hnum
    simp only [pyGetRaw, pvNum, Option.isSome_iff_exists] at hnum
    obtain ⟨qa, hqa⟩ := hnum
    obtain ⟨z, hz⟩ := pvHashable_hashE hhash algo
    rw [hd, hde]
    simp only [PyVal.pyGetD, pyFormatFixed2, hqa, hz, exceptBindOk]
    split
    · exact ⟨_, rfl⟩
    · split
      · exact ⟨_, rfl⟩
      · exact ⟨_, rfl⟩

/-- `SetupBillingProfileHandler.call` never raises on a well-formed
context. -/
theorem setupBillingProfile_call_wf_ok (w : World) (ctx : StepContext)
    (hwf : ctxWFAux .setupBillingProfile ctx = true) :
    ∃ r, SetupBillingProfileHandler.call w ctx = .ok r := by
  simp only [ctxWFAux, Bool.and_eq_true] at hwf
  obtain ⟨hud, hplan⟩ := hwf
  unfold SetupBillingProfileHandler.call
  simp only []
  split
  · exact ⟨_, rfl⟩
  · rename_i hno
    rcases pvNoneOrDict_cases hud with hc | ⟨d, hc⟩
    · rw [hc] at hno
      exact absurd rfl hno
    · obtain ⟨p, hp⟩ := planPricing_ok hplan
      rw [hc]
      simp only [PyVal.pyGetD, hp, exceptBindOk]
      exact ⟨_, rfl⟩

/-- `InitializePreferencesHandler.call` never raises on a well-formed
context. -/
theorem initializePreferences_call_wf_ok (w : World) (ctx : StepContext)
    (hwf : ctxWFAux .initializePreferences ctx = true) :
    ∃ r, InitializePreferencesHandler.call w ctx = .ok r := by
  simp only [ctxWFAux, Bool.and_eq_true] at hwf
  obtain ⟨⟨hud, hui⟩, hpref⟩ := hwf
  unfold InitializePreferencesHandler.call
  simp only []
  split
  · exact ⟨_, rfl⟩
  · rename_i hno
    rcases pvNoneOrDict_cases hud with hc | ⟨d, hc⟩
    · rw [hc] at hno
      exact absurd rfl hno
    · obtain ⟨du, hdu⟩ := pyOrDict_dict hui
      rw [hdu] at hpref
      simp only [pyGetRaw] at hpref
      obtain ⟨dc, hdc⟩ := pvIsDict_cases hpref
      rw [hc, hdu]
      simp only [PyVal.pyGetD, hdc, exceptBindOk]
      exact ⟨_, rfl⟩

/-- `SendWelcomeSequenceHandler.call` never raises on a well-formed
context. -/
theorem sendWelcomeSequence_call_wf_ok (w : World) (ctx : StepContext)
    (hwf : ctxWFAux .sendWelcomeSequence ctx = true) :
    ∃ r, SendWelcomeSequenceHandler.call w ctx = .ok r := by
  simp only [ctxWFAux, Bool.and_eq_true] at hwf
  obtain ⟨⟨⟨hu, hb⟩, hp⟩, hpref⟩ := hwf
  unfold SendWelcomeSequenceHandler.call
  simp only []
  split
  · exact ⟨_, rfl⟩
  · rename_i ht
    rw [not_not] at ht
    simp only [Bool.and_eq_true] at ht
    obtain ⟨⟨htu, htb⟩, htp⟩ := ht
    obtain ⟨du, hdu⟩ := pvFalsyOrDict_dict hu htu
    obtain ⟨db, hdb⟩ := pvFalsyOrDict_dict hb htb
    obtain ⟨dp, hdp⟩ := pvFalsyOrDict_dict hp htp
    rw [hdp] at hpref
    simp only [pyGetRaw] at hpref
    obtain ⟨dpr, hdpr⟩ := pvIsDict_cases hpref
    rw [hdu, hdb, hdp]
    simp only [PyVal.pyGetD, hdpr, exceptBindOk, exceptPureBind]
    split
    · exact ⟨_, rfl⟩
    · exact ⟨_, rfl⟩

/-- `UpdateUserStatusHandler.call` never raises on a well-formed
context. -/
theorem updateUserStatus_call_wf_ok (w : World) (ctx : StepContext)
    (hwf : ctxWFAux .updateUserStatus ctx = true) :
    ∃ r, UpdateUserStatusHandler.call w ctx = .ok r := by
  simp only [ctxWFAux, Bool.and_eq_true] at hwf
  obtain ⟨⟨⟨hu, hb⟩, hp⟩, hw⟩ := hwf
  unfold UpdateUserStatusHandler.call
  simp only []
  split
  · exact ⟨_, rfl⟩
  · rename_i ht
    rw [not_not] at ht
    simp only [Bool.and_eq_true] at ht
    obtain ⟨⟨⟨htu, htb⟩, htp⟩, htw⟩ := ht
    obtain ⟨du, hdu⟩ := pvFalsyOrDict_dict hu htu
    obtain ⟨db, hdb⟩ := pvFalsyOrDict_dict hb htb
    obtain ⟨dp, hdp⟩ := pvFalsyOrDict_dict hp htp
    obtain ⟨dw, hdw⟩ := pvFalsyOrDict_dict hw htw
    rw [hdu, hdb, hdp, hdw]
    simp only [PyVal.pyGetD, exceptBindOk, exceptPureBind]
    split
    · split
      · exact ⟨_, rfl⟩
      · exact ⟨_, rfl⟩
    · exact ⟨_, rfl⟩

end Handlers



namespace Handlers

/-- `CheckRefundPolicyHandler.call` never raises on a well-formed
context. -/
theorem checkRefundPolicy_call_wf_ok (w : World) (ctx : StepContext)
    (hwf : ctxWFAux .checkRefundPolicy ctx = true) :
    ∃ r, CheckRefundPolicyHandler.call w ctx = .ok r := by
  simp only [ctxWFAux, Bool.and_eq_true] at hwf
  obtain ⟨⟨hval, hmid⟩, hopd⟩ := hwf
  unfold CheckRefundPolicyHandler.call
  simp only []
  split
  · exact ⟨_, rfl⟩
  · rename_i hno
    rcases pvNoneOrDict_cases hval with hc | ⟨d, hc⟩
    · rw [hc] at hno
      exact absurd rfl hno
    · simp only [hc, Bool.and_eq_true] at hmid
      obtain ⟨hamt, hrsn⟩ := hmid
      simp only [pvNum, Option.isSome_iff_exists] at hamt
      obtain ⟨qa, hqa⟩ := hamt
      obtain ⟨brsn, hbrsn⟩ := pvHashable_inStrs hrsn
        CheckRefundPolicyHandler.AUTO_APPROVE_REASONS
      have h50 : (PyVal.num CheckRefundPolicyHandler.AUTO_APPROVE_THRESHOLD).asNum? =
          some CheckRefundPolicyHandler.AUTO_APPROVE_THRESHOLD := rfl
      have h500 : (PyVal.num CheckRefundPolicyHandler.REVIEW_THRESHOLD).asNum? =
          some CheckRefundPolicyHandler.REVIEW_THRESHOLD := rfl
      rw [hc]
      simp only [PyVal.pyGetD, PyVal.pyLe, PyVal.pyGt, hqa, h50, h500, hbrsn,
        exceptBindOk, exceptPureBind]
      split
      · exact ⟨_, rfl⟩
      · refine exceptBindExistsOk ?_ ?_
        · split
          · exact ⟨_, rfl⟩
          · split
            · split
              · exact ⟨_, rfl⟩
              · split
                · exact ⟨_, rfl⟩
                · exact ⟨_, rfl⟩
            · split
              · exact ⟨_, rfl⟩
              · exact ⟨_, rfl⟩
        · intro p
          refine exceptBindExistsOk ?_ ?_
          · split
            · rename_i htr
              rcases pvNoneOrStr_cases hopd with h2 | ⟨sd, h2⟩
              · rw [h2] at htr
                simp [PyVal.truthy] at htr
              · rw [h2]
                exact ⟨_, rfl⟩
            · exact ⟨_, rfl⟩
          · intro days
            exact ⟨_, rfl⟩

/-- The sales grouping loop never raises on well-shaped records. -/
theorem transformSalesLoop_wf_ok :
    ∀ (items : List PyVal), items.all salesRecWF = true →
      ∀ (bc br : List (String × SalesGroup)) (acc : ℚ),
      ∃ v, transformSalesLoop items bc br acc = .ok v := by
  intro items
  induction items with
  | nil => exact fun _ bc br acc => ⟨(bc, br, acc), rfl⟩
  | cons r rest ih =>
    intro hall bc br acc
    simp only [List.all_cons, Bool.and_eq_true] at hall
    obtain ⟨hitem, hrest⟩ := hall
    rcases r with _ | b | q | t | xs | dd
    · exact absurd hitem (by simp [salesRecWF])
    · exact absurd hitem (by simp [salesRecWF])
    · exact absurd hitem (by simp [salesRecWF])
    · exact absurd hitem (by simp [salesRecWF])
    · exact absurd hitem (by simp [salesRecWF])
    · simp only [salesRecWF, Bool.and_eq_true] at hitem
      obtain ⟨⟨⟨hk1, hk2⟩, hk3⟩, hk4⟩ := hitem
      obtain ⟨cs, hcs⟩ := keyStr_cases hk1
      obtain ⟨rs, hrs⟩ := keyStr_cases hk2
      obtain ⟨rv, rq, hrv, hrvq⟩ := keyNum_cases hk3
      obtain ⟨qv, qq, hqv, hqq⟩ := keyNum_cases hk4
      simp only [transformSalesLoop, PyVal.pySubscript, hcs, hrs, hrv, hqv,
        PyVal.asNumE, hrvq, hqq, exceptBindOk]
      exact ih hrest _ _ _

/-- `TransformSalesDataHandler.call` never raises on a well-formed
context. -/
theorem transformSalesData_call_wf_ok (w : World) (ctx : StepContext)
    (hwf : ctxWFAux .transformSalesData ctx = true) :
    ∃ r, TransformSalesDataHandler.call w ctx = .ok r := by
  simp only [ctxWFAux, Bool.and_eq_true] at hwf
  obtain ⟨hdep, hrecs⟩ := hwf
  unfold TransformSalesDataHandler.call
  simp only []
  split
  · exact ⟨_, rfl⟩
  · rename_i hno
    rcases pvNoneOrDict_cases hdep with hc | ⟨d, hc⟩
    · rw [hc] at hno
      exact absurd rfl hno
    · simp only [hc] at hrecs
      rw [hc]
      simp only [PyVal.pyGetD, exceptBindOk]
      rcases hvi : (PyVal.dictFind d "records").getD (.list []) with _ | b | q | t | xs | dd
      · rw [hvi] at hrecs
        simp at hrecs
      · rw [hvi] at hrecs
        simp at hrecs
      · rw [hvi] at hrecs
        simp at hrecs
      · rw [hvi] at hrecs
        simp at hrecs
      · simp only [hvi] at hrecs
        obtain ⟨v, hv⟩ := transformSalesLoop_wf_ok xs hrecs [] [] 0
        rcases v with ⟨bc, br, acc⟩
        simp only [hvi, hv, exceptBindOk]
        exact ⟨_, rfl⟩
      · rw [hvi] at hrecs
        simp at hrecs

/-- The traffic grouping loop never raises on well-shaped records. -/
theorem transformTrafficLoop_wf_ok :
    ∀ (items : List PyVal), items.all trafficRecWF = true →
      ∀ (bs : List (String × SourceGroup)) (bp : List (String × PageGroup)) (acc : ℚ),
      ∃ v, transformTrafficLoop items bs bp acc = .ok v := by
  intro items
  induction items with
  | nil => exact fun _ bs bp acc => ⟨(bs, bp, acc), rfl⟩
  | cons r rest ih =>
    intro hall bs bp acc
    simp only [List.all_cons, Bool.and_eq_true] at hall
    obtain ⟨hitem, hrest⟩ := hall
    rcases r with _ | b | q | t | xs | dd
    · exact absurd hitem (by simp [trafficRecWF])
    · exact absurd hitem (by simp [trafficRecWF])
    · exact absurd hitem (by simp [trafficRecWF])
    · exact absurd hitem (by simp [trafficRecWF])
    · exact absurd hitem (by simp [trafficRecWF])
    · simp only [trafficRecWF, Bool.and_eq_true] at hitem
      obtain ⟨⟨⟨⟨⟨hk1, hk2⟩, hk3⟩, hk4⟩, hk5⟩, hk6⟩ := hitem
      obtain ⟨ss, hss⟩ := keyStr_cases hk1
      obtain ⟨ps, hps⟩ := keyStr_cases hk2
      obtain ⟨sv, sq, hsv, hsq⟩ := keyNum_cases hk3
      obtain ⟨cv, cq, hcv, hcq⟩ := keyNum_cases hk4
      obtain ⟨bv, bq, hbv, hbq⟩ := keyNum_cases hk5
      obtain ⟨pv, pq, hpv, hpq⟩ := keyNum_cases hk6
      simp only [transformTrafficLoop, PyVal.pySubscript, hss, hps, hsv, hcv, hbv,
        hpv, PyVal.asNumE, hsq, hcq, hbq, hpq, exceptBindOk]
      exact ih hrest _ _ _

/-- `TransformWebTrafficHandler.call` never raises on a well-formed
context. -/
theorem transformWebTraffic_call_wf_ok (w : World) (ctx : StepContext)
    (hwf : ctxWFAux .transformWebTraffic ctx = true) :
    ∃ r, TransformWebTrafficHandler.call w ctx = .ok r := by
  simp only [ctxWFAux, Bool.and_eq_true] at hwf
  obtain ⟨hdep, hrecs⟩ := hwf
  unfold TransformWebTrafficHandler.call
  simp only []
  split
  · exact ⟨_, rfl⟩
  · rename_i hno
    rcases pvNoneOrDict_cases hdep with hc | ⟨d, hc⟩
    · rw [hc] at hno
      exact absurd rfl hno
    · simp only [hc] at hrecs
      rw [hc]
      simp only [PyVal.pyGetD, exceptBindOk]
      rcases hvi : (PyVal.dictFind d "records").getD (.list []) with _ | b | q | t | xs | dd
      · rw [hvi] at hrecs
        simp at hrecs
      · rw [hvi] at hrecs
        simp at hrecs
      · rw [hvi] at hrecs
        simp at hrecs
      · rw [hvi] at hrecs
        simp at hrecs
      · simp only [hvi] at hrecs
        obtain ⟨v, hv⟩ := transformTrafficLoop_wf_ok xs hrecs [] [] 0
        rcases v with ⟨bs, bp, acc⟩
        simp only [hvi, hv, exceptBindOk]
        exact ⟨_, rfl⟩
      · rw [hvi] at hrecs
        simp at hrecs

/-- The inventory grouping loop never raises on well-shaped records. -/
theorem transformInventoryLoop_wf_ok :
    ∀ (items : List PyVal), items.all invRecWF = true →
      ∀ (bw bc : List (String × InvGroup)) (low : List PyVal) (acc : ℚ),
      ∃ v, transformInventoryLoop items bw bc low acc = .ok v := by
  intro items
  induction items with
  | nil => exact fun _ bw bc low acc => ⟨(bw, bc, low, acc), rfl⟩
  | cons r rest ih =>
    intro hall bw bc low acc
    simp only [List.all_cons, Bool.and_eq_true] at hall
    obtain ⟨hitem, hrest⟩ := hall
    rcases r with _ | b | q | t | xs | dd
    · exact absurd hitem (by simp [invRecWF])
    · exact absurd hitem (by simp [invRecWF])
    · exact absurd hitem (by simp [invRecWF])
    · exact absurd hitem (by simp [invRecWF])
    · exact absurd hitem (by simp [invRecWF])
    · simp only [invRecWF, Bool.and_eq_true] at hitem
      obtain ⟨⟨⟨⟨⟨⟨hk1, hk2⟩, hk3⟩, hk4⟩, hk5⟩, hk6⟩, hk7⟩ := hitem
      obtain ⟨ws, hws⟩ := keyStr_cases hk1
      obtain ⟨cs, hcs⟩ := keyStr_cases hk2
      obtain ⟨sv, sq, hsv, hsq⟩ := keyNum_cases hk3
      obtain ⟨vv, vq, hvv, hvq⟩ := keyNum_cases hk4
      obtain ⟨stv, hstv⟩ := Option.isSome_iff_exists.mp hk5
      obtain ⟨skv, hskv⟩ := Option.isSome_iff_exists.mp hk6
      obtain ⟨rpv, hrpv⟩ := Option.isSome_iff_exists.mp hk7
      simp only [transformInventoryLoop, PyVal.pySubscript, hws, hcs, hsv, hvv,
        hstv, hskv, hrpv, PyVal.asNumE, hsq, hvq, exceptBindOk, exceptPureBind]
      refine exceptBindExistsOk ?_ ?_
      · split
        · exact ⟨_, rfl⟩
        · exact ⟨_, rfl⟩
      · intro li
        exact ih hrest _ _ _ _

/-- `TransformInventoryHandler.call` never raises on a well-formed
context. -/
theorem transformInventory_call_wf_ok (w : World) (ctx : StepContext)
    (hwf : ctxWFAux .transformInventory ctx = true) :
    ∃ r, TransformInventoryHandler.call w ctx = .ok r := by
  simp only [ctxWFAux, Bool.and_eq_true] at hwf
  obtain ⟨hdep, hrecs⟩ := hwf
  unfold TransformInventoryHandler.call
  simp only []
  split
  · exact ⟨_, rfl⟩
  · rename_i hno
    rcases pvNoneOrDict_cases hdep with hc | ⟨d, hc⟩
    · rw [hc] at hno
      exact absurd rfl hno
    · simp only [hc] at hrecs
      rw [hc]
      simp only [PyVal.pyGetD, exceptBindOk]
      rcases hvi : (PyVal.dictFind d "records").getD (.list []) with _ | b | q | t | xs | dd
      · rw [hvi] at hrecs
        simp at hrecs
      · rw [hvi] at hrecs
        simp at hrecs
      · rw [hvi] at hrecs
        simp at hrecs
      · rw [hvi] at hrecs
        simp at hrecs
      · simp only [hvi] at hrecs
        obtain ⟨v, hv⟩ := transformInventoryLoop_wf_ok xs hrecs [] [] [] 0
        rcases v with ⟨bw, bc, lowI, acc⟩
        simp only [hvi, hv, exceptBindOk]
        exact ⟨_, rfl⟩
      · rw [hvi] at hrecs
        simp at hrecs

/-- `AggregateMetricsHandler.call` never raises on a well-formed
context. -/
theorem aggregateMetrics_call_wf_ok (w : World) (ctx : StepContext)
    (hwf : ctxWFAux .aggregateMetrics ctx = true) :
    ∃ r, AggregateMetricsHandler.call w ctx = .ok r := by
  simp only [ctxWFAux, Bool.and_eq_true] at hwf
  obtain ⟨⟨⟨⟨⟨⟨⟨⟨hs, htf⟩, hic⟩, hn1⟩, hn2⟩, hn3⟩, hn4⟩, hn5⟩, hn6⟩ := hwf
  unfold AggregateMetricsHandler.call
  simp only []
  split
  · exact ⟨_, rfl⟩
  · rename_i ht
    rw [not_not] at ht
    simp only [Bool.and_eq_true] at ht
    obtain ⟨⟨ht1, ht2⟩, ht3⟩ := ht
    obtain ⟨ds, hds⟩ := pvFalsyOrDict_dict hs ht1
    obtain ⟨dt, hdt⟩ := pvFalsyOrDict_dict htf ht2
    obtain ⟨di, hdi⟩ := pvFalsyOrDict_dict hic ht3
    rw [hds] at hn1 hn4
    rw [hdt] at hn2 hn5
    rw [hdi] at hn3 hn6
    simp only [pyGetRaw, pvNum, Option.isSome_iff_exists] at hn1 hn2 hn3 hn4 hn5 hn6
    obtain ⟨q1, hq1⟩ := hn1
    obtain ⟨q2, hq2⟩ := hn2
    obtain ⟨q3, hq3⟩ := hn3
    obtain ⟨q4, hq4⟩ := hn4
    obtain ⟨q5, hq5⟩ := hn5
    obtain ⟨q6, hq6⟩ := hn6
    have hnum0 : ∀ q : ℚ, (PyVal.num q).asNum? = some q := fun _ => rfl
    rw [hds, hdt, hdi]
    simp only [PyVal.pyGetD, PyVal.pyGt, PyVal.pyAddNum, PyVal.asNumE, hq1, hq2,
      hq3, hq4, hq5, hq6, hnum0, exceptBindOk, exceptPureBind]
    refine exceptBindExistsOk ?_ ?_
    · split
      · exact ⟨_, rfl⟩
      · exact ⟨_, rfl⟩
    · intro rpc
      refine exceptBindExistsOk ?_ ?_
      · split
        · exact ⟨_, rfl⟩
        · exact ⟨_, rfl⟩
      · intro tv
        exact ⟨_, rfl⟩

/-- `GenerateInsightsHandler.call` never raises on a well-formed
context. -/
theorem generateInsightsHandler_call_wf_ok (w : World) (ctx : StepContext)
    (hwf : ctxWFAux .generateInsights ctx = true) :
    ∃ r, GenerateInsightsHandler.call w ctx = .ok r := by
  simp only [ctxWFAux, Bool.and_eq_true] at hwf
  obtain ⟨⟨⟨⟨⟨⟨⟨⟨⟨hm, hn1⟩, hn2⟩, hn3⟩, hn4⟩, hn5⟩, hd1⟩, hd2⟩, hd3⟩, hlow⟩ := hwf
  unfold GenerateInsightsHandler.call
  simp only []
  split
  · exact ⟨_, rfl⟩
  · rename_i hno
    rcases pvNoneOrDict_cases hm with hc | ⟨dm, hc⟩
    · rw [hc] at hno
      exact absurd rfl hno
    · rw [hc] at hn1 hn2 hn3 hn4 hn5 hd1 hd2 hd3 hlow
      simp only [pyGetRaw, pvNum, Option.isSome_iff_exists] at hn1 hn2 hn3 hn4 hn5
      simp only [pyGetRaw] at hd1 hd2 hd3 hlow
      obtain ⟨q1, hq1⟩ := hn1
      obtain ⟨q2, hq2⟩ := hn2
      obtain ⟨q3, hq3⟩ := hn3
      obtain ⟨q4, hq4⟩ := hn4
      obtain ⟨q5, hq5⟩ := hn5
      obtain ⟨ds1, hds1⟩ := pvIsDict_cases hd1
      obtain ⟨ds2, hds2⟩ := pvIsDict_cases hd2
      obtain ⟨ds3, hds3⟩ := pvIsDict_cases hd3
      simp only [hds3, pvNum, Option.isSome_iff_exists] at hlow
      obtain ⟨qlow, hqlow⟩ := hlow
      have hnum0 : ∀ q : ℚ, (PyVal.num q).asNum? = some q := fun _ => rfl
      rw [hc]
      simp only [PyVal.pyGetD, PyVal.pyGt, PyVal.pyLt, PyVal.asNumE, hds1, hds2,
        hds3, hq1, hq2, hq3, hq4, hq5, hqlow, hnum0, exceptBindOk, exceptPureBind]
      refine exceptBindExistsOk ?_ ?_
      · split
        · exact ⟨_, rfl⟩
        · exact ⟨_, rfl⟩
      · intro ri
        refine exceptBindExistsOk ?_ ?_
        · split
          · exact ⟨_, rfl⟩
          · split
            · exact ⟨_, rfl⟩
            · exact ⟨_, rfl⟩
        · intro io
          refine exceptBindExistsOk ?_ ?_
          · split
            · exact ⟨_, rfl⟩
            · exact ⟨_, rfl⟩
          · intro av
            exact ⟨_, rfl⟩

end Handlers


/-- C3 (amended): for every step handler class in the repository (all 27
`StepHandler` subclasses under `app/handlers/` — the eight of
`RepoHandler` together with the nineteen of `AuxHandler`) and every step
context well-shaped for it (`ctxWFAll`: the values the handler
subscripts, iterates, slices, hashes, lowercases, unpacks or formats
carry the expected types and keys), the handler `call` returns a
value — every error outcome is a structured failure result, never an
uncaught exception. -/
theorem handlers_no_uncaught_exceptions (h : AnyHandler) (algo : Algo)
    (w : World) (ctx : StepContext) (hwf : ctxWFAll h ctx = true) :
    ∃ r, h.call algo w ctx = .ok r := by
  cases h with
  | base hb =>
    cases hb with
    | validateCart => exact Handlers.validateCart_call_wf_ok w ctx hwf
    | processPayment => exact Handlers.processPayment_call_wf_ok algo w ctx hwf
    | updateInventory => exact Handlers.updateInventory_call_wf_ok w ctx hwf
    | createOrder => exact Handlers.createOrder_call_wf_ok w ctx hwf
    | sendConfirmation => exact Handlers.sendConfirmation_call_wf_ok w ctx hwf
    | validateRefundRequest =>
      exact Handlers.validateRefundRequest_call_wf_ok algo w ctx hwf
    | validatePaymentEligibility =>
      exact Handlers.validateEligibility_call_wf_ok algo w ctx hwf
    | createUserAccount =>
      exact Handlers.createUserAccount_call_wf_ok algo w ctx hwf
  | extra hx =>
    cases hx with
    | checkRefundPolicy => exact Handlers.checkRefundPolicy_call_wf_ok w ctx hwf
    | approveRefund => exact Handlers.approveRefund_call_wf_ok algo w ctx hwf
    | executeRefund => exact Handlers.executeRefund_call_wf_ok w ctx hwf
    | updateTicket => exact Handlers.updateTicket_call_wf_ok w ctx hwf
    | processGateway => exact Handlers.processGateway_call_wf_ok algo w ctx hwf
    | updateRecords => exact Handlers.updateRecords_call_wf_ok w ctx hwf
    | notifyCustomer => exact Handlers.notifyCustomer_call_wf_ok w ctx hwf
    | setupBillingProfile =>
      exact Handlers.setupBillingProfile_call_wf_ok w ctx hwf
    | initializePreferences =>
      exact Handlers.initializePreferences_call_wf_ok w ctx hwf
    | sendWelcomeSequence =>
      exact Handlers.sendWelcomeSequence_call_wf_ok w ctx hwf
    | updateUserStatus => exact Handlers.updateUserStatus_call_wf_ok w ctx hwf
    | extractSalesData => exact Handlers.extractSalesData_call_wf_ok algo w ctx
    | extractWebTraffic => exact Handlers.extractWebTraffic_call_wf_ok algo w ctx
    | extractInventory => exact Handlers.extractInventory_call_wf_ok algo w ctx
    | transformSalesData =>
      exact Handlers.transformSalesData_call_wf_ok w ctx hwf
    | transformWebTraffic =>
      exact Handlers.transformWebTraffic_call_wf_ok w ctx hwf
    | transformInventory =>
      exact Handlers.transformInventory_call_wf_ok w ctx hwf
    | aggregateMetrics => exact Handlers.aggregateMetrics_call_wf_ok w ctx hwf
    | generateInsights =>
      exact Handlers.generateInsightsHandler_call_wf_ok w ctx hwf

/-- Witness for C3 (amended): the empty context is well-formed both for
the cart validator (whose call returns the structured empty-cart
failure) and for the refund-policy checker (whose call returns the
structured missing-dependency failure). -/
theorem handlers_no_uncaught_exceptions_witness :
    (ctxWFAll (.base .validateCart) ⟨[], []⟩ = true ∧
      ∃ r, AnyHandler.call (.base .validateCart) algo0 world0 ⟨[], []⟩ = .ok r) ∧
    (ctxWFAll (.extra .checkRefundPolicy) ⟨[], []⟩ = true ∧
      ∃ r, AnyHandler.call (.extra .checkRefundPolicy) algo0 world0 ⟨[], []⟩ = .ok r) :=
  ⟨⟨rfl, handlers_no_uncaught_exceptions (.base .validateCart) algo0 world0
      ⟨[], []⟩ rfl⟩,
   ⟨rfl, handlers_no_uncaught_exceptions (.extra .checkRefundPolicy) algo0 world0
      ⟨[], []⟩ rfl⟩⟩

end TaskerContrib
